import Mathlib

set_option maxRecDepth 10000
set_option linter.unusedVariables false
set_option linter.unreachableTactic false
set_option linter.unusedTactic false

/-!
Verification of the Collatz cellular automaton (`collatz.py`).

The program simulates Collatz steps with a 10-state one-dimensional cellular
automaton.  Cell states are the blank marker `S`, the binary digits `0` and
`1`, and seven carry pairs `(bit, count)`.  We embed the cell alphabet as an
inductive type whose `carry` constructor carries the two natural-number
components of the Python tuple; the ten legal states are listed in `symbols`,
mirroring the `symbols` list of the source.

Tapes are lists of cells.  The Python code stores tapes as strings of symbol
characters; since `mapsymbol`/`reversemap` form a bijection between the ten
states and their characters (proved below), the stepping functions are
embedded directly on cell lists.
-/

namespace CollatzCA

inductive Cell where
  | S : Cell
  | zero : Cell
  | one : Cell
  | carry : Nat → Nat → Cell
deriving DecidableEq, Repr

open Cell

/-- The seven legal carry pairs, in the order of the source's `symbols` list. -/
def carryPairs : List (Nat × Nat) := [(0,0), (0,1), (0,2), (1,0), (1,1), (1,2), (1,3)]

/-- The `symbols` list of the source: the 10-state alphabet. -/
def symbols : List Cell :=
  [S, zero, one] ++ carryPairs.map (fun p => carry p.1 p.2)

/-- The source's `collatz_rule(left, c, right)`.  The first two branches are
the division and multiply triggers; the match distinguishes a carry at the
center (`c not in ["S", 0, 1]`), a carry to the right, and the default. -/
def collatz_rule (left c right : Cell) : Cell :=
  if right = S ∧ c = zero then S
  else if right = S ∧ c = one then carry 1 2
  else match c, right with
    | carry _ k, _ =>
      if k % 2 = 1 then one
      else if right = S then S
      else zero
    | _, carry x y =>
      if c = S ∧ (if c = one then 1 else 0) = 0 ∧
          (if c = one then 1 else 0) + x + y / 2 = 0 then S
      else carry (if c = one then 1 else 0) ((if c = one then 1 else 0) + x + y / 2)
    | _, _ => c

/-- The source's `multiply_add_one_rule(left, c, right)`: boundary digits are
frozen, a carry center resolves to its count's parity, everything else
delegates to `collatz_rule`. -/
def multiply_add_one_rule (left c right : Cell) : Cell :=
  if right = S ∧ (c = zero ∨ c = one) then c
  else match c with
    | carry _ k => if k % 2 = 1 then one else zero
    | _ => collatz_rule left c right

/-- The source's `mapsymbol`; `none` models the `ValueError` raised on a
value outside the ten symbols. -/
def mapsymbol (c : Cell) : Option Char :=
  if c = S then some 'S'
  else if c = zero then some '0'
  else if c = one then some '1'
  else if c = carry 0 0 then some 'a'
  else if c = carry 0 1 then some 'b'
  else if c = carry 0 2 then some 'c'
  else if c = carry 1 0 then some 'A'
  else if c = carry 1 1 then some 'B'
  else if c = carry 1 2 then some 'C'
  else if c = carry 1 3 then some 'D'
  else none

/-- The source's `reversemap`: linear search through `symbols`; `none`
models the `ValueError` raised on an unrecognized character. -/
def reversemap (ch : Char) : Option Cell :=
  symbols.find? (fun s => decide (mapsymbol s = some ch))

/-- Per-position result of `iterate_rule`'s loop body: the left neighbor is
`S` when the index is 0, the right neighbor is `S` when the index is the last
one, otherwise the adjacent entries of the tape. -/
def cellNext (rule : Cell → Cell → Cell → Cell) (s : List Cell) (i : Nat) : Cell :=
  rule (if 0 < i then s.getD (i - 1) S else S) (s.getD i S)
    (if i < s.length - 1 then s.getD (i + 1) S else S)

/-- Python's `str.strip("S")`: remove every leading and trailing `S`. -/
def stripS (l : List Cell) : List Cell :=
  ((l.dropWhile (fun c => decide (c = S))).reverse.dropWhile (fun c => decide (c = S))).reverse

/-- The source's `iterate_rule(s, rule)`: map the rule over every position,
then re-wrap the stripped result in one `S` sentinel on each side. -/
def iterate_rule (s : List Cell) (rule : Cell → Cell → Cell → Cell) : List Cell :=
  S :: stripS ((List.range s.length).map (cellNext rule s)) ++ [S]

/-- Binary digits (most significant first) with explicit fuel, so that the
definition is structural and computes inside the kernel. -/
def natToBitsAux : Nat → Nat → List Cell
  | 0, _ => []
  | fuel + 1, n =>
    if n = 0 then []
    else natToBitsAux fuel (n / 2) ++ [if n % 2 = 1 then one else zero]

/-- Python's `"{0:b}".format(n)` as a list of digit cells (empty for 0; the
program only ever formats positive numbers). -/
def natToBits (n : Nat) : List Cell := natToBitsAux n n

/-- Python's `s[1:-1]`: the interior of a sentinel-wrapped tape. -/
def tapeInterior (s : List Cell) : List Cell := (s.drop 1).dropLast

/-- The numeric value of one digit cell, `none` on non-digits. -/
def digitVal : Cell → Option Nat
  | zero => some 0
  | one => some 1
  | _ => none

def decodeBitsAux : Nat → List Cell → Option Nat
  | acc, [] => some acc
  | acc, c :: rest =>
    match digitVal c with
    | some d => decodeBitsAux (2 * acc + d) rest
    | none => none

/-- Python's `int(str, 2)`: most-significant-bit-first binary decoding, `none`
(the `ValueError`) on an empty or non-digit string. -/
def decodeBits (l : List Cell) : Option Nat :=
  if l = [] then none else decodeBitsAux 0 l

/-- The `while s_old != s` loop body of `test_multiply`: compare the current
tape with the previous one and step once per round. -/
def iterFixAux : Nat → (Cell → Cell → Cell → Cell) → List Cell → List Cell → List Cell
  | 0, _, _, s => s
  | fuel + 1, rule, s_old, s =>
    if s_old = s then s else iterFixAux fuel rule s (iterate_rule s rule)

/-- The `while s_old != s` loop of `test_multiply`: iterate the stepper until
the tape stops changing (with fuel; the source's loop is unbounded).  The
initial `s_old` is the empty tape, modelling the source's `s_old = ""`. -/
def iterFix (fuel : Nat) (rule : Cell → Cell → Cell → Cell) (s : List Cell) : List Cell :=
  iterFixAux fuel rule [] s

/-- The initial tape `"S" + bin(n//2) + "C" + "S"` of `test_multiply`. -/
def multiplyTape (n : Nat) : List Cell :=
  S :: natToBits (n / 2) ++ [carry 1 2, S]

/-- The body of `run`: `maxlen` is updated before the `s[:3] == "S1S"` check,
so the initial tape's length is counted.  Fuel models the unbounded
`while True`. -/
def runAux : Nat → Nat → Nat → List Cell → Option (Nat × Nat)
  | 0, _, _, _ => none
  | fuel + 1, steps, maxlen, s =>
    if s.take 3 = [S, one, S] then some (steps, max s.length maxlen)
    else runAux fuel (steps + 1) (max s.length maxlen) (iterate_rule s collatz_rule)

/-- The source's `run(n)`, with fuel. -/
def run (fuel n : Nat) : Option (Nat × Nat) :=
  runAux fuel 0 0 (S :: natToBits n ++ [S])

/-- Whether some position of the tape satisfies rule 1's trigger (center
`Zero`, right neighbor read as `S`), as read by the stepper. -/
def hasZeroTrigger (s : List Cell) : Bool :=
  (List.range s.length).any
    (fun i => decide (s.getD i S = zero) && decide (s.getD (i + 1) S = S))

/-- The iteration described by the spec's division-correctness property:
apply the full rule while a `Zero`-erasure trigger remains. -/
def divUntilNoTrigger : Nat → List Cell → List Cell
  | 0, s => s
  | fuel + 1, s =>
    if hasZeroTrigger s then divUntilNoTrigger fuel (iterate_rule s collatz_rule)
    else s

/-- A well-formed tape: one `S` sentinel at each end and no `S` strictly
inside. -/
def wfTape (s : List Cell) : Prop :=
  ∃ mid, s = S :: mid ++ [S] ∧ S ∉ mid

/-- Recursive reformulation of the per-position sweep: the accumulator is the
previous cell (the left neighbor of the head). -/
def stepCells (rule : Cell → Cell → Cell → Cell) : Cell → List Cell → List Cell
  | _, [] => []
  | prev, c :: rest => rule prev c (rest.headD S) :: stepCells rule c rest


/-- The boundary conditional on the right neighbor is redundant: reading past
the end of the list already yields the default `S`. -/
theorem right_read (s : List Cell) (i : Nat) :
    (if i < s.length - 1 then s.getD (i + 1) S else S) = s.getD (i + 1) S := by
  by_cases h : i < s.length - 1
  · simp [h]
  · rw [if_neg h, List.getD_eq_default]
    omega

theorem getD_zero_headD (l : List Cell) : l.getD 0 S = l.headD S := by
  cases l <;> rfl

theorem map_range_aux (rule : Cell → Cell → Cell → Cell) :
    ∀ (s : List Cell) (prev : Cell),
      (List.range s.length).map (fun i =>
          rule (if 0 < i then s.getD (i - 1) S else prev) (s.getD i S) (s.getD (i + 1) S))
        = stepCells rule prev s := by
  intro s
  induction s with
  | nil => intro prev; rfl
  | cons c rest ih =>
    intro prev
    rw [List.length_cons, List.range_succ_eq_map, List.map_cons, List.map_map]
    show _ :: _ = _ :: _
    congr 1
    · cases rest <;> simp
    · rw [← ih c]
      apply List.map_congr_left
      intro i _
      cases i with
      | zero => simp
      | succ j => simp

/-- Lemma relating `iterate_rule` to the recursive sweep. -/
theorem iterate_rule_eq_stepCells (s : List Cell) (rule : Cell → Cell → Cell → Cell) :
    iterate_rule s rule = S :: stripS (stepCells rule S s) ++ [S] := by
  unfold iterate_rule
  rw [show (List.range s.length).map (cellNext rule s)
      = (List.range s.length).map (fun i =>
          rule (if 0 < i then s.getD (i - 1) S else S) (s.getD i S) (s.getD (i + 1) S))
    from List.map_congr_left (by
      intro i _
      unfold cellNext
      rw [right_read])]
  rw [map_range_aux]

/-- The full rule produces `S` only when the center or the right neighbor is
already `S`. -/
theorem collatz_rule_eq_S (l c r : Cell) (h : collatz_rule l c r = S) :
    c = S ∨ r = S := by
  rcases c with _ | _ | _ | ⟨b, k⟩ <;> rcases r with _ | _ | _ | ⟨x, y⟩ <;>
    simp_all [collatz_rule] <;> (try split_ifs at h) <;> simp_all

theorem collatz_rule_ne_S (l c r : Cell) (hc : c ≠ S) (hr : r ≠ S) :
    collatz_rule l c r ≠ S := by
  intro h
  rcases collatz_rule_eq_S l c r h with h1 | h1
  · exact hc h1
  · exact hr h1

theorem collatz_S_S (prev : Cell) : collatz_rule prev S S = S := rfl

theorem rule_digit_digit (prev c d : Cell) (hc : c = zero ∨ c = one)
    (hd : d = zero ∨ d = one) : collatz_rule prev c d = c := by
  rcases hc with rfl | rfl <;> rcases hd with rfl | rfl <;> rfl

theorem rule_S_digit (prev d : Cell) (hd : d = zero ∨ d = one) :
    collatz_rule prev S d = S := by
  rcases hd with rfl | rfl <;> rfl

theorem dropWhile_allS (p q : List Cell) (hp : ∀ x ∈ p, x = S) :
    (p ++ q).dropWhile (fun c => decide (c = S))
      = q.dropWhile (fun c => decide (c = S)) := by
  induction p with
  | nil => rfl
  | cons a p ih =>
    have ha : a = S := hp a (by simp)
    have ih2 := ih (fun x hx => hp x (by simp [hx]))
    simpa [List.dropWhile_cons, ha] using ih2

theorem dropWhile_noS (m : List Cell) (hm : S ∉ m) :
    m.dropWhile (fun c => decide (c = S)) = m := by
  cases m with
  | nil => rfl
  | cons m0 m1 =>
    have hm0 : ¬ (m0 = S) := by intro h; exact hm (by simp [h])
    rw [List.dropWhile_cons]
    simp [hm0]

/-- Stripping a tape whose `S` entries all sit at the two ends yields the
`S`-free middle. -/
theorem stripS_sandwich (p m q : List Cell) (hp : ∀ x ∈ p, x = S)
    (hm : S ∉ m) (hq : ∀ x ∈ q, x = S) : stripS (p ++ m ++ q) = m := by
  unfold stripS
  rw [List.append_assoc, dropWhile_allS p (m ++ q) hp]
  cases m with
  | nil =>
    have h0 : q.dropWhile (fun c => decide (c = S)) = [] := by
      have h1 := dropWhile_allS q [] hq
      simpa using h1
    simp [h0]
  | cons m0 m1 =>
    have hm0 : ¬ (m0 = S) := by intro h; exact hm (by simp [h])
    rw [show List.dropWhile (fun c => decide (c = S)) ((m0 :: m1) ++ q)
        = (m0 :: m1) ++ q from by
      rw [List.cons_append, List.dropWhile_cons]; simp [hm0]]
    rw [List.reverse_append,
      dropWhile_allS q.reverse (m0 :: m1).reverse
        (fun x hx => hq x (List.mem_reverse.mp hx)),
      dropWhile_noS (m0 :: m1).reverse
        (fun h => hm (List.mem_reverse.mp h))]
    simp

/-- Output of the sweep over the interior followed by the right sentinel:
one cell per interior position (never `S` except possibly the last) and a
final `S` from the sentinel. -/
theorem stepCells_no_S_inner :
    ∀ (mid : List Cell) (m0 prev : Cell), S ∉ (m0 :: mid) →
      ∃ u w, stepCells collatz_rule prev (m0 :: (mid ++ [S])) = u ++ [w, S] ∧ S ∉ u := by
  intro mid
  induction mid with
  | nil =>
    intro m0 prev _
    exact ⟨[], collatz_rule prev m0 S, by simp [stepCells, collatz_S_S], by simp⟩
  | cons m1 rest ih =>
    intro m0 prev h
    have hm0 : m0 ≠ S := fun h0 => h (by simp [h0])
    have hm1 : m1 ≠ S := fun h1 => h (by simp [h1])
    obtain ⟨u, w, heq, hu⟩ := ih m1 m0 (fun h1 => h (by simpa using Or.inr h1))
    refine ⟨collatz_rule prev m0 m1 :: u, w, ?_, ?_⟩
    · show collatz_rule prev m0 ((m1 :: (rest ++ [S])).headD S)
          :: stepCells collatz_rule m0 (m1 :: (rest ++ [S])) = _
      rw [heq]
      rfl
    · intro hmem
      rcases List.mem_cons.mp hmem with h1 | h1
      · exact collatz_rule_ne_S prev m0 m1 hm0 hm1 h1.symm
      · exact hu h1

/-- The strip of a sweep output whose interior entries are non-`S` has no
`S` left anywhere. -/
theorem stripS_no_inner (t0 w : Cell) (u : List Cell) (hu : S ∉ u) :
    S ∉ stripS (t0 :: (u ++ [w, S])) := by
  by_cases h0 : t0 = S <;> by_cases hw : w = S
  · subst h0; subst hw
    have heq : stripS (S :: (u ++ [S, S])) = u :=
      stripS_sandwich [S] u [S, S] (by simp) hu (by simp)
    rw [heq]; exact hu
  · subst h0
    have hnm : S ∉ u ++ [w] := by
      intro hmem
      rcases List.mem_append.mp hmem with h1 | h1
      · exact hu h1
      · exact hw (List.mem_singleton.mp h1).symm
    have heq : stripS (S :: (u ++ [w, S])) = u ++ [w] := by
      have h3 := stripS_sandwich [S] (u ++ [w]) [S] (by simp) hnm (by simp)
      have h4 : ([S] ++ (u ++ [w])) ++ [S] = S :: (u ++ [w, S]) := by simp
      rw [h4] at h3
      exact h3
    rw [heq]; exact hnm
  · subst hw
    have hnm : S ∉ t0 :: u := by
      intro hmem
      rcases List.mem_cons.mp hmem with h1 | h1
      · exact h0 h1.symm
      · exact hu h1
    have heq : stripS (t0 :: (u ++ [S, S])) = t0 :: u := by
      have h3 := stripS_sandwich [] (t0 :: u) [S, S] (by simp) hnm (by simp)
      have h4 : ([] ++ (t0 :: u)) ++ [S, S] = t0 :: (u ++ [S, S]) := by simp
      rw [h4] at h3
      exact h3
    rw [heq]; exact hnm
  · have hnm : S ∉ t0 :: (u ++ [w]) := by
      intro hmem
      rcases List.mem_cons.mp hmem with h1 | h1
      · exact h0 h1.symm
      · rcases List.mem_append.mp h1 with h2 | h2
        · exact hu h2
        · exact hw (List.mem_singleton.mp h2).symm
    have heq : stripS (t0 :: (u ++ [w, S])) = t0 :: (u ++ [w]) := by
      have h3 := stripS_sandwich [] (t0 :: (u ++ [w])) [S] (by simp) hnm (by simp)
      have h4 : ([] ++ (t0 :: (u ++ [w]))) ++ [S] = t0 :: (u ++ [w, S]) := by simp
      rw [h4] at h3
      exact h3
    rw [heq]; exact hnm

/-- Stepping a well-formed tape with the full rule yields a well-formed
tape: transient `S` cells only ever appear at the ends and are stripped. -/
theorem step_preserves_wf (s : List Cell) (h : wfTape s) :
    wfTape (iterate_rule s collatz_rule) := by
  obtain ⟨mid, rfl, hmid⟩ := h
  rw [iterate_rule_eq_stepCells]
  cases mid with
  | nil =>
    exact ⟨_, rfl, by decide⟩
  | cons m0 mid1 =>
    obtain ⟨u, w, heq, hu⟩ := stepCells_no_S_inner mid1 m0 S hmid
    refine ⟨_, rfl, ?_⟩
    have hstep : stepCells collatz_rule S (S :: m0 :: mid1 ++ [S])
        = collatz_rule S S m0 :: (u ++ [w, S]) := by
      show collatz_rule S S ((m0 :: (mid1 ++ [S])).headD S)
          :: stepCells collatz_rule S (m0 :: (mid1 ++ [S])) = _
      rw [heq]
      rfl
    rw [hstep]
    exact stripS_no_inner (collatz_rule S S m0) w u hu

theorem natToBitsAux_congr :
    ∀ (fuel1 fuel2 n : Nat), n ≤ fuel1 → n ≤ fuel2 →
      natToBitsAux fuel1 n = natToBitsAux fuel2 n := by
  intro fuel1
  induction fuel1 with
  | zero =>
    intro fuel2 n h1 _
    have hn : n = 0 := Nat.le_zero.mp h1
    subst hn
    cases fuel2 <;> simp [natToBitsAux]
  | succ f ih =>
    intro fuel2 n h1 h2
    cases n with
    | zero => cases fuel2 <;> simp [natToBitsAux]
    | succ m =>
      cases fuel2 with
      | zero => omega
      | succ f2 =>
        have e1 : natToBitsAux (f + 1) (m + 1)
            = natToBitsAux f ((m + 1) / 2)
              ++ [if (m + 1) % 2 = 1 then one else zero] := by
          rw [natToBitsAux, if_neg (by omega)]
        have e2 : natToBitsAux (f2 + 1) (m + 1)
            = natToBitsAux f2 ((m + 1) / 2)
              ++ [if (m + 1) % 2 = 1 then one else zero] := by
          rw [natToBitsAux, if_neg (by omega)]
        have hle : (m + 1) / 2 ≤ f := by omega
        have hle2 : (m + 1) / 2 ≤ f2 := by omega
        rw [e1, e2, ih f2 ((m + 1) / 2) hle hle2]

theorem natToBits_succ (n : Nat) (h : 0 < n) :
    natToBits n = natToBits (n / 2) ++ [if n % 2 = 1 then one else zero] := by
  obtain ⟨m, rfl⟩ : ∃ m, n = m + 1 := ⟨n - 1, by omega⟩
  show natToBitsAux (m + 1) (m + 1) = _
  simp only [natToBitsAux]
  rw [if_neg (by omega)]
  rw [natToBitsAux_congr m ((m + 1) / 2) ((m + 1) / 2) (by omega) (by omega)]
  rfl

theorem natToBits_digits (n : Nat) : ∀ b ∈ natToBits n, b = zero ∨ b = one := by
  suffices h : ∀ fuel k, ∀ b ∈ natToBitsAux fuel k, b = zero ∨ b = one from h n n
  intro fuel
  induction fuel with
  | zero => intro k b hb; simp [natToBitsAux] at hb
  | succ f ih =>
    intro k b hb
    by_cases hk : k = 0
    · subst hk; simp [natToBitsAux] at hb
    · rw [natToBitsAux, if_neg hk] at hb
      rcases List.mem_append.mp hb with h1 | h1
      · exact ih (k / 2) b h1
      · rcases List.mem_singleton.mp h1 with rfl
        split_ifs
        · right; rfl
        · left; rfl

theorem natToBits_no_S (n : Nat) : S ∉ natToBits n := by
  intro h
  rcases natToBits_digits n S h with h1 | h1 <;> exact Cell.noConfusion h1

theorem decodeBitsAux_append (l : List Cell) :
    ∀ (acc : Nat) (d : Cell) (v : Nat), digitVal d = some v →
      decodeBitsAux acc (l ++ [d])
        = Option.map (fun x => 2 * x + v) (decodeBitsAux acc l) := by
  induction l with
  | nil =>
    intro acc d v hv
    simp [decodeBitsAux, hv]
  | cons c l ih =>
    intro acc d v hv
    cases hc : digitVal c with
    | some e => simp [decodeBitsAux, hc, ih _ d v hv]
    | none => simp [decodeBitsAux, hc]

theorem decodeBitsAux_natToBits (n : Nat) :
    ∀ acc, decodeBitsAux acc (natToBits n)
      = some (acc * 2 ^ (natToBits n).length + n) := by
  induction n using Nat.strong_induction_on with
  | _ n ih =>
    intro acc
    by_cases h : n = 0
    · subst h
      simp [natToBits, natToBitsAux, decodeBitsAux]
    · have hd : digitVal (if n % 2 = 1 then one else zero) = some (n % 2) := by
        rcases Nat.mod_two_eq_zero_or_one n with h2 | h2 <;> simp [h2, digitVal]
      rw [natToBits_succ n (by omega)]
      rw [decodeBitsAux_append _ acc _ (n % 2) hd]
      rw [ih (n / 2) (by omega) acc]
      show some (2 * (acc * 2 ^ (natToBits (n / 2)).length + n / 2) + n % 2)
          = some (acc * 2 ^ (natToBits (n / 2)
              ++ [if n % 2 = 1 then one else zero]).length + n)
      congr 1
      rw [List.length_append, List.length_singleton]
      have hdm : 2 * (n / 2) + n % 2 = n := by omega
      calc 2 * (acc * 2 ^ (natToBits (n / 2)).length + n / 2) + n % 2
          = acc * 2 ^ ((natToBits (n / 2)).length + 1)
              + (2 * (n / 2) + n % 2) := by ring
        _ = acc * 2 ^ ((natToBits (n / 2)).length + 1) + n := by rw [hdm]

theorem decode_natToBits (n : Nat) (h : 0 < n) :
    decodeBits (natToBits n) = some n := by
  have hne : natToBits n ≠ [] := by
    rw [natToBits_succ n h]; simp
  rw [decodeBits, if_neg hne, decodeBitsAux_natToBits n 0]
  simp

theorem tapeInterior_wrap (l : List Cell) : tapeInterior (S :: l ++ [S]) = l := by
  unfold tapeInterior
  rw [show ((S :: l ++ [S]).drop 1) = l ++ [S] from rfl]
  exact List.dropLast_concat

/-- One sweep of the full rule over a digit tape ending in `Zero`: the final
`Zero` is erased; every other digit is left in place. -/
theorem stepCells_digits_zero :
    ∀ (bits : List Cell) (prev : Cell), (∀ b ∈ bits, b = zero ∨ b = one) →
      stepCells collatz_rule prev (bits ++ [zero, S]) = bits ++ [S, S] := by
  intro bits
  induction bits with
  | nil => intro prev _; rfl
  | cons b bs ih =>
    intro prev hb
    have hbd : b = zero ∨ b = one := hb b (by simp)
    have hhead : (bs ++ [zero, S]).headD S = zero ∨ (bs ++ [zero, S]).headD S = one := by
      cases bs with
      | nil => left; rfl
      | cons b2 bs2 => exact hb b2 (by simp)
    show collatz_rule prev b ((bs ++ [zero, S]).headD S)
        :: stepCells collatz_rule b (bs ++ [zero, S]) = _
    rw [rule_digit_digit prev b _ hbd hhead, ih b (fun x hx => hb x (by simp [hx]))]
    rfl

/-- Stepping the canonical tape of a binary string ending in `Zero` erases
exactly that final `Zero`. -/
theorem div_step_tape (bits : List Cell) (hne : bits ≠ [])
    (hdig : ∀ b ∈ bits, b = zero ∨ b = one) :
    iterate_rule (S :: bits ++ [zero, S]) collatz_rule = S :: bits ++ [S] := by
  rw [iterate_rule_eq_stepCells]
  have h1 : stepCells collatz_rule S (S :: bits ++ [zero, S]) = S :: (bits ++ [S, S]) := by
    show collatz_rule S S ((bits ++ [zero, S]).headD S)
        :: stepCells collatz_rule S (bits ++ [zero, S]) = _
    rw [stepCells_digits_zero bits S hdig]
    congr 1
    cases bits with
    | nil => exact absurd rfl hne
    | cons b bs => exact rule_S_digit S b (hdig b (by simp))
  rw [h1]
  have hnoS : S ∉ bits := by
    intro hmem
    rcases hdig S hmem with h | h <;> exact Cell.noConfusion h
  have h2 : stripS (S :: (bits ++ [S, S])) = bits :=
    stripS_sandwich [S] bits [S, S] (by simp) hnoS (by simp)
  rw [h2]

/-- On a well-formed tape the source's prefix check `s[:3] == "S1S"` holds
exactly when the interior is the single digit `One`. -/
theorem check_iff_interior (s : List Cell) (h : wfTape s) :
    (s.take 3 = [S, one, S]) ↔ tapeInterior s = [one] := by
  obtain ⟨mid, rfl, hmid⟩ := h
  rw [tapeInterior_wrap]
  cases mid with
  | nil => simp
  | cons c rest =>
    cases rest with
    | nil => simp
    | cons d rest2 =>
      have hd : ¬ (d = S) := fun h1 => hmid (by simp [h1])
      simp [hd]

/-- C3 amended: one application of the Generation Stepper to the tape of an
even positive `n` erases the final `Zero`, yielding the tape of `n / 2`,
whose interior decodes to `n / 2`. -/
theorem division_one_step (n : Nat) (h1 : 0 < n) (h2 : n % 2 = 0) :
    iterate_rule (S :: natToBits n ++ [S]) collatz_rule
        = S :: natToBits (n / 2) ++ [S]
    ∧ decodeBits (tapeInterior (iterate_rule (S :: natToBits n ++ [S]) collatz_rule))
        = some (n / 2) := by
  have hpos : 0 < n / 2 := by omega
  have hsucc := natToBits_succ n h1
  rw [if_neg (by omega)] at hsucc
  have hne : natToBits (n / 2) ≠ [] := by
    rw [natToBits_succ (n / 2) hpos]; simp
  have hdig := natToBits_digits (n / 2)
  have htape : S :: natToBits n ++ [S] = S :: natToBits (n / 2) ++ [zero, S] := by
    rw [hsucc]; simp
  have hstep := div_step_tape (natToBits (n / 2)) hne hdig
  refine ⟨by rw [htape, hstep], ?_⟩
  rw [htape, hstep, tapeInterior_wrap, decode_natToBits (n / 2) hpos]

theorem division_one_step_witness :
    iterate_rule (S :: natToBits 6 ++ [S]) collatz_rule
        = S :: natToBits (6 / 2) ++ [S]
    ∧ decodeBits (tapeInterior (iterate_rule (S :: natToBits 6 ++ [S]) collatz_rule))
        = some (6 / 2) :=
  division_one_step 6 (by decide) (by decide)

/-- C7: the check that terminates the Simulation Loop is, on every tape the
loop can see (well-formed; well-formedness holds initially and is preserved
by stepping), exactly the check that the interior is `[One]`; and `run 1`
returns `(0, 3)` at once. -/
theorem run_terminal_behavior :
    (∀ s, wfTape s → ((s.take 3 = [S, one, S]) ↔ tapeInterior s = [one]))
    ∧ (∀ s, wfTape s → wfTape (iterate_rule s collatz_rule))
    ∧ (∀ n : Nat, wfTape (S :: natToBits n ++ [S]))
    ∧ run 10 1 = some (0, 3) :=
  ⟨check_iff_interior, step_preserves_wf,
   fun n => ⟨natToBits n, rfl, natToBits_no_S n⟩, by decide⟩

theorem run_terminal_behavior_witness :
    (([S, one, S] : List Cell).take 3 = [S, one, S]
      ↔ tapeInterior [S, one, S] = [one])
    ∧ wfTape (iterate_rule [S, one, S] collatz_rule)
    ∧ run 10 1 = some (0, 3) :=
  ⟨run_terminal_behavior.1 [S, one, S] ⟨[one], rfl, by decide⟩,
   run_terminal_behavior.2.1 [S, one, S] ⟨[one], rfl, by decide⟩,
   run_terminal_behavior.2.2.2⟩

/-- C9: the per-position result of the Generation Stepper depends only on
the cells at distance at most one (out-of-range positions read as `S`). -/
theorem step_locality (rule : Cell → Cell → Cell → Cell) (s1 s2 : List Cell)
    (i : Nat)
    (hl : i = 0 ∨ s1.getD (i - 1) S = s2.getD (i - 1) S)
    (hc : s1.getD i S = s2.getD i S)
    (hr : s1.getD (i + 1) S = s2.getD (i + 1) S) :
    cellNext rule s1 i = cellNext rule s2 i := by
  unfold cellNext
  rw [right_read, right_read, hc, hr]
  rcases hl with rfl | hl
  · simp
  · rw [hl]

theorem step_locality_witness :
    cellNext collatz_rule [S, one, S] 1 = cellNext collatz_rule [S, one, S, zero] 1 :=
  step_locality collatz_rule [S, one, S] [S, one, S, zero] 1
    (Or.inr (by decide)) (by decide) (by decide)

/-- One round of `iterFixAux` when the previous and current tapes differ. -/
theorem iterFixAux_step (fuel : Nat) (rule : Cell → Cell → Cell → Cell)
    (a b c : List Cell) (hne : a ≠ b) (hstep : iterate_rule b rule = c) :
    iterFixAux (fuel + 1) rule a b = iterFixAux fuel rule b c := by
  simp [iterFixAux, hne, hstep]

/-- The loop `iterFixAux` halts when the previous and current tapes agree. -/
theorem iterFixAux_self (fuel : Nat) (rule : Cell → Cell → Cell → Cell)
    (a : List Cell) : iterFixAux (fuel + 1) rule a a = a := by
  simp [iterFixAux]

theorem mstep0 : iterate_rule [S, one, carry 1 2, S] multiply_add_one_rule = [S, carry 1 3, zero, S] := by decide

theorem mstep1 : iterate_rule [S, carry 1 3, zero, S] multiply_add_one_rule = [S, carry 0 2, one, zero, S] := by decide

theorem mstep2 : iterate_rule [S, carry 0 2, one, zero, S] multiply_add_one_rule = [S, carry 0 1, zero, one, zero, S] := by decide

theorem mstep3 : iterate_rule [S, carry 0 1, zero, one, zero, S] multiply_add_one_rule = [S, one, zero, one, zero, S] := by decide

theorem mstep4 : iterate_rule [S, one, zero, one, zero, S] multiply_add_one_rule = [S, one, zero, one, zero, S] := by decide

theorem mstep5 : iterate_rule [S, one, zero, carry 1 2, S] multiply_add_one_rule = [S, one, carry 0 2, zero, S] := by decide

theorem mstep6 : iterate_rule [S, one, carry 0 2, zero, S] multiply_add_one_rule = [S, carry 1 2, zero, zero, S] := by decide

theorem mstep7 : iterate_rule [S, carry 1 2, zero, zero, S] multiply_add_one_rule = [S, carry 0 2, zero, zero, zero, S] := by decide

theorem mstep8 : iterate_rule [S, carry 0 2, zero, zero, zero, S] multiply_add_one_rule = [S, carry 0 1, zero, zero, zero, zero, S] := by decide

theorem mstep9 : iterate_rule [S, carry 0 1, zero, zero, zero, zero, S] multiply_add_one_rule = [S, one, zero, zero, zero, zero, S] := by decide

theorem mstep10 : iterate_rule [S, one, zero, zero, zero, zero, S] multiply_add_one_rule = [S, one, zero, zero, zero, zero, S] := by decide

theorem mstep11 : iterate_rule [S, one, one, carry 1 2, S] multiply_add_one_rule = [S, one, carry 1 3, zero, S] := by decide

theorem mstep12 : iterate_rule [S, one, carry 1 3, zero, S] multiply_add_one_rule = [S, carry 1 3, one, zero, S] := by decide

theorem mstep13 : iterate_rule [S, carry 1 3, one, zero, S] multiply_add_one_rule = [S, carry 0 2, one, one, zero, S] := by decide

theorem mstep14 : iterate_rule [S, carry 0 2, one, one, zero, S] multiply_add_one_rule = [S, carry 0 1, zero, one, one, zero, S] := by decide

theorem mstep15 : iterate_rule [S, carry 0 1, zero, one, one, zero, S] multiply_add_one_rule = [S, one, zero, one, one, zero, S] := by decide

theorem mstep16 : iterate_rule [S, one, zero, one, one, zero, S] multiply_add_one_rule = [S, one, zero, one, one, zero, S] := by decide

theorem mstep17 : iterate_rule [S, one, zero, zero, carry 1 2, S] multiply_add_one_rule = [S, one, zero, carry 0 2, zero, S] := by decide

theorem mstep18 : iterate_rule [S, one, zero, carry 0 2, zero, S] multiply_add_one_rule = [S, one, carry 0 1, zero, zero, S] := by decide

theorem mstep19 : iterate_rule [S, one, carry 0 1, zero, zero, S] multiply_add_one_rule = [S, carry 1 1, one, zero, zero, S] := by decide

theorem mstep20 : iterate_rule [S, carry 1 1, one, zero, zero, S] multiply_add_one_rule = [S, carry 0 1, one, one, zero, zero, S] := by decide

theorem mstep21 : iterate_rule [S, carry 0 1, one, one, zero, zero, S] multiply_add_one_rule = [S, one, one, one, zero, zero, S] := by decide

theorem mstep22 : iterate_rule [S, one, one, one, zero, zero, S] multiply_add_one_rule = [S, one, one, one, zero, zero, S] := by decide

theorem mstep23 : iterate_rule [S, one, zero, one, carry 1 2, S] multiply_add_one_rule = [S, one, zero, carry 1 3, zero, S] := by decide

theorem mstep24 : iterate_rule [S, one, zero, carry 1 3, zero, S] multiply_add_one_rule = [S, one, carry 0 2, one, zero, S] := by decide

theorem mstep25 : iterate_rule [S, one, carry 0 2, one, zero, S] multiply_add_one_rule = [S, carry 1 2, zero, one, zero, S] := by decide

theorem mstep26 : iterate_rule [S, carry 1 2, zero, one, zero, S] multiply_add_one_rule = [S, carry 0 2, zero, zero, one, zero, S] := by decide

theorem mstep27 : iterate_rule [S, carry 0 2, zero, zero, one, zero, S] multiply_add_one_rule = [S, carry 0 1, zero, zero, zero, one, zero, S] := by decide

theorem mstep28 : iterate_rule [S, carry 0 1, zero, zero, zero, one, zero, S] multiply_add_one_rule = [S, one, zero, zero, zero, one, zero, S] := by decide

theorem mstep29 : iterate_rule [S, one, zero, zero, zero, one, zero, S] multiply_add_one_rule = [S, one, zero, zero, zero, one, zero, S] := by decide

theorem mstep30 : iterate_rule [S, one, one, zero, carry 1 2, S] multiply_add_one_rule = [S, one, one, carry 0 2, zero, S] := by decide

theorem mstep31 : iterate_rule [S, one, one, carry 0 2, zero, S] multiply_add_one_rule = [S, one, carry 1 2, zero, zero, S] := by decide

theorem mstep32 : iterate_rule [S, one, carry 1 2, zero, zero, S] multiply_add_one_rule = [S, carry 1 3, zero, zero, zero, S] := by decide

theorem mstep33 : iterate_rule [S, carry 1 3, zero, zero, zero, S] multiply_add_one_rule = [S, carry 0 2, one, zero, zero, zero, S] := by decide

theorem mstep34 : iterate_rule [S, carry 0 2, one, zero, zero, zero, S] multiply_add_one_rule = [S, carry 0 1, zero, one, zero, zero, zero, S] := by decide

theorem mstep35 : iterate_rule [S, carry 0 1, zero, one, zero, zero, zero, S] multiply_add_one_rule = [S, one, zero, one, zero, zero, zero, S] := by decide

theorem mstep36 : iterate_rule [S, one, zero, one, zero, zero, zero, S] multiply_add_one_rule = [S, one, zero, one, zero, zero, zero, S] := by decide

theorem mstep37 : iterate_rule [S, one, one, one, carry 1 2, S] multiply_add_one_rule = [S, one, one, carry 1 3, zero, S] := by decide

theorem mstep38 : iterate_rule [S, one, one, carry 1 3, zero, S] multiply_add_one_rule = [S, one, carry 1 3, one, zero, S] := by decide

theorem mstep39 : iterate_rule [S, one, carry 1 3, one, zero, S] multiply_add_one_rule = [S, carry 1 3, one, one, zero, S] := by decide

theorem mstep40 : iterate_rule [S, carry 1 3, one, one, zero, S] multiply_add_one_rule = [S, carry 0 2, one, one, one, zero, S] := by decide

theorem mstep41 : iterate_rule [S, carry 0 2, one, one, one, zero, S] multiply_add_one_rule = [S, carry 0 1, zero, one, one, one, zero, S] := by decide

theorem mstep42 : iterate_rule [S, carry 0 1, zero, one, one, one, zero, S] multiply_add_one_rule = [S, one, zero, one, one, one, zero, S] := by decide

theorem mstep43 : iterate_rule [S, one, zero, one, one, one, zero, S] multiply_add_one_rule = [S, one, zero, one, one, one, zero, S] := by decide

theorem mstep44 : iterate_rule [S, one, zero, zero, zero, carry 1 2, S] multiply_add_one_rule = [S, one, zero, zero, carry 0 2, zero, S] := by decide

theorem mstep45 : iterate_rule [S, one, zero, zero, carry 0 2, zero, S] multiply_add_one_rule = [S, one, zero, carry 0 1, zero, zero, S] := by decide

theorem mstep46 : iterate_rule [S, one, zero, carry 0 1, zero, zero, S] multiply_add_one_rule = [S, one, carry 0 0, one, zero, zero, S] := by decide

theorem mstep47 : iterate_rule [S, one, carry 0 0, one, zero, zero, S] multiply_add_one_rule = [S, carry 1 1, zero, one, zero, zero, S] := by decide

theorem mstep48 : iterate_rule [S, carry 1 1, zero, one, zero, zero, S] multiply_add_one_rule = [S, carry 0 1, one, zero, one, zero, zero, S] := by decide

theorem mstep49 : iterate_rule [S, carry 0 1, one, zero, one, zero, zero, S] multiply_add_one_rule = [S, one, one, zero, one, zero, zero, S] := by decide

theorem mstep50 : iterate_rule [S, one, one, zero, one, zero, zero, S] multiply_add_one_rule = [S, one, one, zero, one, zero, zero, S] := by decide

theorem mstep51 : iterate_rule [S, one, zero, zero, one, carry 1 2, S] multiply_add_one_rule = [S, one, zero, zero, carry 1 3, zero, S] := by decide

theorem mstep52 : iterate_rule [S, one, zero, zero, carry 1 3, zero, S] multiply_add_one_rule = [S, one, zero, carry 0 2, one, zero, S] := by decide

theorem mstep53 : iterate_rule [S, one, zero, carry 0 2, one, zero, S] multiply_add_one_rule = [S, one, carry 0 1, zero, one, zero, S] := by decide

theorem mstep54 : iterate_rule [S, one, carry 0 1, zero, one, zero, S] multiply_add_one_rule = [S, carry 1 1, one, zero, one, zero, S] := by decide

theorem mstep55 : iterate_rule [S, carry 1 1, one, zero, one, zero, S] multiply_add_one_rule = [S, carry 0 1, one, one, zero, one, zero, S] := by decide

theorem mstep56 : iterate_rule [S, carry 0 1, one, one, zero, one, zero, S] multiply_add_one_rule = [S, one, one, one, zero, one, zero, S] := by decide

theorem mstep57 : iterate_rule [S, one, one, one, zero, one, zero, S] multiply_add_one_rule = [S, one, one, one, zero, one, zero, S] := by decide

theorem mstep58 : iterate_rule [S, one, zero, one, zero, carry 1 2, S] multiply_add_one_rule = [S, one, zero, one, carry 0 2, zero, S] := by decide

theorem mstep59 : iterate_rule [S, one, zero, one, carry 0 2, zero, S] multiply_add_one_rule = [S, one, zero, carry 1 2, zero, zero, S] := by decide

theorem mstep60 : iterate_rule [S, one, zero, carry 1 2, zero, zero, S] multiply_add_one_rule = [S, one, carry 0 2, zero, zero, zero, S] := by decide

theorem mstep61 : iterate_rule [S, one, carry 0 2, zero, zero, zero, S] multiply_add_one_rule = [S, carry 1 2, zero, zero, zero, zero, S] := by decide

theorem mstep62 : iterate_rule [S, carry 1 2, zero, zero, zero, zero, S] multiply_add_one_rule = [S, carry 0 2, zero, zero, zero, zero, zero, S] := by decide

theorem mstep63 : iterate_rule [S, carry 0 2, zero, zero, zero, zero, zero, S] multiply_add_one_rule = [S, carry 0 1, zero, zero, zero, zero, zero, zero, S] := by decide

theorem mstep64 : iterate_rule [S, carry 0 1, zero, zero, zero, zero, zero, zero, S] multiply_add_one_rule = [S, one, zero, zero, zero, zero, zero, zero, S] := by decide

theorem mstep65 : iterate_rule [S, one, zero, zero, zero, zero, zero, zero, S] multiply_add_one_rule = [S, one, zero, zero, zero, zero, zero, zero, S] := by decide

theorem mstep66 : iterate_rule [S, one, zero, one, one, carry 1 2, S] multiply_add_one_rule = [S, one, zero, one, carry 1 3, zero, S] := by decide

theorem mstep67 : iterate_rule [S, one, zero, one, carry 1 3, zero, S] multiply_add_one_rule = [S, one, zero, carry 1 3, one, zero, S] := by decide

theorem mstep68 : iterate_rule [S, one, zero, carry 1 3, one, zero, S] multiply_add_one_rule = [S, one, carry 0 2, one, one, zero, S] := by decide

theorem mstep69 : iterate_rule [S, one, carry 0 2, one, one, zero, S] multiply_add_one_rule = [S, carry 1 2, zero, one, one, zero, S] := by decide

theorem mstep70 : iterate_rule [S, carry 1 2, zero, one, one, zero, S] multiply_add_one_rule = [S, carry 0 2, zero, zero, one, one, zero, S] := by decide

theorem mstep71 : iterate_rule [S, carry 0 2, zero, zero, one, one, zero, S] multiply_add_one_rule = [S, carry 0 1, zero, zero, zero, one, one, zero, S] := by decide

theorem mstep72 : iterate_rule [S, carry 0 1, zero, zero, zero, one, one, zero, S] multiply_add_one_rule = [S, one, zero, zero, zero, one, one, zero, S] := by decide

theorem mstep73 : iterate_rule [S, one, zero, zero, zero, one, one, zero, S] multiply_add_one_rule = [S, one, zero, zero, zero, one, one, zero, S] := by decide

theorem mstep74 : iterate_rule [S, one, one, zero, zero, carry 1 2, S] multiply_add_one_rule = [S, one, one, zero, carry 0 2, zero, S] := by decide

theorem mstep75 : iterate_rule [S, one, one, zero, carry 0 2, zero, S] multiply_add_one_rule = [S, one, one, carry 0 1, zero, zero, S] := by decide

theorem mstep76 : iterate_rule [S, one, one, carry 0 1, zero, zero, S] multiply_add_one_rule = [S, one, carry 1 1, one, zero, zero, S] := by decide

theorem mstep77 : iterate_rule [S, one, carry 1 1, one, zero, zero, S] multiply_add_one_rule = [S, carry 1 2, one, one, zero, zero, S] := by decide

theorem mstep78 : iterate_rule [S, carry 1 2, one, one, zero, zero, S] multiply_add_one_rule = [S, carry 0 2, zero, one, one, zero, zero, S] := by decide

theorem mstep79 : iterate_rule [S, carry 0 2, zero, one, one, zero, zero, S] multiply_add_one_rule = [S, carry 0 1, zero, zero, one, one, zero, zero, S] := by decide

theorem mstep80 : iterate_rule [S, carry 0 1, zero, zero, one, one, zero, zero, S] multiply_add_one_rule = [S, one, zero, zero, one, one, zero, zero, S] := by decide

theorem mstep81 : iterate_rule [S, one, zero, zero, one, one, zero, zero, S] multiply_add_one_rule = [S, one, zero, zero, one, one, zero, zero, S] := by decide

theorem mstep82 : iterate_rule [S, one, one, zero, one, carry 1 2, S] multiply_add_one_rule = [S, one, one, zero, carry 1 3, zero, S] := by decide

theorem mstep83 : iterate_rule [S, one, one, zero, carry 1 3, zero, S] multiply_add_one_rule = [S, one, one, carry 0 2, one, zero, S] := by decide

theorem mstep84 : iterate_rule [S, one, one, carry 0 2, one, zero, S] multiply_add_one_rule = [S, one, carry 1 2, zero, one, zero, S] := by decide

theorem mstep85 : iterate_rule [S, one, carry 1 2, zero, one, zero, S] multiply_add_one_rule = [S, carry 1 3, zero, zero, one, zero, S] := by decide

theorem mstep86 : iterate_rule [S, carry 1 3, zero, zero, one, zero, S] multiply_add_one_rule = [S, carry 0 2, one, zero, zero, one, zero, S] := by decide

theorem mstep87 : iterate_rule [S, carry 0 2, one, zero, zero, one, zero, S] multiply_add_one_rule = [S, carry 0 1, zero, one, zero, zero, one, zero, S] := by decide

theorem mstep88 : iterate_rule [S, carry 0 1, zero, one, zero, zero, one, zero, S] multiply_add_one_rule = [S, one, zero, one, zero, zero, one, zero, S] := by decide

theorem mstep89 : iterate_rule [S, one, zero, one, zero, zero, one, zero, S] multiply_add_one_rule = [S, one, zero, one, zero, zero, one, zero, S] := by decide

theorem mstep90 : iterate_rule [S, one, one, one, zero, carry 1 2, S] multiply_add_one_rule = [S, one, one, one, carry 0 2, zero, S] := by decide

theorem mstep91 : iterate_rule [S, one, one, one, carry 0 2, zero, S] multiply_add_one_rule = [S, one, one, carry 1 2, zero, zero, S] := by decide

theorem mstep92 : iterate_rule [S, one, one, carry 1 2, zero, zero, S] multiply_add_one_rule = [S, one, carry 1 3, zero, zero, zero, S] := by decide

theorem mstep93 : iterate_rule [S, one, carry 1 3, zero, zero, zero, S] multiply_add_one_rule = [S, carry 1 3, one, zero, zero, zero, S] := by decide

theorem mstep94 : iterate_rule [S, carry 1 3, one, zero, zero, zero, S] multiply_add_one_rule = [S, carry 0 2, one, one, zero, zero, zero, S] := by decide

theorem mstep95 : iterate_rule [S, carry 0 2, one, one, zero, zero, zero, S] multiply_add_one_rule = [S, carry 0 1, zero, one, one, zero, zero, zero, S] := by decide

theorem mstep96 : iterate_rule [S, carry 0 1, zero, one, one, zero, zero, zero, S] multiply_add_one_rule = [S, one, zero, one, one, zero, zero, zero, S] := by decide

theorem mstep97 : iterate_rule [S, one, zero, one, one, zero, zero, zero, S] multiply_add_one_rule = [S, one, zero, one, one, zero, zero, zero, S] := by decide

theorem mstep98 : iterate_rule [S, one, one, one, one, carry 1 2, S] multiply_add_one_rule = [S, one, one, one, carry 1 3, zero, S] := by decide

theorem mstep99 : iterate_rule [S, one, one, one, carry 1 3, zero, S] multiply_add_one_rule = [S, one, one, carry 1 3, one, zero, S] := by decide

theorem mstep100 : iterate_rule [S, one, one, carry 1 3, one, zero, S] multiply_add_one_rule = [S, one, carry 1 3, one, one, zero, S] := by decide

theorem mstep101 : iterate_rule [S, one, carry 1 3, one, one, zero, S] multiply_add_one_rule = [S, carry 1 3, one, one, one, zero, S] := by decide

theorem mstep102 : iterate_rule [S, carry 1 3, one, one, one, zero, S] multiply_add_one_rule = [S, carry 0 2, one, one, one, one, zero, S] := by decide

theorem mstep103 : iterate_rule [S, carry 0 2, one, one, one, one, zero, S] multiply_add_one_rule = [S, carry 0 1, zero, one, one, one, one, zero, S] := by decide

theorem mstep104 : iterate_rule [S, carry 0 1, zero, one, one, one, one, zero, S] multiply_add_one_rule = [S, one, zero, one, one, one, one, zero, S] := by decide

theorem mstep105 : iterate_rule [S, one, zero, one, one, one, one, zero, S] multiply_add_one_rule = [S, one, zero, one, one, one, one, zero, S] := by decide

theorem mstep106 : iterate_rule [S, one, zero, zero, zero, zero, carry 1 2, S] multiply_add_one_rule = [S, one, zero, zero, zero, carry 0 2, zero, S] := by decide

theorem mstep107 : iterate_rule [S, one, zero, zero, zero, carry 0 2, zero, S] multiply_add_one_rule = [S, one, zero, zero, carry 0 1, zero, zero, S] := by decide

theorem mstep108 : iterate_rule [S, one, zero, zero, carry 0 1, zero, zero, S] multiply_add_one_rule = [S, one, zero, carry 0 0, one, zero, zero, S] := by decide

theorem mstep109 : iterate_rule [S, one, zero, carry 0 0, one, zero, zero, S] multiply_add_one_rule = [S, one, carry 0 0, zero, one, zero, zero, S] := by decide

theorem mstep110 : iterate_rule [S, one, carry 0 0, zero, one, zero, zero, S] multiply_add_one_rule = [S, carry 1 1, zero, zero, one, zero, zero, S] := by decide

theorem mstep111 : iterate_rule [S, carry 1 1, zero, zero, one, zero, zero, S] multiply_add_one_rule = [S, carry 0 1, one, zero, zero, one, zero, zero, S] := by decide

theorem mstep112 : iterate_rule [S, carry 0 1, one, zero, zero, one, zero, zero, S] multiply_add_one_rule = [S, one, one, zero, zero, one, zero, zero, S] := by decide

theorem mstep113 : iterate_rule [S, one, one, zero, zero, one, zero, zero, S] multiply_add_one_rule = [S, one, one, zero, zero, one, zero, zero, S] := by decide

theorem mstep114 : iterate_rule [S, one, zero, zero, zero, one, carry 1 2, S] multiply_add_one_rule = [S, one, zero, zero, zero, carry 1 3, zero, S] := by decide

theorem mstep115 : iterate_rule [S, one, zero, zero, zero, carry 1 3, zero, S] multiply_add_one_rule = [S, one, zero, zero, carry 0 2, one, zero, S] := by decide

theorem mstep116 : iterate_rule [S, one, zero, zero, carry 0 2, one, zero, S] multiply_add_one_rule = [S, one, zero, carry 0 1, zero, one, zero, S] := by decide

theorem mstep117 : iterate_rule [S, one, zero, carry 0 1, zero, one, zero, S] multiply_add_one_rule = [S, one, carry 0 0, one, zero, one, zero, S] := by decide

theorem mstep118 : iterate_rule [S, one, carry 0 0, one, zero, one, zero, S] multiply_add_one_rule = [S, carry 1 1, zero, one, zero, one, zero, S] := by decide

theorem mstep119 : iterate_rule [S, carry 1 1, zero, one, zero, one, zero, S] multiply_add_one_rule = [S, carry 0 1, one, zero, one, zero, one, zero, S] := by decide

theorem mstep120 : iterate_rule [S, carry 0 1, one, zero, one, zero, one, zero, S] multiply_add_one_rule = [S, one, one, zero, one, zero, one, zero, S] := by decide

theorem mstep121 : iterate_rule [S, one, one, zero, one, zero, one, zero, S] multiply_add_one_rule = [S, one, one, zero, one, zero, one, zero, S] := by decide

theorem mstep122 : iterate_rule [S, one, zero, zero, one, zero, carry 1 2, S] multiply_add_one_rule = [S, one, zero, zero, one, carry 0 2, zero, S] := by decide

theorem mstep123 : iterate_rule [S, one, zero, zero, one, carry 0 2, zero, S] multiply_add_one_rule = [S, one, zero, zero, carry 1 2, zero, zero, S] := by decide

theorem mstep124 : iterate_rule [S, one, zero, zero, carry 1 2, zero, zero, S] multiply_add_one_rule = [S, one, zero, carry 0 2, zero, zero, zero, S] := by decide

theorem mstep125 : iterate_rule [S, one, zero, carry 0 2, zero, zero, zero, S] multiply_add_one_rule = [S, one, carry 0 1, zero, zero, zero, zero, S] := by decide

theorem mstep126 : iterate_rule [S, one, carry 0 1, zero, zero, zero, zero, S] multiply_add_one_rule = [S, carry 1 1, one, zero, zero, zero, zero, S] := by decide

theorem mstep127 : iterate_rule [S, carry 1 1, one, zero, zero, zero, zero, S] multiply_add_one_rule = [S, carry 0 1, one, one, zero, zero, zero, zero, S] := by decide

theorem mstep128 : iterate_rule [S, carry 0 1, one, one, zero, zero, zero, zero, S] multiply_add_one_rule = [S, one, one, one, zero, zero, zero, zero, S] := by decide

theorem mstep129 : iterate_rule [S, one, one, one, zero, zero, zero, zero, S] multiply_add_one_rule = [S, one, one, one, zero, zero, zero, zero, S] := by decide

theorem mstep130 : iterate_rule [S, one, zero, zero, one, one, carry 1 2, S] multiply_add_one_rule = [S, one, zero, zero, one, carry 1 3, zero, S] := by decide

theorem mstep131 : iterate_rule [S, one, zero, zero, one, carry 1 3, zero, S] multiply_add_one_rule = [S, one, zero, zero, carry 1 3, one, zero, S] := by decide

theorem mstep132 : iterate_rule [S, one, zero, zero, carry 1 3, one, zero, S] multiply_add_one_rule = [S, one, zero, carry 0 2, one, one, zero, S] := by decide

theorem mstep133 : iterate_rule [S, one, zero, carry 0 2, one, one, zero, S] multiply_add_one_rule = [S, one, carry 0 1, zero, one, one, zero, S] := by decide

theorem mstep134 : iterate_rule [S, one, carry 0 1, zero, one, one, zero, S] multiply_add_one_rule = [S, carry 1 1, one, zero, one, one, zero, S] := by decide

theorem mstep135 : iterate_rule [S, carry 1 1, one, zero, one, one, zero, S] multiply_add_one_rule = [S, carry 0 1, one, one, zero, one, one, zero, S] := by decide

theorem mstep136 : iterate_rule [S, carry 0 1, one, one, zero, one, one, zero, S] multiply_add_one_rule = [S, one, one, one, zero, one, one, zero, S] := by decide

theorem mstep137 : iterate_rule [S, one, one, one, zero, one, one, zero, S] multiply_add_one_rule = [S, one, one, one, zero, one, one, zero, S] := by decide

theorem mstep138 : iterate_rule [S, one, zero, one, zero, zero, carry 1 2, S] multiply_add_one_rule = [S, one, zero, one, zero, carry 0 2, zero, S] := by decide

theorem mstep139 : iterate_rule [S, one, zero, one, zero, carry 0 2, zero, S] multiply_add_one_rule = [S, one, zero, one, carry 0 1, zero, zero, S] := by decide

theorem mstep140 : iterate_rule [S, one, zero, one, carry 0 1, zero, zero, S] multiply_add_one_rule = [S, one, zero, carry 1 1, one, zero, zero, S] := by decide

theorem mstep141 : iterate_rule [S, one, zero, carry 1 1, one, zero, zero, S] multiply_add_one_rule = [S, one, carry 0 1, one, one, zero, zero, S] := by decide

theorem mstep142 : iterate_rule [S, one, carry 0 1, one, one, zero, zero, S] multiply_add_one_rule = [S, carry 1 1, one, one, one, zero, zero, S] := by decide

theorem mstep143 : iterate_rule [S, carry 1 1, one, one, one, zero, zero, S] multiply_add_one_rule = [S, carry 0 1, one, one, one, one, zero, zero, S] := by decide

theorem mstep144 : iterate_rule [S, carry 0 1, one, one, one, one, zero, zero, S] multiply_add_one_rule = [S, one, one, one, one, one, zero, zero, S] := by decide

theorem mstep145 : iterate_rule [S, one, one, one, one, one, zero, zero, S] multiply_add_one_rule = [S, one, one, one, one, one, zero, zero, S] := by decide

theorem mstep146 : iterate_rule [S, one, zero, one, zero, one, carry 1 2, S] multiply_add_one_rule = [S, one, zero, one, zero, carry 1 3, zero, S] := by decide

theorem mstep147 : iterate_rule [S, one, zero, one, zero, carry 1 3, zero, S] multiply_add_one_rule = [S, one, zero, one, carry 0 2, one, zero, S] := by decide

theorem mstep148 : iterate_rule [S, one, zero, one, carry 0 2, one, zero, S] multiply_add_one_rule = [S, one, zero, carry 1 2, zero, one, zero, S] := by decide

theorem mstep149 : iterate_rule [S, one, zero, carry 1 2, zero, one, zero, S] multiply_add_one_rule = [S, one, carry 0 2, zero, zero, one, zero, S] := by decide

theorem mstep150 : iterate_rule [S, one, carry 0 2, zero, zero, one, zero, S] multiply_add_one_rule = [S, carry 1 2, zero, zero, zero, one, zero, S] := by decide

theorem mstep151 : iterate_rule [S, carry 1 2, zero, zero, zero, one, zero, S] multiply_add_one_rule = [S, carry 0 2, zero, zero, zero, zero, one, zero, S] := by decide

theorem mstep152 : iterate_rule [S, carry 0 2, zero, zero, zero, zero, one, zero, S] multiply_add_one_rule = [S, carry 0 1, zero, zero, zero, zero, zero, one, zero, S] := by decide

theorem mstep153 : iterate_rule [S, carry 0 1, zero, zero, zero, zero, zero, one, zero, S] multiply_add_one_rule = [S, one, zero, zero, zero, zero, zero, one, zero, S] := by decide

theorem mstep154 : iterate_rule [S, one, zero, zero, zero, zero, zero, one, zero, S] multiply_add_one_rule = [S, one, zero, zero, zero, zero, zero, one, zero, S] := by decide

theorem mstep155 : iterate_rule [S, one, zero, one, one, zero, carry 1 2, S] multiply_add_one_rule = [S, one, zero, one, one, carry 0 2, zero, S] := by decide

theorem mstep156 : iterate_rule [S, one, zero, one, one, carry 0 2, zero, S] multiply_add_one_rule = [S, one, zero, one, carry 1 2, zero, zero, S] := by decide

theorem mstep157 : iterate_rule [S, one, zero, one, carry 1 2, zero, zero, S] multiply_add_one_rule = [S, one, zero, carry 1 3, zero, zero, zero, S] := by decide

theorem mstep158 : iterate_rule [S, one, zero, carry 1 3, zero, zero, zero, S] multiply_add_one_rule = [S, one, carry 0 2, one, zero, zero, zero, S] := by decide

theorem mstep159 : iterate_rule [S, one, carry 0 2, one, zero, zero, zero, S] multiply_add_one_rule = [S, carry 1 2, zero, one, zero, zero, zero, S] := by decide

theorem mstep160 : iterate_rule [S, carry 1 2, zero, one, zero, zero, zero, S] multiply_add_one_rule = [S, carry 0 2, zero, zero, one, zero, zero, zero, S] := by decide

theorem mstep161 : iterate_rule [S, carry 0 2, zero, zero, one, zero, zero, zero, S] multiply_add_one_rule = [S, carry 0 1, zero, zero, zero, one, zero, zero, zero, S] := by decide

theorem mstep162 : iterate_rule [S, carry 0 1, zero, zero, zero, one, zero, zero, zero, S] multiply_add_one_rule = [S, one, zero, zero, zero, one, zero, zero, zero, S] := by decide

theorem mstep163 : iterate_rule [S, one, zero, zero, zero, one, zero, zero, zero, S] multiply_add_one_rule = [S, one, zero, zero, zero, one, zero, zero, zero, S] := by decide

theorem mstep164 : iterate_rule [S, one, zero, one, one, one, carry 1 2, S] multiply_add_one_rule = [S, one, zero, one, one, carry 1 3, zero, S] := by decide

theorem mstep165 : iterate_rule [S, one, zero, one, one, carry 1 3, zero, S] multiply_add_one_rule = [S, one, zero, one, carry 1 3, one, zero, S] := by decide

theorem mstep166 : iterate_rule [S, one, zero, one, carry 1 3, one, zero, S] multiply_add_one_rule = [S, one, zero, carry 1 3, one, one, zero, S] := by decide

theorem mstep167 : iterate_rule [S, one, zero, carry 1 3, one, one, zero, S] multiply_add_one_rule = [S, one, carry 0 2, one, one, one, zero, S] := by decide

theorem mstep168 : iterate_rule [S, one, carry 0 2, one, one, one, zero, S] multiply_add_one_rule = [S, carry 1 2, zero, one, one, one, zero, S] := by decide

theorem mstep169 : iterate_rule [S, carry 1 2, zero, one, one, one, zero, S] multiply_add_one_rule = [S, carry 0 2, zero, zero, one, one, one, zero, S] := by decide

theorem mstep170 : iterate_rule [S, carry 0 2, zero, zero, one, one, one, zero, S] multiply_add_one_rule = [S, carry 0 1, zero, zero, zero, one, one, one, zero, S] := by decide

theorem mstep171 : iterate_rule [S, carry 0 1, zero, zero, zero, one, one, one, zero, S] multiply_add_one_rule = [S, one, zero, zero, zero, one, one, one, zero, S] := by decide

theorem mstep172 : iterate_rule [S, one, zero, zero, zero, one, one, one, zero, S] multiply_add_one_rule = [S, one, zero, zero, zero, one, one, one, zero, S] := by decide

theorem mstep173 : iterate_rule [S, one, one, zero, zero, zero, carry 1 2, S] multiply_add_one_rule = [S, one, one, zero, zero, carry 0 2, zero, S] := by decide

theorem mstep174 : iterate_rule [S, one, one, zero, zero, carry 0 2, zero, S] multiply_add_one_rule = [S, one, one, zero, carry 0 1, zero, zero, S] := by decide

theorem mstep175 : iterate_rule [S, one, one, zero, carry 0 1, zero, zero, S] multiply_add_one_rule = [S, one, one, carry 0 0, one, zero, zero, S] := by decide

theorem mstep176 : iterate_rule [S, one, one, carry 0 0, one, zero, zero, S] multiply_add_one_rule = [S, one, carry 1 1, zero, one, zero, zero, S] := by decide

theorem mstep177 : iterate_rule [S, one, carry 1 1, zero, one, zero, zero, S] multiply_add_one_rule = [S, carry 1 2, one, zero, one, zero, zero, S] := by decide

theorem mstep178 : iterate_rule [S, carry 1 2, one, zero, one, zero, zero, S] multiply_add_one_rule = [S, carry 0 2, zero, one, zero, one, zero, zero, S] := by decide

theorem mstep179 : iterate_rule [S, carry 0 2, zero, one, zero, one, zero, zero, S] multiply_add_one_rule = [S, carry 0 1, zero, zero, one, zero, one, zero, zero, S] := by decide

theorem mstep180 : iterate_rule [S, carry 0 1, zero, zero, one, zero, one, zero, zero, S] multiply_add_one_rule = [S, one, zero, zero, one, zero, one, zero, zero, S] := by decide

theorem mstep181 : iterate_rule [S, one, zero, zero, one, zero, one, zero, zero, S] multiply_add_one_rule = [S, one, zero, zero, one, zero, one, zero, zero, S] := by decide

theorem mstep182 : iterate_rule [S, one, one, zero, zero, one, carry 1 2, S] multiply_add_one_rule = [S, one, one, zero, zero, carry 1 3, zero, S] := by decide

theorem mstep183 : iterate_rule [S, one, one, zero, zero, carry 1 3, zero, S] multiply_add_one_rule = [S, one, one, zero, carry 0 2, one, zero, S] := by decide

theorem mstep184 : iterate_rule [S, one, one, zero, carry 0 2, one, zero, S] multiply_add_one_rule = [S, one, one, carry 0 1, zero, one, zero, S] := by decide

theorem mstep185 : iterate_rule [S, one, one, carry 0 1, zero, one, zero, S] multiply_add_one_rule = [S, one, carry 1 1, one, zero, one, zero, S] := by decide

theorem mstep186 : iterate_rule [S, one, carry 1 1, one, zero, one, zero, S] multiply_add_one_rule = [S, carry 1 2, one, one, zero, one, zero, S] := by decide

theorem mstep187 : iterate_rule [S, carry 1 2, one, one, zero, one, zero, S] multiply_add_one_rule = [S, carry 0 2, zero, one, one, zero, one, zero, S] := by decide

theorem mstep188 : iterate_rule [S, carry 0 2, zero, one, one, zero, one, zero, S] multiply_add_one_rule = [S, carry 0 1, zero, zero, one, one, zero, one, zero, S] := by decide

theorem mstep189 : iterate_rule [S, carry 0 1, zero, zero, one, one, zero, one, zero, S] multiply_add_one_rule = [S, one, zero, zero, one, one, zero, one, zero, S] := by decide

theorem mstep190 : iterate_rule [S, one, zero, zero, one, one, zero, one, zero, S] multiply_add_one_rule = [S, one, zero, zero, one, one, zero, one, zero, S] := by decide

theorem mstep191 : iterate_rule [S, one, one, zero, one, zero, carry 1 2, S] multiply_add_one_rule = [S, one, one, zero, one, carry 0 2, zero, S] := by decide

theorem mstep192 : iterate_rule [S, one, one, zero, one, carry 0 2, zero, S] multiply_add_one_rule = [S, one, one, zero, carry 1 2, zero, zero, S] := by decide

theorem mstep193 : iterate_rule [S, one, one, zero, carry 1 2, zero, zero, S] multiply_add_one_rule = [S, one, one, carry 0 2, zero, zero, zero, S] := by decide

theorem mstep194 : iterate_rule [S, one, one, carry 0 2, zero, zero, zero, S] multiply_add_one_rule = [S, one, carry 1 2, zero, zero, zero, zero, S] := by decide

theorem mstep195 : iterate_rule [S, one, carry 1 2, zero, zero, zero, zero, S] multiply_add_one_rule = [S, carry 1 3, zero, zero, zero, zero, zero, S] := by decide

theorem mstep196 : iterate_rule [S, carry 1 3, zero, zero, zero, zero, zero, S] multiply_add_one_rule = [S, carry 0 2, one, zero, zero, zero, zero, zero, S] := by decide

theorem mstep197 : iterate_rule [S, carry 0 2, one, zero, zero, zero, zero, zero, S] multiply_add_one_rule = [S, carry 0 1, zero, one, zero, zero, zero, zero, zero, S] := by decide

theorem mstep198 : iterate_rule [S, carry 0 1, zero, one, zero, zero, zero, zero, zero, S] multiply_add_one_rule = [S, one, zero, one, zero, zero, zero, zero, zero, S] := by decide

theorem mstep199 : iterate_rule [S, one, zero, one, zero, zero, zero, zero, zero, S] multiply_add_one_rule = [S, one, zero, one, zero, zero, zero, zero, zero, S] := by decide

theorem mstep200 : iterate_rule [S, one, one, zero, one, one, carry 1 2, S] multiply_add_one_rule = [S, one, one, zero, one, carry 1 3, zero, S] := by decide

theorem mstep201 : iterate_rule [S, one, one, zero, one, carry 1 3, zero, S] multiply_add_one_rule = [S, one, one, zero, carry 1 3, one, zero, S] := by decide

theorem mstep202 : iterate_rule [S, one, one, zero, carry 1 3, one, zero, S] multiply_add_one_rule = [S, one, one, carry 0 2, one, one, zero, S] := by decide

theorem mstep203 : iterate_rule [S, one, one, carry 0 2, one, one, zero, S] multiply_add_one_rule = [S, one, carry 1 2, zero, one, one, zero, S] := by decide

theorem mstep204 : iterate_rule [S, one, carry 1 2, zero, one, one, zero, S] multiply_add_one_rule = [S, carry 1 3, zero, zero, one, one, zero, S] := by decide

theorem mstep205 : iterate_rule [S, carry 1 3, zero, zero, one, one, zero, S] multiply_add_one_rule = [S, carry 0 2, one, zero, zero, one, one, zero, S] := by decide

theorem mstep206 : iterate_rule [S, carry 0 2, one, zero, zero, one, one, zero, S] multiply_add_one_rule = [S, carry 0 1, zero, one, zero, zero, one, one, zero, S] := by decide

theorem mstep207 : iterate_rule [S, carry 0 1, zero, one, zero, zero, one, one, zero, S] multiply_add_one_rule = [S, one, zero, one, zero, zero, one, one, zero, S] := by decide

theorem mstep208 : iterate_rule [S, one, zero, one, zero, zero, one, one, zero, S] multiply_add_one_rule = [S, one, zero, one, zero, zero, one, one, zero, S] := by decide

theorem mstep209 : iterate_rule [S, one, one, one, zero, zero, carry 1 2, S] multiply_add_one_rule = [S, one, one, one, zero, carry 0 2, zero, S] := by decide

theorem mstep210 : iterate_rule [S, one, one, one, zero, carry 0 2, zero, S] multiply_add_one_rule = [S, one, one, one, carry 0 1, zero, zero, S] := by decide

theorem mstep211 : iterate_rule [S, one, one, one, carry 0 1, zero, zero, S] multiply_add_one_rule = [S, one, one, carry 1 1, one, zero, zero, S] := by decide

theorem mstep212 : iterate_rule [S, one, one, carry 1 1, one, zero, zero, S] multiply_add_one_rule = [S, one, carry 1 2, one, one, zero, zero, S] := by decide

theorem mstep213 : iterate_rule [S, one, carry 1 2, one, one, zero, zero, S] multiply_add_one_rule = [S, carry 1 3, zero, one, one, zero, zero, S] := by decide

theorem mstep214 : iterate_rule [S, carry 1 3, zero, one, one, zero, zero, S] multiply_add_one_rule = [S, carry 0 2, one, zero, one, one, zero, zero, S] := by decide

theorem mstep215 : iterate_rule [S, carry 0 2, one, zero, one, one, zero, zero, S] multiply_add_one_rule = [S, carry 0 1, zero, one, zero, one, one, zero, zero, S] := by decide

theorem mstep216 : iterate_rule [S, carry 0 1, zero, one, zero, one, one, zero, zero, S] multiply_add_one_rule = [S, one, zero, one, zero, one, one, zero, zero, S] := by decide

theorem mstep217 : iterate_rule [S, one, zero, one, zero, one, one, zero, zero, S] multiply_add_one_rule = [S, one, zero, one, zero, one, one, zero, zero, S] := by decide

theorem mstep218 : iterate_rule [S, one, one, one, zero, one, carry 1 2, S] multiply_add_one_rule = [S, one, one, one, zero, carry 1 3, zero, S] := by decide

theorem mstep219 : iterate_rule [S, one, one, one, zero, carry 1 3, zero, S] multiply_add_one_rule = [S, one, one, one, carry 0 2, one, zero, S] := by decide

theorem mstep220 : iterate_rule [S, one, one, one, carry 0 2, one, zero, S] multiply_add_one_rule = [S, one, one, carry 1 2, zero, one, zero, S] := by decide

theorem mstep221 : iterate_rule [S, one, one, carry 1 2, zero, one, zero, S] multiply_add_one_rule = [S, one, carry 1 3, zero, zero, one, zero, S] := by decide

theorem mstep222 : iterate_rule [S, one, carry 1 3, zero, zero, one, zero, S] multiply_add_one_rule = [S, carry 1 3, one, zero, zero, one, zero, S] := by decide

theorem mstep223 : iterate_rule [S, carry 1 3, one, zero, zero, one, zero, S] multiply_add_one_rule = [S, carry 0 2, one, one, zero, zero, one, zero, S] := by decide

theorem mstep224 : iterate_rule [S, carry 0 2, one, one, zero, zero, one, zero, S] multiply_add_one_rule = [S, carry 0 1, zero, one, one, zero, zero, one, zero, S] := by decide

theorem mstep225 : iterate_rule [S, carry 0 1, zero, one, one, zero, zero, one, zero, S] multiply_add_one_rule = [S, one, zero, one, one, zero, zero, one, zero, S] := by decide

theorem mstep226 : iterate_rule [S, one, zero, one, one, zero, zero, one, zero, S] multiply_add_one_rule = [S, one, zero, one, one, zero, zero, one, zero, S] := by decide

theorem mstep227 : iterate_rule [S, one, one, one, one, zero, carry 1 2, S] multiply_add_one_rule = [S, one, one, one, one, carry 0 2, zero, S] := by decide

theorem mstep228 : iterate_rule [S, one, one, one, one, carry 0 2, zero, S] multiply_add_one_rule = [S, one, one, one, carry 1 2, zero, zero, S] := by decide

theorem mstep229 : iterate_rule [S, one, one, one, carry 1 2, zero, zero, S] multiply_add_one_rule = [S, one, one, carry 1 3, zero, zero, zero, S] := by decide

theorem mstep230 : iterate_rule [S, one, one, carry 1 3, zero, zero, zero, S] multiply_add_one_rule = [S, one, carry 1 3, one, zero, zero, zero, S] := by decide

theorem mstep231 : iterate_rule [S, one, carry 1 3, one, zero, zero, zero, S] multiply_add_one_rule = [S, carry 1 3, one, one, zero, zero, zero, S] := by decide

theorem mstep232 : iterate_rule [S, carry 1 3, one, one, zero, zero, zero, S] multiply_add_one_rule = [S, carry 0 2, one, one, one, zero, zero, zero, S] := by decide

theorem mstep233 : iterate_rule [S, carry 0 2, one, one, one, zero, zero, zero, S] multiply_add_one_rule = [S, carry 0 1, zero, one, one, one, zero, zero, zero, S] := by decide

theorem mstep234 : iterate_rule [S, carry 0 1, zero, one, one, one, zero, zero, zero, S] multiply_add_one_rule = [S, one, zero, one, one, one, zero, zero, zero, S] := by decide

theorem mstep235 : iterate_rule [S, one, zero, one, one, one, zero, zero, zero, S] multiply_add_one_rule = [S, one, zero, one, one, one, zero, zero, zero, S] := by decide

theorem mstep236 : iterate_rule [S, one, one, one, one, one, carry 1 2, S] multiply_add_one_rule = [S, one, one, one, one, carry 1 3, zero, S] := by decide

theorem mstep237 : iterate_rule [S, one, one, one, one, carry 1 3, zero, S] multiply_add_one_rule = [S, one, one, one, carry 1 3, one, zero, S] := by decide

theorem mstep238 : iterate_rule [S, one, one, one, carry 1 3, one, zero, S] multiply_add_one_rule = [S, one, one, carry 1 3, one, one, zero, S] := by decide

theorem mstep239 : iterate_rule [S, one, one, carry 1 3, one, one, zero, S] multiply_add_one_rule = [S, one, carry 1 3, one, one, one, zero, S] := by decide

theorem mstep240 : iterate_rule [S, one, carry 1 3, one, one, one, zero, S] multiply_add_one_rule = [S, carry 1 3, one, one, one, one, zero, S] := by decide

theorem mstep241 : iterate_rule [S, carry 1 3, one, one, one, one, zero, S] multiply_add_one_rule = [S, carry 0 2, one, one, one, one, one, zero, S] := by decide

theorem mstep242 : iterate_rule [S, carry 0 2, one, one, one, one, one, zero, S] multiply_add_one_rule = [S, carry 0 1, zero, one, one, one, one, one, zero, S] := by decide

theorem mstep243 : iterate_rule [S, carry 0 1, zero, one, one, one, one, one, zero, S] multiply_add_one_rule = [S, one, zero, one, one, one, one, one, zero, S] := by decide

theorem mstep244 : iterate_rule [S, one, zero, one, one, one, one, one, zero, S] multiply_add_one_rule = [S, one, zero, one, one, one, one, one, zero, S] := by decide

theorem mstep245 : iterate_rule [S, one, zero, zero, zero, zero, zero, carry 1 2, S] multiply_add_one_rule = [S, one, zero, zero, zero, zero, carry 0 2, zero, S] := by decide

theorem mstep246 : iterate_rule [S, one, zero, zero, zero, zero, carry 0 2, zero, S] multiply_add_one_rule = [S, one, zero, zero, zero, carry 0 1, zero, zero, S] := by decide

theorem mstep247 : iterate_rule [S, one, zero, zero, zero, carry 0 1, zero, zero, S] multiply_add_one_rule = [S, one, zero, zero, carry 0 0, one, zero, zero, S] := by decide

theorem mstep248 : iterate_rule [S, one, zero, zero, carry 0 0, one, zero, zero, S] multiply_add_one_rule = [S, one, zero, carry 0 0, zero, one, zero, zero, S] := by decide

theorem mstep249 : iterate_rule [S, one, zero, carry 0 0, zero, one, zero, zero, S] multiply_add_one_rule = [S, one, carry 0 0, zero, zero, one, zero, zero, S] := by decide

theorem mstep250 : iterate_rule [S, one, carry 0 0, zero, zero, one, zero, zero, S] multiply_add_one_rule = [S, carry 1 1, zero, zero, zero, one, zero, zero, S] := by decide

theorem mstep251 : iterate_rule [S, carry 1 1, zero, zero, zero, one, zero, zero, S] multiply_add_one_rule = [S, carry 0 1, one, zero, zero, zero, one, zero, zero, S] := by decide

theorem mstep252 : iterate_rule [S, carry 0 1, one, zero, zero, zero, one, zero, zero, S] multiply_add_one_rule = [S, one, one, zero, zero, zero, one, zero, zero, S] := by decide

theorem mstep253 : iterate_rule [S, one, one, zero, zero, zero, one, zero, zero, S] multiply_add_one_rule = [S, one, one, zero, zero, zero, one, zero, zero, S] := by decide

theorem mstep254 : iterate_rule [S, one, zero, zero, zero, zero, one, carry 1 2, S] multiply_add_one_rule = [S, one, zero, zero, zero, zero, carry 1 3, zero, S] := by decide

theorem mstep255 : iterate_rule [S, one, zero, zero, zero, zero, carry 1 3, zero, S] multiply_add_one_rule = [S, one, zero, zero, zero, carry 0 2, one, zero, S] := by decide

theorem mstep256 : iterate_rule [S, one, zero, zero, zero, carry 0 2, one, zero, S] multiply_add_one_rule = [S, one, zero, zero, carry 0 1, zero, one, zero, S] := by decide

theorem mstep257 : iterate_rule [S, one, zero, zero, carry 0 1, zero, one, zero, S] multiply_add_one_rule = [S, one, zero, carry 0 0, one, zero, one, zero, S] := by decide

theorem mstep258 : iterate_rule [S, one, zero, carry 0 0, one, zero, one, zero, S] multiply_add_one_rule = [S, one, carry 0 0, zero, one, zero, one, zero, S] := by decide

theorem mstep259 : iterate_rule [S, one, carry 0 0, zero, one, zero, one, zero, S] multiply_add_one_rule = [S, carry 1 1, zero, zero, one, zero, one, zero, S] := by decide

theorem mstep260 : iterate_rule [S, carry 1 1, zero, zero, one, zero, one, zero, S] multiply_add_one_rule = [S, carry 0 1, one, zero, zero, one, zero, one, zero, S] := by decide

theorem mstep261 : iterate_rule [S, carry 0 1, one, zero, zero, one, zero, one, zero, S] multiply_add_one_rule = [S, one, one, zero, zero, one, zero, one, zero, S] := by decide

theorem mstep262 : iterate_rule [S, one, one, zero, zero, one, zero, one, zero, S] multiply_add_one_rule = [S, one, one, zero, zero, one, zero, one, zero, S] := by decide

theorem mstep263 : iterate_rule [S, one, zero, zero, zero, one, zero, carry 1 2, S] multiply_add_one_rule = [S, one, zero, zero, zero, one, carry 0 2, zero, S] := by decide

theorem mstep264 : iterate_rule [S, one, zero, zero, zero, one, carry 0 2, zero, S] multiply_add_one_rule = [S, one, zero, zero, zero, carry 1 2, zero, zero, S] := by decide

theorem mstep265 : iterate_rule [S, one, zero, zero, zero, carry 1 2, zero, zero, S] multiply_add_one_rule = [S, one, zero, zero, carry 0 2, zero, zero, zero, S] := by decide

theorem mstep266 : iterate_rule [S, one, zero, zero, carry 0 2, zero, zero, zero, S] multiply_add_one_rule = [S, one, zero, carry 0 1, zero, zero, zero, zero, S] := by decide

theorem mstep267 : iterate_rule [S, one, zero, carry 0 1, zero, zero, zero, zero, S] multiply_add_one_rule = [S, one, carry 0 0, one, zero, zero, zero, zero, S] := by decide

theorem mstep268 : iterate_rule [S, one, carry 0 0, one, zero, zero, zero, zero, S] multiply_add_one_rule = [S, carry 1 1, zero, one, zero, zero, zero, zero, S] := by decide

theorem mstep269 : iterate_rule [S, carry 1 1, zero, one, zero, zero, zero, zero, S] multiply_add_one_rule = [S, carry 0 1, one, zero, one, zero, zero, zero, zero, S] := by decide

theorem mstep270 : iterate_rule [S, carry 0 1, one, zero, one, zero, zero, zero, zero, S] multiply_add_one_rule = [S, one, one, zero, one, zero, zero, zero, zero, S] := by decide

theorem mstep271 : iterate_rule [S, one, one, zero, one, zero, zero, zero, zero, S] multiply_add_one_rule = [S, one, one, zero, one, zero, zero, zero, zero, S] := by decide

theorem mstep272 : iterate_rule [S, one, zero, zero, zero, one, one, carry 1 2, S] multiply_add_one_rule = [S, one, zero, zero, zero, one, carry 1 3, zero, S] := by decide

theorem mstep273 : iterate_rule [S, one, zero, zero, zero, one, carry 1 3, zero, S] multiply_add_one_rule = [S, one, zero, zero, zero, carry 1 3, one, zero, S] := by decide

theorem mstep274 : iterate_rule [S, one, zero, zero, zero, carry 1 3, one, zero, S] multiply_add_one_rule = [S, one, zero, zero, carry 0 2, one, one, zero, S] := by decide

theorem mstep275 : iterate_rule [S, one, zero, zero, carry 0 2, one, one, zero, S] multiply_add_one_rule = [S, one, zero, carry 0 1, zero, one, one, zero, S] := by decide

theorem mstep276 : iterate_rule [S, one, zero, carry 0 1, zero, one, one, zero, S] multiply_add_one_rule = [S, one, carry 0 0, one, zero, one, one, zero, S] := by decide

theorem mstep277 : iterate_rule [S, one, carry 0 0, one, zero, one, one, zero, S] multiply_add_one_rule = [S, carry 1 1, zero, one, zero, one, one, zero, S] := by decide

theorem mstep278 : iterate_rule [S, carry 1 1, zero, one, zero, one, one, zero, S] multiply_add_one_rule = [S, carry 0 1, one, zero, one, zero, one, one, zero, S] := by decide

theorem mstep279 : iterate_rule [S, carry 0 1, one, zero, one, zero, one, one, zero, S] multiply_add_one_rule = [S, one, one, zero, one, zero, one, one, zero, S] := by decide

theorem mstep280 : iterate_rule [S, one, one, zero, one, zero, one, one, zero, S] multiply_add_one_rule = [S, one, one, zero, one, zero, one, one, zero, S] := by decide

theorem mstep281 : iterate_rule [S, one, zero, zero, one, zero, zero, carry 1 2, S] multiply_add_one_rule = [S, one, zero, zero, one, zero, carry 0 2, zero, S] := by decide

theorem mstep282 : iterate_rule [S, one, zero, zero, one, zero, carry 0 2, zero, S] multiply_add_one_rule = [S, one, zero, zero, one, carry 0 1, zero, zero, S] := by decide

theorem mstep283 : iterate_rule [S, one, zero, zero, one, carry 0 1, zero, zero, S] multiply_add_one_rule = [S, one, zero, zero, carry 1 1, one, zero, zero, S] := by decide

theorem mstep284 : iterate_rule [S, one, zero, zero, carry 1 1, one, zero, zero, S] multiply_add_one_rule = [S, one, zero, carry 0 1, one, one, zero, zero, S] := by decide

theorem mstep285 : iterate_rule [S, one, zero, carry 0 1, one, one, zero, zero, S] multiply_add_one_rule = [S, one, carry 0 0, one, one, one, zero, zero, S] := by decide

theorem mstep286 : iterate_rule [S, one, carry 0 0, one, one, one, zero, zero, S] multiply_add_one_rule = [S, carry 1 1, zero, one, one, one, zero, zero, S] := by decide

theorem mstep287 : iterate_rule [S, carry 1 1, zero, one, one, one, zero, zero, S] multiply_add_one_rule = [S, carry 0 1, one, zero, one, one, one, zero, zero, S] := by decide

theorem mstep288 : iterate_rule [S, carry 0 1, one, zero, one, one, one, zero, zero, S] multiply_add_one_rule = [S, one, one, zero, one, one, one, zero, zero, S] := by decide

theorem mstep289 : iterate_rule [S, one, one, zero, one, one, one, zero, zero, S] multiply_add_one_rule = [S, one, one, zero, one, one, one, zero, zero, S] := by decide

theorem mstep290 : iterate_rule [S, one, zero, zero, one, zero, one, carry 1 2, S] multiply_add_one_rule = [S, one, zero, zero, one, zero, carry 1 3, zero, S] := by decide

theorem mstep291 : iterate_rule [S, one, zero, zero, one, zero, carry 1 3, zero, S] multiply_add_one_rule = [S, one, zero, zero, one, carry 0 2, one, zero, S] := by decide

theorem mstep292 : iterate_rule [S, one, zero, zero, one, carry 0 2, one, zero, S] multiply_add_one_rule = [S, one, zero, zero, carry 1 2, zero, one, zero, S] := by decide

theorem mstep293 : iterate_rule [S, one, zero, zero, carry 1 2, zero, one, zero, S] multiply_add_one_rule = [S, one, zero, carry 0 2, zero, zero, one, zero, S] := by decide

theorem mstep294 : iterate_rule [S, one, zero, carry 0 2, zero, zero, one, zero, S] multiply_add_one_rule = [S, one, carry 0 1, zero, zero, zero, one, zero, S] := by decide

theorem mstep295 : iterate_rule [S, one, carry 0 1, zero, zero, zero, one, zero, S] multiply_add_one_rule = [S, carry 1 1, one, zero, zero, zero, one, zero, S] := by decide

theorem mstep296 : iterate_rule [S, carry 1 1, one, zero, zero, zero, one, zero, S] multiply_add_one_rule = [S, carry 0 1, one, one, zero, zero, zero, one, zero, S] := by decide

theorem mstep297 : iterate_rule [S, carry 0 1, one, one, zero, zero, zero, one, zero, S] multiply_add_one_rule = [S, one, one, one, zero, zero, zero, one, zero, S] := by decide

theorem mstep298 : iterate_rule [S, one, one, one, zero, zero, zero, one, zero, S] multiply_add_one_rule = [S, one, one, one, zero, zero, zero, one, zero, S] := by decide

theorem mstep299 : iterate_rule [S, one, zero, zero, one, one, zero, carry 1 2, S] multiply_add_one_rule = [S, one, zero, zero, one, one, carry 0 2, zero, S] := by decide

theorem mstep300 : iterate_rule [S, one, zero, zero, one, one, carry 0 2, zero, S] multiply_add_one_rule = [S, one, zero, zero, one, carry 1 2, zero, zero, S] := by decide

theorem mstep301 : iterate_rule [S, one, zero, zero, one, carry 1 2, zero, zero, S] multiply_add_one_rule = [S, one, zero, zero, carry 1 3, zero, zero, zero, S] := by decide

theorem mstep302 : iterate_rule [S, one, zero, zero, carry 1 3, zero, zero, zero, S] multiply_add_one_rule = [S, one, zero, carry 0 2, one, zero, zero, zero, S] := by decide

theorem mstep303 : iterate_rule [S, one, zero, carry 0 2, one, zero, zero, zero, S] multiply_add_one_rule = [S, one, carry 0 1, zero, one, zero, zero, zero, S] := by decide

theorem mstep304 : iterate_rule [S, one, carry 0 1, zero, one, zero, zero, zero, S] multiply_add_one_rule = [S, carry 1 1, one, zero, one, zero, zero, zero, S] := by decide

theorem mstep305 : iterate_rule [S, carry 1 1, one, zero, one, zero, zero, zero, S] multiply_add_one_rule = [S, carry 0 1, one, one, zero, one, zero, zero, zero, S] := by decide

theorem mstep306 : iterate_rule [S, carry 0 1, one, one, zero, one, zero, zero, zero, S] multiply_add_one_rule = [S, one, one, one, zero, one, zero, zero, zero, S] := by decide

theorem mstep307 : iterate_rule [S, one, one, one, zero, one, zero, zero, zero, S] multiply_add_one_rule = [S, one, one, one, zero, one, zero, zero, zero, S] := by decide

theorem mstep308 : iterate_rule [S, one, zero, zero, one, one, one, carry 1 2, S] multiply_add_one_rule = [S, one, zero, zero, one, one, carry 1 3, zero, S] := by decide

theorem mstep309 : iterate_rule [S, one, zero, zero, one, one, carry 1 3, zero, S] multiply_add_one_rule = [S, one, zero, zero, one, carry 1 3, one, zero, S] := by decide

theorem mstep310 : iterate_rule [S, one, zero, zero, one, carry 1 3, one, zero, S] multiply_add_one_rule = [S, one, zero, zero, carry 1 3, one, one, zero, S] := by decide

theorem mstep311 : iterate_rule [S, one, zero, zero, carry 1 3, one, one, zero, S] multiply_add_one_rule = [S, one, zero, carry 0 2, one, one, one, zero, S] := by decide

theorem mstep312 : iterate_rule [S, one, zero, carry 0 2, one, one, one, zero, S] multiply_add_one_rule = [S, one, carry 0 1, zero, one, one, one, zero, S] := by decide

theorem mstep313 : iterate_rule [S, one, carry 0 1, zero, one, one, one, zero, S] multiply_add_one_rule = [S, carry 1 1, one, zero, one, one, one, zero, S] := by decide

theorem mstep314 : iterate_rule [S, carry 1 1, one, zero, one, one, one, zero, S] multiply_add_one_rule = [S, carry 0 1, one, one, zero, one, one, one, zero, S] := by decide

theorem mstep315 : iterate_rule [S, carry 0 1, one, one, zero, one, one, one, zero, S] multiply_add_one_rule = [S, one, one, one, zero, one, one, one, zero, S] := by decide

theorem mstep316 : iterate_rule [S, one, one, one, zero, one, one, one, zero, S] multiply_add_one_rule = [S, one, one, one, zero, one, one, one, zero, S] := by decide

theorem mstep317 : iterate_rule [S, one, zero, one, zero, zero, zero, carry 1 2, S] multiply_add_one_rule = [S, one, zero, one, zero, zero, carry 0 2, zero, S] := by decide

theorem mstep318 : iterate_rule [S, one, zero, one, zero, zero, carry 0 2, zero, S] multiply_add_one_rule = [S, one, zero, one, zero, carry 0 1, zero, zero, S] := by decide

theorem mstep319 : iterate_rule [S, one, zero, one, zero, carry 0 1, zero, zero, S] multiply_add_one_rule = [S, one, zero, one, carry 0 0, one, zero, zero, S] := by decide

theorem mstep320 : iterate_rule [S, one, zero, one, carry 0 0, one, zero, zero, S] multiply_add_one_rule = [S, one, zero, carry 1 1, zero, one, zero, zero, S] := by decide

theorem mstep321 : iterate_rule [S, one, zero, carry 1 1, zero, one, zero, zero, S] multiply_add_one_rule = [S, one, carry 0 1, one, zero, one, zero, zero, S] := by decide

theorem mstep322 : iterate_rule [S, one, carry 0 1, one, zero, one, zero, zero, S] multiply_add_one_rule = [S, carry 1 1, one, one, zero, one, zero, zero, S] := by decide

theorem mstep323 : iterate_rule [S, carry 1 1, one, one, zero, one, zero, zero, S] multiply_add_one_rule = [S, carry 0 1, one, one, one, zero, one, zero, zero, S] := by decide

theorem mstep324 : iterate_rule [S, carry 0 1, one, one, one, zero, one, zero, zero, S] multiply_add_one_rule = [S, one, one, one, one, zero, one, zero, zero, S] := by decide

theorem mstep325 : iterate_rule [S, one, one, one, one, zero, one, zero, zero, S] multiply_add_one_rule = [S, one, one, one, one, zero, one, zero, zero, S] := by decide

theorem mstep326 : iterate_rule [S, one, zero, one, zero, zero, one, carry 1 2, S] multiply_add_one_rule = [S, one, zero, one, zero, zero, carry 1 3, zero, S] := by decide

theorem mstep327 : iterate_rule [S, one, zero, one, zero, zero, carry 1 3, zero, S] multiply_add_one_rule = [S, one, zero, one, zero, carry 0 2, one, zero, S] := by decide

theorem mstep328 : iterate_rule [S, one, zero, one, zero, carry 0 2, one, zero, S] multiply_add_one_rule = [S, one, zero, one, carry 0 1, zero, one, zero, S] := by decide

theorem mstep329 : iterate_rule [S, one, zero, one, carry 0 1, zero, one, zero, S] multiply_add_one_rule = [S, one, zero, carry 1 1, one, zero, one, zero, S] := by decide

theorem mstep330 : iterate_rule [S, one, zero, carry 1 1, one, zero, one, zero, S] multiply_add_one_rule = [S, one, carry 0 1, one, one, zero, one, zero, S] := by decide

theorem mstep331 : iterate_rule [S, one, carry 0 1, one, one, zero, one, zero, S] multiply_add_one_rule = [S, carry 1 1, one, one, one, zero, one, zero, S] := by decide

theorem mstep332 : iterate_rule [S, carry 1 1, one, one, one, zero, one, zero, S] multiply_add_one_rule = [S, carry 0 1, one, one, one, one, zero, one, zero, S] := by decide

theorem mstep333 : iterate_rule [S, carry 0 1, one, one, one, one, zero, one, zero, S] multiply_add_one_rule = [S, one, one, one, one, one, zero, one, zero, S] := by decide

theorem mstep334 : iterate_rule [S, one, one, one, one, one, zero, one, zero, S] multiply_add_one_rule = [S, one, one, one, one, one, zero, one, zero, S] := by decide

theorem mstep335 : iterate_rule [S, one, zero, one, zero, one, zero, carry 1 2, S] multiply_add_one_rule = [S, one, zero, one, zero, one, carry 0 2, zero, S] := by decide

theorem mstep336 : iterate_rule [S, one, zero, one, zero, one, carry 0 2, zero, S] multiply_add_one_rule = [S, one, zero, one, zero, carry 1 2, zero, zero, S] := by decide

theorem mstep337 : iterate_rule [S, one, zero, one, zero, carry 1 2, zero, zero, S] multiply_add_one_rule = [S, one, zero, one, carry 0 2, zero, zero, zero, S] := by decide

theorem mstep338 : iterate_rule [S, one, zero, one, carry 0 2, zero, zero, zero, S] multiply_add_one_rule = [S, one, zero, carry 1 2, zero, zero, zero, zero, S] := by decide

theorem mstep339 : iterate_rule [S, one, zero, carry 1 2, zero, zero, zero, zero, S] multiply_add_one_rule = [S, one, carry 0 2, zero, zero, zero, zero, zero, S] := by decide

theorem mstep340 : iterate_rule [S, one, carry 0 2, zero, zero, zero, zero, zero, S] multiply_add_one_rule = [S, carry 1 2, zero, zero, zero, zero, zero, zero, S] := by decide

theorem mstep341 : iterate_rule [S, carry 1 2, zero, zero, zero, zero, zero, zero, S] multiply_add_one_rule = [S, carry 0 2, zero, zero, zero, zero, zero, zero, zero, S] := by decide

theorem mstep342 : iterate_rule [S, carry 0 2, zero, zero, zero, zero, zero, zero, zero, S] multiply_add_one_rule = [S, carry 0 1, zero, zero, zero, zero, zero, zero, zero, zero, S] := by decide

theorem mstep343 : iterate_rule [S, carry 0 1, zero, zero, zero, zero, zero, zero, zero, zero, S] multiply_add_one_rule = [S, one, zero, zero, zero, zero, zero, zero, zero, zero, S] := by decide

theorem mstep344 : iterate_rule [S, one, zero, zero, zero, zero, zero, zero, zero, zero, S] multiply_add_one_rule = [S, one, zero, zero, zero, zero, zero, zero, zero, zero, S] := by decide

theorem mstep345 : iterate_rule [S, one, zero, one, zero, one, one, carry 1 2, S] multiply_add_one_rule = [S, one, zero, one, zero, one, carry 1 3, zero, S] := by decide

theorem mstep346 : iterate_rule [S, one, zero, one, zero, one, carry 1 3, zero, S] multiply_add_one_rule = [S, one, zero, one, zero, carry 1 3, one, zero, S] := by decide

theorem mstep347 : iterate_rule [S, one, zero, one, zero, carry 1 3, one, zero, S] multiply_add_one_rule = [S, one, zero, one, carry 0 2, one, one, zero, S] := by decide

theorem mstep348 : iterate_rule [S, one, zero, one, carry 0 2, one, one, zero, S] multiply_add_one_rule = [S, one, zero, carry 1 2, zero, one, one, zero, S] := by decide

theorem mstep349 : iterate_rule [S, one, zero, carry 1 2, zero, one, one, zero, S] multiply_add_one_rule = [S, one, carry 0 2, zero, zero, one, one, zero, S] := by decide

theorem mstep350 : iterate_rule [S, one, carry 0 2, zero, zero, one, one, zero, S] multiply_add_one_rule = [S, carry 1 2, zero, zero, zero, one, one, zero, S] := by decide

theorem mstep351 : iterate_rule [S, carry 1 2, zero, zero, zero, one, one, zero, S] multiply_add_one_rule = [S, carry 0 2, zero, zero, zero, zero, one, one, zero, S] := by decide

theorem mstep352 : iterate_rule [S, carry 0 2, zero, zero, zero, zero, one, one, zero, S] multiply_add_one_rule = [S, carry 0 1, zero, zero, zero, zero, zero, one, one, zero, S] := by decide

theorem mstep353 : iterate_rule [S, carry 0 1, zero, zero, zero, zero, zero, one, one, zero, S] multiply_add_one_rule = [S, one, zero, zero, zero, zero, zero, one, one, zero, S] := by decide

theorem mstep354 : iterate_rule [S, one, zero, zero, zero, zero, zero, one, one, zero, S] multiply_add_one_rule = [S, one, zero, zero, zero, zero, zero, one, one, zero, S] := by decide

theorem mstep355 : iterate_rule [S, one, zero, one, one, zero, zero, carry 1 2, S] multiply_add_one_rule = [S, one, zero, one, one, zero, carry 0 2, zero, S] := by decide

theorem mstep356 : iterate_rule [S, one, zero, one, one, zero, carry 0 2, zero, S] multiply_add_one_rule = [S, one, zero, one, one, carry 0 1, zero, zero, S] := by decide

theorem mstep357 : iterate_rule [S, one, zero, one, one, carry 0 1, zero, zero, S] multiply_add_one_rule = [S, one, zero, one, carry 1 1, one, zero, zero, S] := by decide

theorem mstep358 : iterate_rule [S, one, zero, one, carry 1 1, one, zero, zero, S] multiply_add_one_rule = [S, one, zero, carry 1 2, one, one, zero, zero, S] := by decide

theorem mstep359 : iterate_rule [S, one, zero, carry 1 2, one, one, zero, zero, S] multiply_add_one_rule = [S, one, carry 0 2, zero, one, one, zero, zero, S] := by decide

theorem mstep360 : iterate_rule [S, one, carry 0 2, zero, one, one, zero, zero, S] multiply_add_one_rule = [S, carry 1 2, zero, zero, one, one, zero, zero, S] := by decide

theorem mstep361 : iterate_rule [S, carry 1 2, zero, zero, one, one, zero, zero, S] multiply_add_one_rule = [S, carry 0 2, zero, zero, zero, one, one, zero, zero, S] := by decide

theorem mstep362 : iterate_rule [S, carry 0 2, zero, zero, zero, one, one, zero, zero, S] multiply_add_one_rule = [S, carry 0 1, zero, zero, zero, zero, one, one, zero, zero, S] := by decide

theorem mstep363 : iterate_rule [S, carry 0 1, zero, zero, zero, zero, one, one, zero, zero, S] multiply_add_one_rule = [S, one, zero, zero, zero, zero, one, one, zero, zero, S] := by decide

theorem mstep364 : iterate_rule [S, one, zero, zero, zero, zero, one, one, zero, zero, S] multiply_add_one_rule = [S, one, zero, zero, zero, zero, one, one, zero, zero, S] := by decide

theorem mstep365 : iterate_rule [S, one, zero, one, one, zero, one, carry 1 2, S] multiply_add_one_rule = [S, one, zero, one, one, zero, carry 1 3, zero, S] := by decide

theorem mstep366 : iterate_rule [S, one, zero, one, one, zero, carry 1 3, zero, S] multiply_add_one_rule = [S, one, zero, one, one, carry 0 2, one, zero, S] := by decide

theorem mstep367 : iterate_rule [S, one, zero, one, one, carry 0 2, one, zero, S] multiply_add_one_rule = [S, one, zero, one, carry 1 2, zero, one, zero, S] := by decide

theorem mstep368 : iterate_rule [S, one, zero, one, carry 1 2, zero, one, zero, S] multiply_add_one_rule = [S, one, zero, carry 1 3, zero, zero, one, zero, S] := by decide

theorem mstep369 : iterate_rule [S, one, zero, carry 1 3, zero, zero, one, zero, S] multiply_add_one_rule = [S, one, carry 0 2, one, zero, zero, one, zero, S] := by decide

theorem mstep370 : iterate_rule [S, one, carry 0 2, one, zero, zero, one, zero, S] multiply_add_one_rule = [S, carry 1 2, zero, one, zero, zero, one, zero, S] := by decide

theorem mstep371 : iterate_rule [S, carry 1 2, zero, one, zero, zero, one, zero, S] multiply_add_one_rule = [S, carry 0 2, zero, zero, one, zero, zero, one, zero, S] := by decide

theorem mstep372 : iterate_rule [S, carry 0 2, zero, zero, one, zero, zero, one, zero, S] multiply_add_one_rule = [S, carry 0 1, zero, zero, zero, one, zero, zero, one, zero, S] := by decide

theorem mstep373 : iterate_rule [S, carry 0 1, zero, zero, zero, one, zero, zero, one, zero, S] multiply_add_one_rule = [S, one, zero, zero, zero, one, zero, zero, one, zero, S] := by decide

theorem mstep374 : iterate_rule [S, one, zero, zero, zero, one, zero, zero, one, zero, S] multiply_add_one_rule = [S, one, zero, zero, zero, one, zero, zero, one, zero, S] := by decide

theorem mstep375 : iterate_rule [S, one, zero, one, one, one, zero, carry 1 2, S] multiply_add_one_rule = [S, one, zero, one, one, one, carry 0 2, zero, S] := by decide

theorem mstep376 : iterate_rule [S, one, zero, one, one, one, carry 0 2, zero, S] multiply_add_one_rule = [S, one, zero, one, one, carry 1 2, zero, zero, S] := by decide

theorem mstep377 : iterate_rule [S, one, zero, one, one, carry 1 2, zero, zero, S] multiply_add_one_rule = [S, one, zero, one, carry 1 3, zero, zero, zero, S] := by decide

theorem mstep378 : iterate_rule [S, one, zero, one, carry 1 3, zero, zero, zero, S] multiply_add_one_rule = [S, one, zero, carry 1 3, one, zero, zero, zero, S] := by decide

theorem mstep379 : iterate_rule [S, one, zero, carry 1 3, one, zero, zero, zero, S] multiply_add_one_rule = [S, one, carry 0 2, one, one, zero, zero, zero, S] := by decide

theorem mstep380 : iterate_rule [S, one, carry 0 2, one, one, zero, zero, zero, S] multiply_add_one_rule = [S, carry 1 2, zero, one, one, zero, zero, zero, S] := by decide

theorem mstep381 : iterate_rule [S, carry 1 2, zero, one, one, zero, zero, zero, S] multiply_add_one_rule = [S, carry 0 2, zero, zero, one, one, zero, zero, zero, S] := by decide

theorem mstep382 : iterate_rule [S, carry 0 2, zero, zero, one, one, zero, zero, zero, S] multiply_add_one_rule = [S, carry 0 1, zero, zero, zero, one, one, zero, zero, zero, S] := by decide

theorem mstep383 : iterate_rule [S, carry 0 1, zero, zero, zero, one, one, zero, zero, zero, S] multiply_add_one_rule = [S, one, zero, zero, zero, one, one, zero, zero, zero, S] := by decide

theorem mstep384 : iterate_rule [S, one, zero, zero, zero, one, one, zero, zero, zero, S] multiply_add_one_rule = [S, one, zero, zero, zero, one, one, zero, zero, zero, S] := by decide

theorem mstep385 : iterate_rule [S, one, zero, one, one, one, one, carry 1 2, S] multiply_add_one_rule = [S, one, zero, one, one, one, carry 1 3, zero, S] := by decide

theorem mstep386 : iterate_rule [S, one, zero, one, one, one, carry 1 3, zero, S] multiply_add_one_rule = [S, one, zero, one, one, carry 1 3, one, zero, S] := by decide

theorem mstep387 : iterate_rule [S, one, zero, one, one, carry 1 3, one, zero, S] multiply_add_one_rule = [S, one, zero, one, carry 1 3, one, one, zero, S] := by decide

theorem mstep388 : iterate_rule [S, one, zero, one, carry 1 3, one, one, zero, S] multiply_add_one_rule = [S, one, zero, carry 1 3, one, one, one, zero, S] := by decide

theorem mstep389 : iterate_rule [S, one, zero, carry 1 3, one, one, one, zero, S] multiply_add_one_rule = [S, one, carry 0 2, one, one, one, one, zero, S] := by decide

theorem mstep390 : iterate_rule [S, one, carry 0 2, one, one, one, one, zero, S] multiply_add_one_rule = [S, carry 1 2, zero, one, one, one, one, zero, S] := by decide

theorem mstep391 : iterate_rule [S, carry 1 2, zero, one, one, one, one, zero, S] multiply_add_one_rule = [S, carry 0 2, zero, zero, one, one, one, one, zero, S] := by decide

theorem mstep392 : iterate_rule [S, carry 0 2, zero, zero, one, one, one, one, zero, S] multiply_add_one_rule = [S, carry 0 1, zero, zero, zero, one, one, one, one, zero, S] := by decide

theorem mstep393 : iterate_rule [S, carry 0 1, zero, zero, zero, one, one, one, one, zero, S] multiply_add_one_rule = [S, one, zero, zero, zero, one, one, one, one, zero, S] := by decide

theorem mstep394 : iterate_rule [S, one, zero, zero, zero, one, one, one, one, zero, S] multiply_add_one_rule = [S, one, zero, zero, zero, one, one, one, one, zero, S] := by decide

theorem mstep395 : iterate_rule [S, one, one, zero, zero, zero, zero, carry 1 2, S] multiply_add_one_rule = [S, one, one, zero, zero, zero, carry 0 2, zero, S] := by decide

theorem mstep396 : iterate_rule [S, one, one, zero, zero, zero, carry 0 2, zero, S] multiply_add_one_rule = [S, one, one, zero, zero, carry 0 1, zero, zero, S] := by decide

theorem mstep397 : iterate_rule [S, one, one, zero, zero, carry 0 1, zero, zero, S] multiply_add_one_rule = [S, one, one, zero, carry 0 0, one, zero, zero, S] := by decide

theorem mstep398 : iterate_rule [S, one, one, zero, carry 0 0, one, zero, zero, S] multiply_add_one_rule = [S, one, one, carry 0 0, zero, one, zero, zero, S] := by decide

theorem mstep399 : iterate_rule [S, one, one, carry 0 0, zero, one, zero, zero, S] multiply_add_one_rule = [S, one, carry 1 1, zero, zero, one, zero, zero, S] := by decide

theorem mstep400 : iterate_rule [S, one, carry 1 1, zero, zero, one, zero, zero, S] multiply_add_one_rule = [S, carry 1 2, one, zero, zero, one, zero, zero, S] := by decide

theorem mstep401 : iterate_rule [S, carry 1 2, one, zero, zero, one, zero, zero, S] multiply_add_one_rule = [S, carry 0 2, zero, one, zero, zero, one, zero, zero, S] := by decide

theorem mstep402 : iterate_rule [S, carry 0 2, zero, one, zero, zero, one, zero, zero, S] multiply_add_one_rule = [S, carry 0 1, zero, zero, one, zero, zero, one, zero, zero, S] := by decide

theorem mstep403 : iterate_rule [S, carry 0 1, zero, zero, one, zero, zero, one, zero, zero, S] multiply_add_one_rule = [S, one, zero, zero, one, zero, zero, one, zero, zero, S] := by decide

theorem mstep404 : iterate_rule [S, one, zero, zero, one, zero, zero, one, zero, zero, S] multiply_add_one_rule = [S, one, zero, zero, one, zero, zero, one, zero, zero, S] := by decide

theorem mstep405 : iterate_rule [S, one, one, zero, zero, zero, one, carry 1 2, S] multiply_add_one_rule = [S, one, one, zero, zero, zero, carry 1 3, zero, S] := by decide

theorem mstep406 : iterate_rule [S, one, one, zero, zero, zero, carry 1 3, zero, S] multiply_add_one_rule = [S, one, one, zero, zero, carry 0 2, one, zero, S] := by decide

theorem mstep407 : iterate_rule [S, one, one, zero, zero, carry 0 2, one, zero, S] multiply_add_one_rule = [S, one, one, zero, carry 0 1, zero, one, zero, S] := by decide

theorem mstep408 : iterate_rule [S, one, one, zero, carry 0 1, zero, one, zero, S] multiply_add_one_rule = [S, one, one, carry 0 0, one, zero, one, zero, S] := by decide

theorem mstep409 : iterate_rule [S, one, one, carry 0 0, one, zero, one, zero, S] multiply_add_one_rule = [S, one, carry 1 1, zero, one, zero, one, zero, S] := by decide

theorem mstep410 : iterate_rule [S, one, carry 1 1, zero, one, zero, one, zero, S] multiply_add_one_rule = [S, carry 1 2, one, zero, one, zero, one, zero, S] := by decide

theorem mstep411 : iterate_rule [S, carry 1 2, one, zero, one, zero, one, zero, S] multiply_add_one_rule = [S, carry 0 2, zero, one, zero, one, zero, one, zero, S] := by decide

theorem mstep412 : iterate_rule [S, carry 0 2, zero, one, zero, one, zero, one, zero, S] multiply_add_one_rule = [S, carry 0 1, zero, zero, one, zero, one, zero, one, zero, S] := by decide

theorem mstep413 : iterate_rule [S, carry 0 1, zero, zero, one, zero, one, zero, one, zero, S] multiply_add_one_rule = [S, one, zero, zero, one, zero, one, zero, one, zero, S] := by decide

theorem mstep414 : iterate_rule [S, one, zero, zero, one, zero, one, zero, one, zero, S] multiply_add_one_rule = [S, one, zero, zero, one, zero, one, zero, one, zero, S] := by decide

theorem multFix3 : iterFix 50 multiply_add_one_rule (multiplyTape 3) = [S, one, zero, one, zero, S] :=
  ((iterFixAux_step 49 multiply_add_one_rule [] [S, one, carry 1 2, S] [S, carry 1 3, zero, S] (by decide) mstep0).trans
  ((iterFixAux_step 48 multiply_add_one_rule [S, one, carry 1 2, S] [S, carry 1 3, zero, S] [S, carry 0 2, one, zero, S] (by decide) mstep1).trans
  ((iterFixAux_step 47 multiply_add_one_rule [S, carry 1 3, zero, S] [S, carry 0 2, one, zero, S] [S, carry 0 1, zero, one, zero, S] (by decide) mstep2).trans
  ((iterFixAux_step 46 multiply_add_one_rule [S, carry 0 2, one, zero, S] [S, carry 0 1, zero, one, zero, S] [S, one, zero, one, zero, S] (by decide) mstep3).trans
  ((iterFixAux_step 45 multiply_add_one_rule [S, carry 0 1, zero, one, zero, S] [S, one, zero, one, zero, S] [S, one, zero, one, zero, S] (by decide) mstep4).trans
  (iterFixAux_self 43 multiply_add_one_rule [S, one, zero, one, zero, S]))))))

theorem multFix5 : iterFix 50 multiply_add_one_rule (multiplyTape 5) = [S, one, zero, zero, zero, zero, S] :=
  ((iterFixAux_step 49 multiply_add_one_rule [] [S, one, zero, carry 1 2, S] [S, one, carry 0 2, zero, S] (by decide) mstep5).trans
  ((iterFixAux_step 48 multiply_add_one_rule [S, one, zero, carry 1 2, S] [S, one, carry 0 2, zero, S] [S, carry 1 2, zero, zero, S] (by decide) mstep6).trans
  ((iterFixAux_step 47 multiply_add_one_rule [S, one, carry 0 2, zero, S] [S, carry 1 2, zero, zero, S] [S, carry 0 2, zero, zero, zero, S] (by decide) mstep7).trans
  ((iterFixAux_step 46 multiply_add_one_rule [S, carry 1 2, zero, zero, S] [S, carry 0 2, zero, zero, zero, S] [S, carry 0 1, zero, zero, zero, zero, S] (by decide) mstep8).trans
  ((iterFixAux_step 45 multiply_add_one_rule [S, carry 0 2, zero, zero, zero, S] [S, carry 0 1, zero, zero, zero, zero, S] [S, one, zero, zero, zero, zero, S] (by decide) mstep9).trans
  ((iterFixAux_step 44 multiply_add_one_rule [S, carry 0 1, zero, zero, zero, zero, S] [S, one, zero, zero, zero, zero, S] [S, one, zero, zero, zero, zero, S] (by decide) mstep10).trans
  (iterFixAux_self 42 multiply_add_one_rule [S, one, zero, zero, zero, zero, S])))))))

theorem multFix7 : iterFix 50 multiply_add_one_rule (multiplyTape 7) = [S, one, zero, one, one, zero, S] :=
  ((iterFixAux_step 49 multiply_add_one_rule [] [S, one, one, carry 1 2, S] [S, one, carry 1 3, zero, S] (by decide) mstep11).trans
  ((iterFixAux_step 48 multiply_add_one_rule [S, one, one, carry 1 2, S] [S, one, carry 1 3, zero, S] [S, carry 1 3, one, zero, S] (by decide) mstep12).trans
  ((iterFixAux_step 47 multiply_add_one_rule [S, one, carry 1 3, zero, S] [S, carry 1 3, one, zero, S] [S, carry 0 2, one, one, zero, S] (by decide) mstep13).trans
  ((iterFixAux_step 46 multiply_add_one_rule [S, carry 1 3, one, zero, S] [S, carry 0 2, one, one, zero, S] [S, carry 0 1, zero, one, one, zero, S] (by decide) mstep14).trans
  ((iterFixAux_step 45 multiply_add_one_rule [S, carry 0 2, one, one, zero, S] [S, carry 0 1, zero, one, one, zero, S] [S, one, zero, one, one, zero, S] (by decide) mstep15).trans
  ((iterFixAux_step 44 multiply_add_one_rule [S, carry 0 1, zero, one, one, zero, S] [S, one, zero, one, one, zero, S] [S, one, zero, one, one, zero, S] (by decide) mstep16).trans
  (iterFixAux_self 42 multiply_add_one_rule [S, one, zero, one, one, zero, S])))))))

theorem multFix9 : iterFix 50 multiply_add_one_rule (multiplyTape 9) = [S, one, one, one, zero, zero, S] :=
  ((iterFixAux_step 49 multiply_add_one_rule [] [S, one, zero, zero, carry 1 2, S] [S, one, zero, carry 0 2, zero, S] (by decide) mstep17).trans
  ((iterFixAux_step 48 multiply_add_one_rule [S, one, zero, zero, carry 1 2, S] [S, one, zero, carry 0 2, zero, S] [S, one, carry 0 1, zero, zero, S] (by decide) mstep18).trans
  ((iterFixAux_step 47 multiply_add_one_rule [S, one, zero, carry 0 2, zero, S] [S, one, carry 0 1, zero, zero, S] [S, carry 1 1, one, zero, zero, S] (by decide) mstep19).trans
  ((iterFixAux_step 46 multiply_add_one_rule [S, one, carry 0 1, zero, zero, S] [S, carry 1 1, one, zero, zero, S] [S, carry 0 1, one, one, zero, zero, S] (by decide) mstep20).trans
  ((iterFixAux_step 45 multiply_add_one_rule [S, carry 1 1, one, zero, zero, S] [S, carry 0 1, one, one, zero, zero, S] [S, one, one, one, zero, zero, S] (by decide) mstep21).trans
  ((iterFixAux_step 44 multiply_add_one_rule [S, carry 0 1, one, one, zero, zero, S] [S, one, one, one, zero, zero, S] [S, one, one, one, zero, zero, S] (by decide) mstep22).trans
  (iterFixAux_self 42 multiply_add_one_rule [S, one, one, one, zero, zero, S])))))))

theorem multFix11 : iterFix 50 multiply_add_one_rule (multiplyTape 11) = [S, one, zero, zero, zero, one, zero, S] :=
  ((iterFixAux_step 49 multiply_add_one_rule [] [S, one, zero, one, carry 1 2, S] [S, one, zero, carry 1 3, zero, S] (by decide) mstep23).trans
  ((iterFixAux_step 48 multiply_add_one_rule [S, one, zero, one, carry 1 2, S] [S, one, zero, carry 1 3, zero, S] [S, one, carry 0 2, one, zero, S] (by decide) mstep24).trans
  ((iterFixAux_step 47 multiply_add_one_rule [S, one, zero, carry 1 3, zero, S] [S, one, carry 0 2, one, zero, S] [S, carry 1 2, zero, one, zero, S] (by decide) mstep25).trans
  ((iterFixAux_step 46 multiply_add_one_rule [S, one, carry 0 2, one, zero, S] [S, carry 1 2, zero, one, zero, S] [S, carry 0 2, zero, zero, one, zero, S] (by decide) mstep26).trans
  ((iterFixAux_step 45 multiply_add_one_rule [S, carry 1 2, zero, one, zero, S] [S, carry 0 2, zero, zero, one, zero, S] [S, carry 0 1, zero, zero, zero, one, zero, S] (by decide) mstep27).trans
  ((iterFixAux_step 44 multiply_add_one_rule [S, carry 0 2, zero, zero, one, zero, S] [S, carry 0 1, zero, zero, zero, one, zero, S] [S, one, zero, zero, zero, one, zero, S] (by decide) mstep28).trans
  ((iterFixAux_step 43 multiply_add_one_rule [S, carry 0 1, zero, zero, zero, one, zero, S] [S, one, zero, zero, zero, one, zero, S] [S, one, zero, zero, zero, one, zero, S] (by decide) mstep29).trans
  (iterFixAux_self 41 multiply_add_one_rule [S, one, zero, zero, zero, one, zero, S]))))))))

theorem multFix13 : iterFix 50 multiply_add_one_rule (multiplyTape 13) = [S, one, zero, one, zero, zero, zero, S] :=
  ((iterFixAux_step 49 multiply_add_one_rule [] [S, one, one, zero, carry 1 2, S] [S, one, one, carry 0 2, zero, S] (by decide) mstep30).trans
  ((iterFixAux_step 48 multiply_add_one_rule [S, one, one, zero, carry 1 2, S] [S, one, one, carry 0 2, zero, S] [S, one, carry 1 2, zero, zero, S] (by decide) mstep31).trans
  ((iterFixAux_step 47 multiply_add_one_rule [S, one, one, carry 0 2, zero, S] [S, one, carry 1 2, zero, zero, S] [S, carry 1 3, zero, zero, zero, S] (by decide) mstep32).trans
  ((iterFixAux_step 46 multiply_add_one_rule [S, one, carry 1 2, zero, zero, S] [S, carry 1 3, zero, zero, zero, S] [S, carry 0 2, one, zero, zero, zero, S] (by decide) mstep33).trans
  ((iterFixAux_step 45 multiply_add_one_rule [S, carry 1 3, zero, zero, zero, S] [S, carry 0 2, one, zero, zero, zero, S] [S, carry 0 1, zero, one, zero, zero, zero, S] (by decide) mstep34).trans
  ((iterFixAux_step 44 multiply_add_one_rule [S, carry 0 2, one, zero, zero, zero, S] [S, carry 0 1, zero, one, zero, zero, zero, S] [S, one, zero, one, zero, zero, zero, S] (by decide) mstep35).trans
  ((iterFixAux_step 43 multiply_add_one_rule [S, carry 0 1, zero, one, zero, zero, zero, S] [S, one, zero, one, zero, zero, zero, S] [S, one, zero, one, zero, zero, zero, S] (by decide) mstep36).trans
  (iterFixAux_self 41 multiply_add_one_rule [S, one, zero, one, zero, zero, zero, S]))))))))

theorem multFix15 : iterFix 50 multiply_add_one_rule (multiplyTape 15) = [S, one, zero, one, one, one, zero, S] :=
  ((iterFixAux_step 49 multiply_add_one_rule [] [S, one, one, one, carry 1 2, S] [S, one, one, carry 1 3, zero, S] (by decide) mstep37).trans
  ((iterFixAux_step 48 multiply_add_one_rule [S, one, one, one, carry 1 2, S] [S, one, one, carry 1 3, zero, S] [S, one, carry 1 3, one, zero, S] (by decide) mstep38).trans
  ((iterFixAux_step 47 multiply_add_one_rule [S, one, one, carry 1 3, zero, S] [S, one, carry 1 3, one, zero, S] [S, carry 1 3, one, one, zero, S] (by decide) mstep39).trans
  ((iterFixAux_step 46 multiply_add_one_rule [S, one, carry 1 3, one, zero, S] [S, carry 1 3, one, one, zero, S] [S, carry 0 2, one, one, one, zero, S] (by decide) mstep40).trans
  ((iterFixAux_step 45 multiply_add_one_rule [S, carry 1 3, one, one, zero, S] [S, carry 0 2, one, one, one, zero, S] [S, carry 0 1, zero, one, one, one, zero, S] (by decide) mstep41).trans
  ((iterFixAux_step 44 multiply_add_one_rule [S, carry 0 2, one, one, one, zero, S] [S, carry 0 1, zero, one, one, one, zero, S] [S, one, zero, one, one, one, zero, S] (by decide) mstep42).trans
  ((iterFixAux_step 43 multiply_add_one_rule [S, carry 0 1, zero, one, one, one, zero, S] [S, one, zero, one, one, one, zero, S] [S, one, zero, one, one, one, zero, S] (by decide) mstep43).trans
  (iterFixAux_self 41 multiply_add_one_rule [S, one, zero, one, one, one, zero, S]))))))))

theorem multFix17 : iterFix 50 multiply_add_one_rule (multiplyTape 17) = [S, one, one, zero, one, zero, zero, S] :=
  ((iterFixAux_step 49 multiply_add_one_rule [] [S, one, zero, zero, zero, carry 1 2, S] [S, one, zero, zero, carry 0 2, zero, S] (by decide) mstep44).trans
  ((iterFixAux_step 48 multiply_add_one_rule [S, one, zero, zero, zero, carry 1 2, S] [S, one, zero, zero, carry 0 2, zero, S] [S, one, zero, carry 0 1, zero, zero, S] (by decide) mstep45).trans
  ((iterFixAux_step 47 multiply_add_one_rule [S, one, zero, zero, carry 0 2, zero, S] [S, one, zero, carry 0 1, zero, zero, S] [S, one, carry 0 0, one, zero, zero, S] (by decide) mstep46).trans
  ((iterFixAux_step 46 multiply_add_one_rule [S, one, zero, carry 0 1, zero, zero, S] [S, one, carry 0 0, one, zero, zero, S] [S, carry 1 1, zero, one, zero, zero, S] (by decide) mstep47).trans
  ((iterFixAux_step 45 multiply_add_one_rule [S, one, carry 0 0, one, zero, zero, S] [S, carry 1 1, zero, one, zero, zero, S] [S, carry 0 1, one, zero, one, zero, zero, S] (by decide) mstep48).trans
  ((iterFixAux_step 44 multiply_add_one_rule [S, carry 1 1, zero, one, zero, zero, S] [S, carry 0 1, one, zero, one, zero, zero, S] [S, one, one, zero, one, zero, zero, S] (by decide) mstep49).trans
  ((iterFixAux_step 43 multiply_add_one_rule [S, carry 0 1, one, zero, one, zero, zero, S] [S, one, one, zero, one, zero, zero, S] [S, one, one, zero, one, zero, zero, S] (by decide) mstep50).trans
  (iterFixAux_self 41 multiply_add_one_rule [S, one, one, zero, one, zero, zero, S]))))))))

theorem multFix19 : iterFix 50 multiply_add_one_rule (multiplyTape 19) = [S, one, one, one, zero, one, zero, S] :=
  ((iterFixAux_step 49 multiply_add_one_rule [] [S, one, zero, zero, one, carry 1 2, S] [S, one, zero, zero, carry 1 3, zero, S] (by decide) mstep51).trans
  ((iterFixAux_step 48 multiply_add_one_rule [S, one, zero, zero, one, carry 1 2, S] [S, one, zero, zero, carry 1 3, zero, S] [S, one, zero, carry 0 2, one, zero, S] (by decide) mstep52).trans
  ((iterFixAux_step 47 multiply_add_one_rule [S, one, zero, zero, carry 1 3, zero, S] [S, one, zero, carry 0 2, one, zero, S] [S, one, carry 0 1, zero, one, zero, S] (by decide) mstep53).trans
  ((iterFixAux_step 46 multiply_add_one_rule [S, one, zero, carry 0 2, one, zero, S] [S, one, carry 0 1, zero, one, zero, S] [S, carry 1 1, one, zero, one, zero, S] (by decide) mstep54).trans
  ((iterFixAux_step 45 multiply_add_one_rule [S, one, carry 0 1, zero, one, zero, S] [S, carry 1 1, one, zero, one, zero, S] [S, carry 0 1, one, one, zero, one, zero, S] (by decide) mstep55).trans
  ((iterFixAux_step 44 multiply_add_one_rule [S, carry 1 1, one, zero, one, zero, S] [S, carry 0 1, one, one, zero, one, zero, S] [S, one, one, one, zero, one, zero, S] (by decide) mstep56).trans
  ((iterFixAux_step 43 multiply_add_one_rule [S, carry 0 1, one, one, zero, one, zero, S] [S, one, one, one, zero, one, zero, S] [S, one, one, one, zero, one, zero, S] (by decide) mstep57).trans
  (iterFixAux_self 41 multiply_add_one_rule [S, one, one, one, zero, one, zero, S]))))))))

theorem multFix21 : iterFix 50 multiply_add_one_rule (multiplyTape 21) = [S, one, zero, zero, zero, zero, zero, zero, S] :=
  ((iterFixAux_step 49 multiply_add_one_rule [] [S, one, zero, one, zero, carry 1 2, S] [S, one, zero, one, carry 0 2, zero, S] (by decide) mstep58).trans
  ((iterFixAux_step 48 multiply_add_one_rule [S, one, zero, one, zero, carry 1 2, S] [S, one, zero, one, carry 0 2, zero, S] [S, one, zero, carry 1 2, zero, zero, S] (by decide) mstep59).trans
  ((iterFixAux_step 47 multiply_add_one_rule [S, one, zero, one, carry 0 2, zero, S] [S, one, zero, carry 1 2, zero, zero, S] [S, one, carry 0 2, zero, zero, zero, S] (by decide) mstep60).trans
  ((iterFixAux_step 46 multiply_add_one_rule [S, one, zero, carry 1 2, zero, zero, S] [S, one, carry 0 2, zero, zero, zero, S] [S, carry 1 2, zero, zero, zero, zero, S] (by decide) mstep61).trans
  ((iterFixAux_step 45 multiply_add_one_rule [S, one, carry 0 2, zero, zero, zero, S] [S, carry 1 2, zero, zero, zero, zero, S] [S, carry 0 2, zero, zero, zero, zero, zero, S] (by decide) mstep62).trans
  ((iterFixAux_step 44 multiply_add_one_rule [S, carry 1 2, zero, zero, zero, zero, S] [S, carry 0 2, zero, zero, zero, zero, zero, S] [S, carry 0 1, zero, zero, zero, zero, zero, zero, S] (by decide) mstep63).trans
  ((iterFixAux_step 43 multiply_add_one_rule [S, carry 0 2, zero, zero, zero, zero, zero, S] [S, carry 0 1, zero, zero, zero, zero, zero, zero, S] [S, one, zero, zero, zero, zero, zero, zero, S] (by decide) mstep64).trans
  ((iterFixAux_step 42 multiply_add_one_rule [S, carry 0 1, zero, zero, zero, zero, zero, zero, S] [S, one, zero, zero, zero, zero, zero, zero, S] [S, one, zero, zero, zero, zero, zero, zero, S] (by decide) mstep65).trans
  (iterFixAux_self 40 multiply_add_one_rule [S, one, zero, zero, zero, zero, zero, zero, S])))))))))

theorem multFix23 : iterFix 50 multiply_add_one_rule (multiplyTape 23) = [S, one, zero, zero, zero, one, one, zero, S] :=
  ((iterFixAux_step 49 multiply_add_one_rule [] [S, one, zero, one, one, carry 1 2, S] [S, one, zero, one, carry 1 3, zero, S] (by decide) mstep66).trans
  ((iterFixAux_step 48 multiply_add_one_rule [S, one, zero, one, one, carry 1 2, S] [S, one, zero, one, carry 1 3, zero, S] [S, one, zero, carry 1 3, one, zero, S] (by decide) mstep67).trans
  ((iterFixAux_step 47 multiply_add_one_rule [S, one, zero, one, carry 1 3, zero, S] [S, one, zero, carry 1 3, one, zero, S] [S, one, carry 0 2, one, one, zero, S] (by decide) mstep68).trans
  ((iterFixAux_step 46 multiply_add_one_rule [S, one, zero, carry 1 3, one, zero, S] [S, one, carry 0 2, one, one, zero, S] [S, carry 1 2, zero, one, one, zero, S] (by decide) mstep69).trans
  ((iterFixAux_step 45 multiply_add_one_rule [S, one, carry 0 2, one, one, zero, S] [S, carry 1 2, zero, one, one, zero, S] [S, carry 0 2, zero, zero, one, one, zero, S] (by decide) mstep70).trans
  ((iterFixAux_step 44 multiply_add_one_rule [S, carry 1 2, zero, one, one, zero, S] [S, carry 0 2, zero, zero, one, one, zero, S] [S, carry 0 1, zero, zero, zero, one, one, zero, S] (by decide) mstep71).trans
  ((iterFixAux_step 43 multiply_add_one_rule [S, carry 0 2, zero, zero, one, one, zero, S] [S, carry 0 1, zero, zero, zero, one, one, zero, S] [S, one, zero, zero, zero, one, one, zero, S] (by decide) mstep72).trans
  ((iterFixAux_step 42 multiply_add_one_rule [S, carry 0 1, zero, zero, zero, one, one, zero, S] [S, one, zero, zero, zero, one, one, zero, S] [S, one, zero, zero, zero, one, one, zero, S] (by decide) mstep73).trans
  (iterFixAux_self 40 multiply_add_one_rule [S, one, zero, zero, zero, one, one, zero, S])))))))))

theorem multFix25 : iterFix 50 multiply_add_one_rule (multiplyTape 25) = [S, one, zero, zero, one, one, zero, zero, S] :=
  ((iterFixAux_step 49 multiply_add_one_rule [] [S, one, one, zero, zero, carry 1 2, S] [S, one, one, zero, carry 0 2, zero, S] (by decide) mstep74).trans
  ((iterFixAux_step 48 multiply_add_one_rule [S, one, one, zero, zero, carry 1 2, S] [S, one, one, zero, carry 0 2, zero, S] [S, one, one, carry 0 1, zero, zero, S] (by decide) mstep75).trans
  ((iterFixAux_step 47 multiply_add_one_rule [S, one, one, zero, carry 0 2, zero, S] [S, one, one, carry 0 1, zero, zero, S] [S, one, carry 1 1, one, zero, zero, S] (by decide) mstep76).trans
  ((iterFixAux_step 46 multiply_add_one_rule [S, one, one, carry 0 1, zero, zero, S] [S, one, carry 1 1, one, zero, zero, S] [S, carry 1 2, one, one, zero, zero, S] (by decide) mstep77).trans
  ((iterFixAux_step 45 multiply_add_one_rule [S, one, carry 1 1, one, zero, zero, S] [S, carry 1 2, one, one, zero, zero, S] [S, carry 0 2, zero, one, one, zero, zero, S] (by decide) mstep78).trans
  ((iterFixAux_step 44 multiply_add_one_rule [S, carry 1 2, one, one, zero, zero, S] [S, carry 0 2, zero, one, one, zero, zero, S] [S, carry 0 1, zero, zero, one, one, zero, zero, S] (by decide) mstep79).trans
  ((iterFixAux_step 43 multiply_add_one_rule [S, carry 0 2, zero, one, one, zero, zero, S] [S, carry 0 1, zero, zero, one, one, zero, zero, S] [S, one, zero, zero, one, one, zero, zero, S] (by decide) mstep80).trans
  ((iterFixAux_step 42 multiply_add_one_rule [S, carry 0 1, zero, zero, one, one, zero, zero, S] [S, one, zero, zero, one, one, zero, zero, S] [S, one, zero, zero, one, one, zero, zero, S] (by decide) mstep81).trans
  (iterFixAux_self 40 multiply_add_one_rule [S, one, zero, zero, one, one, zero, zero, S])))))))))

theorem multFix27 : iterFix 50 multiply_add_one_rule (multiplyTape 27) = [S, one, zero, one, zero, zero, one, zero, S] :=
  ((iterFixAux_step 49 multiply_add_one_rule [] [S, one, one, zero, one, carry 1 2, S] [S, one, one, zero, carry 1 3, zero, S] (by decide) mstep82).trans
  ((iterFixAux_step 48 multiply_add_one_rule [S, one, one, zero, one, carry 1 2, S] [S, one, one, zero, carry 1 3, zero, S] [S, one, one, carry 0 2, one, zero, S] (by decide) mstep83).trans
  ((iterFixAux_step 47 multiply_add_one_rule [S, one, one, zero, carry 1 3, zero, S] [S, one, one, carry 0 2, one, zero, S] [S, one, carry 1 2, zero, one, zero, S] (by decide) mstep84).trans
  ((iterFixAux_step 46 multiply_add_one_rule [S, one, one, carry 0 2, one, zero, S] [S, one, carry 1 2, zero, one, zero, S] [S, carry 1 3, zero, zero, one, zero, S] (by decide) mstep85).trans
  ((iterFixAux_step 45 multiply_add_one_rule [S, one, carry 1 2, zero, one, zero, S] [S, carry 1 3, zero, zero, one, zero, S] [S, carry 0 2, one, zero, zero, one, zero, S] (by decide) mstep86).trans
  ((iterFixAux_step 44 multiply_add_one_rule [S, carry 1 3, zero, zero, one, zero, S] [S, carry 0 2, one, zero, zero, one, zero, S] [S, carry 0 1, zero, one, zero, zero, one, zero, S] (by decide) mstep87).trans
  ((iterFixAux_step 43 multiply_add_one_rule [S, carry 0 2, one, zero, zero, one, zero, S] [S, carry 0 1, zero, one, zero, zero, one, zero, S] [S, one, zero, one, zero, zero, one, zero, S] (by decide) mstep88).trans
  ((iterFixAux_step 42 multiply_add_one_rule [S, carry 0 1, zero, one, zero, zero, one, zero, S] [S, one, zero, one, zero, zero, one, zero, S] [S, one, zero, one, zero, zero, one, zero, S] (by decide) mstep89).trans
  (iterFixAux_self 40 multiply_add_one_rule [S, one, zero, one, zero, zero, one, zero, S])))))))))

theorem multFix29 : iterFix 50 multiply_add_one_rule (multiplyTape 29) = [S, one, zero, one, one, zero, zero, zero, S] :=
  ((iterFixAux_step 49 multiply_add_one_rule [] [S, one, one, one, zero, carry 1 2, S] [S, one, one, one, carry 0 2, zero, S] (by decide) mstep90).trans
  ((iterFixAux_step 48 multiply_add_one_rule [S, one, one, one, zero, carry 1 2, S] [S, one, one, one, carry 0 2, zero, S] [S, one, one, carry 1 2, zero, zero, S] (by decide) mstep91).trans
  ((iterFixAux_step 47 multiply_add_one_rule [S, one, one, one, carry 0 2, zero, S] [S, one, one, carry 1 2, zero, zero, S] [S, one, carry 1 3, zero, zero, zero, S] (by decide) mstep92).trans
  ((iterFixAux_step 46 multiply_add_one_rule [S, one, one, carry 1 2, zero, zero, S] [S, one, carry 1 3, zero, zero, zero, S] [S, carry 1 3, one, zero, zero, zero, S] (by decide) mstep93).trans
  ((iterFixAux_step 45 multiply_add_one_rule [S, one, carry 1 3, zero, zero, zero, S] [S, carry 1 3, one, zero, zero, zero, S] [S, carry 0 2, one, one, zero, zero, zero, S] (by decide) mstep94).trans
  ((iterFixAux_step 44 multiply_add_one_rule [S, carry 1 3, one, zero, zero, zero, S] [S, carry 0 2, one, one, zero, zero, zero, S] [S, carry 0 1, zero, one, one, zero, zero, zero, S] (by decide) mstep95).trans
  ((iterFixAux_step 43 multiply_add_one_rule [S, carry 0 2, one, one, zero, zero, zero, S] [S, carry 0 1, zero, one, one, zero, zero, zero, S] [S, one, zero, one, one, zero, zero, zero, S] (by decide) mstep96).trans
  ((iterFixAux_step 42 multiply_add_one_rule [S, carry 0 1, zero, one, one, zero, zero, zero, S] [S, one, zero, one, one, zero, zero, zero, S] [S, one, zero, one, one, zero, zero, zero, S] (by decide) mstep97).trans
  (iterFixAux_self 40 multiply_add_one_rule [S, one, zero, one, one, zero, zero, zero, S])))))))))

theorem multFix31 : iterFix 50 multiply_add_one_rule (multiplyTape 31) = [S, one, zero, one, one, one, one, zero, S] :=
  ((iterFixAux_step 49 multiply_add_one_rule [] [S, one, one, one, one, carry 1 2, S] [S, one, one, one, carry 1 3, zero, S] (by decide) mstep98).trans
  ((iterFixAux_step 48 multiply_add_one_rule [S, one, one, one, one, carry 1 2, S] [S, one, one, one, carry 1 3, zero, S] [S, one, one, carry 1 3, one, zero, S] (by decide) mstep99).trans
  ((iterFixAux_step 47 multiply_add_one_rule [S, one, one, one, carry 1 3, zero, S] [S, one, one, carry 1 3, one, zero, S] [S, one, carry 1 3, one, one, zero, S] (by decide) mstep100).trans
  ((iterFixAux_step 46 multiply_add_one_rule [S, one, one, carry 1 3, one, zero, S] [S, one, carry 1 3, one, one, zero, S] [S, carry 1 3, one, one, one, zero, S] (by decide) mstep101).trans
  ((iterFixAux_step 45 multiply_add_one_rule [S, one, carry 1 3, one, one, zero, S] [S, carry 1 3, one, one, one, zero, S] [S, carry 0 2, one, one, one, one, zero, S] (by decide) mstep102).trans
  ((iterFixAux_step 44 multiply_add_one_rule [S, carry 1 3, one, one, one, zero, S] [S, carry 0 2, one, one, one, one, zero, S] [S, carry 0 1, zero, one, one, one, one, zero, S] (by decide) mstep103).trans
  ((iterFixAux_step 43 multiply_add_one_rule [S, carry 0 2, one, one, one, one, zero, S] [S, carry 0 1, zero, one, one, one, one, zero, S] [S, one, zero, one, one, one, one, zero, S] (by decide) mstep104).trans
  ((iterFixAux_step 42 multiply_add_one_rule [S, carry 0 1, zero, one, one, one, one, zero, S] [S, one, zero, one, one, one, one, zero, S] [S, one, zero, one, one, one, one, zero, S] (by decide) mstep105).trans
  (iterFixAux_self 40 multiply_add_one_rule [S, one, zero, one, one, one, one, zero, S])))))))))

theorem multFix33 : iterFix 50 multiply_add_one_rule (multiplyTape 33) = [S, one, one, zero, zero, one, zero, zero, S] :=
  ((iterFixAux_step 49 multiply_add_one_rule [] [S, one, zero, zero, zero, zero, carry 1 2, S] [S, one, zero, zero, zero, carry 0 2, zero, S] (by decide) mstep106).trans
  ((iterFixAux_step 48 multiply_add_one_rule [S, one, zero, zero, zero, zero, carry 1 2, S] [S, one, zero, zero, zero, carry 0 2, zero, S] [S, one, zero, zero, carry 0 1, zero, zero, S] (by decide) mstep107).trans
  ((iterFixAux_step 47 multiply_add_one_rule [S, one, zero, zero, zero, carry 0 2, zero, S] [S, one, zero, zero, carry 0 1, zero, zero, S] [S, one, zero, carry 0 0, one, zero, zero, S] (by decide) mstep108).trans
  ((iterFixAux_step 46 multiply_add_one_rule [S, one, zero, zero, carry 0 1, zero, zero, S] [S, one, zero, carry 0 0, one, zero, zero, S] [S, one, carry 0 0, zero, one, zero, zero, S] (by decide) mstep109).trans
  ((iterFixAux_step 45 multiply_add_one_rule [S, one, zero, carry 0 0, one, zero, zero, S] [S, one, carry 0 0, zero, one, zero, zero, S] [S, carry 1 1, zero, zero, one, zero, zero, S] (by decide) mstep110).trans
  ((iterFixAux_step 44 multiply_add_one_rule [S, one, carry 0 0, zero, one, zero, zero, S] [S, carry 1 1, zero, zero, one, zero, zero, S] [S, carry 0 1, one, zero, zero, one, zero, zero, S] (by decide) mstep111).trans
  ((iterFixAux_step 43 multiply_add_one_rule [S, carry 1 1, zero, zero, one, zero, zero, S] [S, carry 0 1, one, zero, zero, one, zero, zero, S] [S, one, one, zero, zero, one, zero, zero, S] (by decide) mstep112).trans
  ((iterFixAux_step 42 multiply_add_one_rule [S, carry 0 1, one, zero, zero, one, zero, zero, S] [S, one, one, zero, zero, one, zero, zero, S] [S, one, one, zero, zero, one, zero, zero, S] (by decide) mstep113).trans
  (iterFixAux_self 40 multiply_add_one_rule [S, one, one, zero, zero, one, zero, zero, S])))))))))

theorem multFix35 : iterFix 50 multiply_add_one_rule (multiplyTape 35) = [S, one, one, zero, one, zero, one, zero, S] :=
  ((iterFixAux_step 49 multiply_add_one_rule [] [S, one, zero, zero, zero, one, carry 1 2, S] [S, one, zero, zero, zero, carry 1 3, zero, S] (by decide) mstep114).trans
  ((iterFixAux_step 48 multiply_add_one_rule [S, one, zero, zero, zero, one, carry 1 2, S] [S, one, zero, zero, zero, carry 1 3, zero, S] [S, one, zero, zero, carry 0 2, one, zero, S] (by decide) mstep115).trans
  ((iterFixAux_step 47 multiply_add_one_rule [S, one, zero, zero, zero, carry 1 3, zero, S] [S, one, zero, zero, carry 0 2, one, zero, S] [S, one, zero, carry 0 1, zero, one, zero, S] (by decide) mstep116).trans
  ((iterFixAux_step 46 multiply_add_one_rule [S, one, zero, zero, carry 0 2, one, zero, S] [S, one, zero, carry 0 1, zero, one, zero, S] [S, one, carry 0 0, one, zero, one, zero, S] (by decide) mstep117).trans
  ((iterFixAux_step 45 multiply_add_one_rule [S, one, zero, carry 0 1, zero, one, zero, S] [S, one, carry 0 0, one, zero, one, zero, S] [S, carry 1 1, zero, one, zero, one, zero, S] (by decide) mstep118).trans
  ((iterFixAux_step 44 multiply_add_one_rule [S, one, carry 0 0, one, zero, one, zero, S] [S, carry 1 1, zero, one, zero, one, zero, S] [S, carry 0 1, one, zero, one, zero, one, zero, S] (by decide) mstep119).trans
  ((iterFixAux_step 43 multiply_add_one_rule [S, carry 1 1, zero, one, zero, one, zero, S] [S, carry 0 1, one, zero, one, zero, one, zero, S] [S, one, one, zero, one, zero, one, zero, S] (by decide) mstep120).trans
  ((iterFixAux_step 42 multiply_add_one_rule [S, carry 0 1, one, zero, one, zero, one, zero, S] [S, one, one, zero, one, zero, one, zero, S] [S, one, one, zero, one, zero, one, zero, S] (by decide) mstep121).trans
  (iterFixAux_self 40 multiply_add_one_rule [S, one, one, zero, one, zero, one, zero, S])))))))))

theorem multFix37 : iterFix 50 multiply_add_one_rule (multiplyTape 37) = [S, one, one, one, zero, zero, zero, zero, S] :=
  ((iterFixAux_step 49 multiply_add_one_rule [] [S, one, zero, zero, one, zero, carry 1 2, S] [S, one, zero, zero, one, carry 0 2, zero, S] (by decide) mstep122).trans
  ((iterFixAux_step 48 multiply_add_one_rule [S, one, zero, zero, one, zero, carry 1 2, S] [S, one, zero, zero, one, carry 0 2, zero, S] [S, one, zero, zero, carry 1 2, zero, zero, S] (by decide) mstep123).trans
  ((iterFixAux_step 47 multiply_add_one_rule [S, one, zero, zero, one, carry 0 2, zero, S] [S, one, zero, zero, carry 1 2, zero, zero, S] [S, one, zero, carry 0 2, zero, zero, zero, S] (by decide) mstep124).trans
  ((iterFixAux_step 46 multiply_add_one_rule [S, one, zero, zero, carry 1 2, zero, zero, S] [S, one, zero, carry 0 2, zero, zero, zero, S] [S, one, carry 0 1, zero, zero, zero, zero, S] (by decide) mstep125).trans
  ((iterFixAux_step 45 multiply_add_one_rule [S, one, zero, carry 0 2, zero, zero, zero, S] [S, one, carry 0 1, zero, zero, zero, zero, S] [S, carry 1 1, one, zero, zero, zero, zero, S] (by decide) mstep126).trans
  ((iterFixAux_step 44 multiply_add_one_rule [S, one, carry 0 1, zero, zero, zero, zero, S] [S, carry 1 1, one, zero, zero, zero, zero, S] [S, carry 0 1, one, one, zero, zero, zero, zero, S] (by decide) mstep127).trans
  ((iterFixAux_step 43 multiply_add_one_rule [S, carry 1 1, one, zero, zero, zero, zero, S] [S, carry 0 1, one, one, zero, zero, zero, zero, S] [S, one, one, one, zero, zero, zero, zero, S] (by decide) mstep128).trans
  ((iterFixAux_step 42 multiply_add_one_rule [S, carry 0 1, one, one, zero, zero, zero, zero, S] [S, one, one, one, zero, zero, zero, zero, S] [S, one, one, one, zero, zero, zero, zero, S] (by decide) mstep129).trans
  (iterFixAux_self 40 multiply_add_one_rule [S, one, one, one, zero, zero, zero, zero, S])))))))))

theorem multFix39 : iterFix 50 multiply_add_one_rule (multiplyTape 39) = [S, one, one, one, zero, one, one, zero, S] :=
  ((iterFixAux_step 49 multiply_add_one_rule [] [S, one, zero, zero, one, one, carry 1 2, S] [S, one, zero, zero, one, carry 1 3, zero, S] (by decide) mstep130).trans
  ((iterFixAux_step 48 multiply_add_one_rule [S, one, zero, zero, one, one, carry 1 2, S] [S, one, zero, zero, one, carry 1 3, zero, S] [S, one, zero, zero, carry 1 3, one, zero, S] (by decide) mstep131).trans
  ((iterFixAux_step 47 multiply_add_one_rule [S, one, zero, zero, one, carry 1 3, zero, S] [S, one, zero, zero, carry 1 3, one, zero, S] [S, one, zero, carry 0 2, one, one, zero, S] (by decide) mstep132).trans
  ((iterFixAux_step 46 multiply_add_one_rule [S, one, zero, zero, carry 1 3, one, zero, S] [S, one, zero, carry 0 2, one, one, zero, S] [S, one, carry 0 1, zero, one, one, zero, S] (by decide) mstep133).trans
  ((iterFixAux_step 45 multiply_add_one_rule [S, one, zero, carry 0 2, one, one, zero, S] [S, one, carry 0 1, zero, one, one, zero, S] [S, carry 1 1, one, zero, one, one, zero, S] (by decide) mstep134).trans
  ((iterFixAux_step 44 multiply_add_one_rule [S, one, carry 0 1, zero, one, one, zero, S] [S, carry 1 1, one, zero, one, one, zero, S] [S, carry 0 1, one, one, zero, one, one, zero, S] (by decide) mstep135).trans
  ((iterFixAux_step 43 multiply_add_one_rule [S, carry 1 1, one, zero, one, one, zero, S] [S, carry 0 1, one, one, zero, one, one, zero, S] [S, one, one, one, zero, one, one, zero, S] (by decide) mstep136).trans
  ((iterFixAux_step 42 multiply_add_one_rule [S, carry 0 1, one, one, zero, one, one, zero, S] [S, one, one, one, zero, one, one, zero, S] [S, one, one, one, zero, one, one, zero, S] (by decide) mstep137).trans
  (iterFixAux_self 40 multiply_add_one_rule [S, one, one, one, zero, one, one, zero, S])))))))))

theorem multFix41 : iterFix 50 multiply_add_one_rule (multiplyTape 41) = [S, one, one, one, one, one, zero, zero, S] :=
  ((iterFixAux_step 49 multiply_add_one_rule [] [S, one, zero, one, zero, zero, carry 1 2, S] [S, one, zero, one, zero, carry 0 2, zero, S] (by decide) mstep138).trans
  ((iterFixAux_step 48 multiply_add_one_rule [S, one, zero, one, zero, zero, carry 1 2, S] [S, one, zero, one, zero, carry 0 2, zero, S] [S, one, zero, one, carry 0 1, zero, zero, S] (by decide) mstep139).trans
  ((iterFixAux_step 47 multiply_add_one_rule [S, one, zero, one, zero, carry 0 2, zero, S] [S, one, zero, one, carry 0 1, zero, zero, S] [S, one, zero, carry 1 1, one, zero, zero, S] (by decide) mstep140).trans
  ((iterFixAux_step 46 multiply_add_one_rule [S, one, zero, one, carry 0 1, zero, zero, S] [S, one, zero, carry 1 1, one, zero, zero, S] [S, one, carry 0 1, one, one, zero, zero, S] (by decide) mstep141).trans
  ((iterFixAux_step 45 multiply_add_one_rule [S, one, zero, carry 1 1, one, zero, zero, S] [S, one, carry 0 1, one, one, zero, zero, S] [S, carry 1 1, one, one, one, zero, zero, S] (by decide) mstep142).trans
  ((iterFixAux_step 44 multiply_add_one_rule [S, one, carry 0 1, one, one, zero, zero, S] [S, carry 1 1, one, one, one, zero, zero, S] [S, carry 0 1, one, one, one, one, zero, zero, S] (by decide) mstep143).trans
  ((iterFixAux_step 43 multiply_add_one_rule [S, carry 1 1, one, one, one, zero, zero, S] [S, carry 0 1, one, one, one, one, zero, zero, S] [S, one, one, one, one, one, zero, zero, S] (by decide) mstep144).trans
  ((iterFixAux_step 42 multiply_add_one_rule [S, carry 0 1, one, one, one, one, zero, zero, S] [S, one, one, one, one, one, zero, zero, S] [S, one, one, one, one, one, zero, zero, S] (by decide) mstep145).trans
  (iterFixAux_self 40 multiply_add_one_rule [S, one, one, one, one, one, zero, zero, S])))))))))

theorem multFix43 : iterFix 50 multiply_add_one_rule (multiplyTape 43) = [S, one, zero, zero, zero, zero, zero, one, zero, S] :=
  ((iterFixAux_step 49 multiply_add_one_rule [] [S, one, zero, one, zero, one, carry 1 2, S] [S, one, zero, one, zero, carry 1 3, zero, S] (by decide) mstep146).trans
  ((iterFixAux_step 48 multiply_add_one_rule [S, one, zero, one, zero, one, carry 1 2, S] [S, one, zero, one, zero, carry 1 3, zero, S] [S, one, zero, one, carry 0 2, one, zero, S] (by decide) mstep147).trans
  ((iterFixAux_step 47 multiply_add_one_rule [S, one, zero, one, zero, carry 1 3, zero, S] [S, one, zero, one, carry 0 2, one, zero, S] [S, one, zero, carry 1 2, zero, one, zero, S] (by decide) mstep148).trans
  ((iterFixAux_step 46 multiply_add_one_rule [S, one, zero, one, carry 0 2, one, zero, S] [S, one, zero, carry 1 2, zero, one, zero, S] [S, one, carry 0 2, zero, zero, one, zero, S] (by decide) mstep149).trans
  ((iterFixAux_step 45 multiply_add_one_rule [S, one, zero, carry 1 2, zero, one, zero, S] [S, one, carry 0 2, zero, zero, one, zero, S] [S, carry 1 2, zero, zero, zero, one, zero, S] (by decide) mstep150).trans
  ((iterFixAux_step 44 multiply_add_one_rule [S, one, carry 0 2, zero, zero, one, zero, S] [S, carry 1 2, zero, zero, zero, one, zero, S] [S, carry 0 2, zero, zero, zero, zero, one, zero, S] (by decide) mstep151).trans
  ((iterFixAux_step 43 multiply_add_one_rule [S, carry 1 2, zero, zero, zero, one, zero, S] [S, carry 0 2, zero, zero, zero, zero, one, zero, S] [S, carry 0 1, zero, zero, zero, zero, zero, one, zero, S] (by decide) mstep152).trans
  ((iterFixAux_step 42 multiply_add_one_rule [S, carry 0 2, zero, zero, zero, zero, one, zero, S] [S, carry 0 1, zero, zero, zero, zero, zero, one, zero, S] [S, one, zero, zero, zero, zero, zero, one, zero, S] (by decide) mstep153).trans
  ((iterFixAux_step 41 multiply_add_one_rule [S, carry 0 1, zero, zero, zero, zero, zero, one, zero, S] [S, one, zero, zero, zero, zero, zero, one, zero, S] [S, one, zero, zero, zero, zero, zero, one, zero, S] (by decide) mstep154).trans
  (iterFixAux_self 39 multiply_add_one_rule [S, one, zero, zero, zero, zero, zero, one, zero, S]))))))))))

theorem multFix45 : iterFix 50 multiply_add_one_rule (multiplyTape 45) = [S, one, zero, zero, zero, one, zero, zero, zero, S] :=
  ((iterFixAux_step 49 multiply_add_one_rule [] [S, one, zero, one, one, zero, carry 1 2, S] [S, one, zero, one, one, carry 0 2, zero, S] (by decide) mstep155).trans
  ((iterFixAux_step 48 multiply_add_one_rule [S, one, zero, one, one, zero, carry 1 2, S] [S, one, zero, one, one, carry 0 2, zero, S] [S, one, zero, one, carry 1 2, zero, zero, S] (by decide) mstep156).trans
  ((iterFixAux_step 47 multiply_add_one_rule [S, one, zero, one, one, carry 0 2, zero, S] [S, one, zero, one, carry 1 2, zero, zero, S] [S, one, zero, carry 1 3, zero, zero, zero, S] (by decide) mstep157).trans
  ((iterFixAux_step 46 multiply_add_one_rule [S, one, zero, one, carry 1 2, zero, zero, S] [S, one, zero, carry 1 3, zero, zero, zero, S] [S, one, carry 0 2, one, zero, zero, zero, S] (by decide) mstep158).trans
  ((iterFixAux_step 45 multiply_add_one_rule [S, one, zero, carry 1 3, zero, zero, zero, S] [S, one, carry 0 2, one, zero, zero, zero, S] [S, carry 1 2, zero, one, zero, zero, zero, S] (by decide) mstep159).trans
  ((iterFixAux_step 44 multiply_add_one_rule [S, one, carry 0 2, one, zero, zero, zero, S] [S, carry 1 2, zero, one, zero, zero, zero, S] [S, carry 0 2, zero, zero, one, zero, zero, zero, S] (by decide) mstep160).trans
  ((iterFixAux_step 43 multiply_add_one_rule [S, carry 1 2, zero, one, zero, zero, zero, S] [S, carry 0 2, zero, zero, one, zero, zero, zero, S] [S, carry 0 1, zero, zero, zero, one, zero, zero, zero, S] (by decide) mstep161).trans
  ((iterFixAux_step 42 multiply_add_one_rule [S, carry 0 2, zero, zero, one, zero, zero, zero, S] [S, carry 0 1, zero, zero, zero, one, zero, zero, zero, S] [S, one, zero, zero, zero, one, zero, zero, zero, S] (by decide) mstep162).trans
  ((iterFixAux_step 41 multiply_add_one_rule [S, carry 0 1, zero, zero, zero, one, zero, zero, zero, S] [S, one, zero, zero, zero, one, zero, zero, zero, S] [S, one, zero, zero, zero, one, zero, zero, zero, S] (by decide) mstep163).trans
  (iterFixAux_self 39 multiply_add_one_rule [S, one, zero, zero, zero, one, zero, zero, zero, S]))))))))))

theorem multFix47 : iterFix 50 multiply_add_one_rule (multiplyTape 47) = [S, one, zero, zero, zero, one, one, one, zero, S] :=
  ((iterFixAux_step 49 multiply_add_one_rule [] [S, one, zero, one, one, one, carry 1 2, S] [S, one, zero, one, one, carry 1 3, zero, S] (by decide) mstep164).trans
  ((iterFixAux_step 48 multiply_add_one_rule [S, one, zero, one, one, one, carry 1 2, S] [S, one, zero, one, one, carry 1 3, zero, S] [S, one, zero, one, carry 1 3, one, zero, S] (by decide) mstep165).trans
  ((iterFixAux_step 47 multiply_add_one_rule [S, one, zero, one, one, carry 1 3, zero, S] [S, one, zero, one, carry 1 3, one, zero, S] [S, one, zero, carry 1 3, one, one, zero, S] (by decide) mstep166).trans
  ((iterFixAux_step 46 multiply_add_one_rule [S, one, zero, one, carry 1 3, one, zero, S] [S, one, zero, carry 1 3, one, one, zero, S] [S, one, carry 0 2, one, one, one, zero, S] (by decide) mstep167).trans
  ((iterFixAux_step 45 multiply_add_one_rule [S, one, zero, carry 1 3, one, one, zero, S] [S, one, carry 0 2, one, one, one, zero, S] [S, carry 1 2, zero, one, one, one, zero, S] (by decide) mstep168).trans
  ((iterFixAux_step 44 multiply_add_one_rule [S, one, carry 0 2, one, one, one, zero, S] [S, carry 1 2, zero, one, one, one, zero, S] [S, carry 0 2, zero, zero, one, one, one, zero, S] (by decide) mstep169).trans
  ((iterFixAux_step 43 multiply_add_one_rule [S, carry 1 2, zero, one, one, one, zero, S] [S, carry 0 2, zero, zero, one, one, one, zero, S] [S, carry 0 1, zero, zero, zero, one, one, one, zero, S] (by decide) mstep170).trans
  ((iterFixAux_step 42 multiply_add_one_rule [S, carry 0 2, zero, zero, one, one, one, zero, S] [S, carry 0 1, zero, zero, zero, one, one, one, zero, S] [S, one, zero, zero, zero, one, one, one, zero, S] (by decide) mstep171).trans
  ((iterFixAux_step 41 multiply_add_one_rule [S, carry 0 1, zero, zero, zero, one, one, one, zero, S] [S, one, zero, zero, zero, one, one, one, zero, S] [S, one, zero, zero, zero, one, one, one, zero, S] (by decide) mstep172).trans
  (iterFixAux_self 39 multiply_add_one_rule [S, one, zero, zero, zero, one, one, one, zero, S]))))))))))

theorem multFix49 : iterFix 50 multiply_add_one_rule (multiplyTape 49) = [S, one, zero, zero, one, zero, one, zero, zero, S] :=
  ((iterFixAux_step 49 multiply_add_one_rule [] [S, one, one, zero, zero, zero, carry 1 2, S] [S, one, one, zero, zero, carry 0 2, zero, S] (by decide) mstep173).trans
  ((iterFixAux_step 48 multiply_add_one_rule [S, one, one, zero, zero, zero, carry 1 2, S] [S, one, one, zero, zero, carry 0 2, zero, S] [S, one, one, zero, carry 0 1, zero, zero, S] (by decide) mstep174).trans
  ((iterFixAux_step 47 multiply_add_one_rule [S, one, one, zero, zero, carry 0 2, zero, S] [S, one, one, zero, carry 0 1, zero, zero, S] [S, one, one, carry 0 0, one, zero, zero, S] (by decide) mstep175).trans
  ((iterFixAux_step 46 multiply_add_one_rule [S, one, one, zero, carry 0 1, zero, zero, S] [S, one, one, carry 0 0, one, zero, zero, S] [S, one, carry 1 1, zero, one, zero, zero, S] (by decide) mstep176).trans
  ((iterFixAux_step 45 multiply_add_one_rule [S, one, one, carry 0 0, one, zero, zero, S] [S, one, carry 1 1, zero, one, zero, zero, S] [S, carry 1 2, one, zero, one, zero, zero, S] (by decide) mstep177).trans
  ((iterFixAux_step 44 multiply_add_one_rule [S, one, carry 1 1, zero, one, zero, zero, S] [S, carry 1 2, one, zero, one, zero, zero, S] [S, carry 0 2, zero, one, zero, one, zero, zero, S] (by decide) mstep178).trans
  ((iterFixAux_step 43 multiply_add_one_rule [S, carry 1 2, one, zero, one, zero, zero, S] [S, carry 0 2, zero, one, zero, one, zero, zero, S] [S, carry 0 1, zero, zero, one, zero, one, zero, zero, S] (by decide) mstep179).trans
  ((iterFixAux_step 42 multiply_add_one_rule [S, carry 0 2, zero, one, zero, one, zero, zero, S] [S, carry 0 1, zero, zero, one, zero, one, zero, zero, S] [S, one, zero, zero, one, zero, one, zero, zero, S] (by decide) mstep180).trans
  ((iterFixAux_step 41 multiply_add_one_rule [S, carry 0 1, zero, zero, one, zero, one, zero, zero, S] [S, one, zero, zero, one, zero, one, zero, zero, S] [S, one, zero, zero, one, zero, one, zero, zero, S] (by decide) mstep181).trans
  (iterFixAux_self 39 multiply_add_one_rule [S, one, zero, zero, one, zero, one, zero, zero, S]))))))))))

theorem multFix51 : iterFix 50 multiply_add_one_rule (multiplyTape 51) = [S, one, zero, zero, one, one, zero, one, zero, S] :=
  ((iterFixAux_step 49 multiply_add_one_rule [] [S, one, one, zero, zero, one, carry 1 2, S] [S, one, one, zero, zero, carry 1 3, zero, S] (by decide) mstep182).trans
  ((iterFixAux_step 48 multiply_add_one_rule [S, one, one, zero, zero, one, carry 1 2, S] [S, one, one, zero, zero, carry 1 3, zero, S] [S, one, one, zero, carry 0 2, one, zero, S] (by decide) mstep183).trans
  ((iterFixAux_step 47 multiply_add_one_rule [S, one, one, zero, zero, carry 1 3, zero, S] [S, one, one, zero, carry 0 2, one, zero, S] [S, one, one, carry 0 1, zero, one, zero, S] (by decide) mstep184).trans
  ((iterFixAux_step 46 multiply_add_one_rule [S, one, one, zero, carry 0 2, one, zero, S] [S, one, one, carry 0 1, zero, one, zero, S] [S, one, carry 1 1, one, zero, one, zero, S] (by decide) mstep185).trans
  ((iterFixAux_step 45 multiply_add_one_rule [S, one, one, carry 0 1, zero, one, zero, S] [S, one, carry 1 1, one, zero, one, zero, S] [S, carry 1 2, one, one, zero, one, zero, S] (by decide) mstep186).trans
  ((iterFixAux_step 44 multiply_add_one_rule [S, one, carry 1 1, one, zero, one, zero, S] [S, carry 1 2, one, one, zero, one, zero, S] [S, carry 0 2, zero, one, one, zero, one, zero, S] (by decide) mstep187).trans
  ((iterFixAux_step 43 multiply_add_one_rule [S, carry 1 2, one, one, zero, one, zero, S] [S, carry 0 2, zero, one, one, zero, one, zero, S] [S, carry 0 1, zero, zero, one, one, zero, one, zero, S] (by decide) mstep188).trans
  ((iterFixAux_step 42 multiply_add_one_rule [S, carry 0 2, zero, one, one, zero, one, zero, S] [S, carry 0 1, zero, zero, one, one, zero, one, zero, S] [S, one, zero, zero, one, one, zero, one, zero, S] (by decide) mstep189).trans
  ((iterFixAux_step 41 multiply_add_one_rule [S, carry 0 1, zero, zero, one, one, zero, one, zero, S] [S, one, zero, zero, one, one, zero, one, zero, S] [S, one, zero, zero, one, one, zero, one, zero, S] (by decide) mstep190).trans
  (iterFixAux_self 39 multiply_add_one_rule [S, one, zero, zero, one, one, zero, one, zero, S]))))))))))

theorem multFix53 : iterFix 50 multiply_add_one_rule (multiplyTape 53) = [S, one, zero, one, zero, zero, zero, zero, zero, S] :=
  ((iterFixAux_step 49 multiply_add_one_rule [] [S, one, one, zero, one, zero, carry 1 2, S] [S, one, one, zero, one, carry 0 2, zero, S] (by decide) mstep191).trans
  ((iterFixAux_step 48 multiply_add_one_rule [S, one, one, zero, one, zero, carry 1 2, S] [S, one, one, zero, one, carry 0 2, zero, S] [S, one, one, zero, carry 1 2, zero, zero, S] (by decide) mstep192).trans
  ((iterFixAux_step 47 multiply_add_one_rule [S, one, one, zero, one, carry 0 2, zero, S] [S, one, one, zero, carry 1 2, zero, zero, S] [S, one, one, carry 0 2, zero, zero, zero, S] (by decide) mstep193).trans
  ((iterFixAux_step 46 multiply_add_one_rule [S, one, one, zero, carry 1 2, zero, zero, S] [S, one, one, carry 0 2, zero, zero, zero, S] [S, one, carry 1 2, zero, zero, zero, zero, S] (by decide) mstep194).trans
  ((iterFixAux_step 45 multiply_add_one_rule [S, one, one, carry 0 2, zero, zero, zero, S] [S, one, carry 1 2, zero, zero, zero, zero, S] [S, carry 1 3, zero, zero, zero, zero, zero, S] (by decide) mstep195).trans
  ((iterFixAux_step 44 multiply_add_one_rule [S, one, carry 1 2, zero, zero, zero, zero, S] [S, carry 1 3, zero, zero, zero, zero, zero, S] [S, carry 0 2, one, zero, zero, zero, zero, zero, S] (by decide) mstep196).trans
  ((iterFixAux_step 43 multiply_add_one_rule [S, carry 1 3, zero, zero, zero, zero, zero, S] [S, carry 0 2, one, zero, zero, zero, zero, zero, S] [S, carry 0 1, zero, one, zero, zero, zero, zero, zero, S] (by decide) mstep197).trans
  ((iterFixAux_step 42 multiply_add_one_rule [S, carry 0 2, one, zero, zero, zero, zero, zero, S] [S, carry 0 1, zero, one, zero, zero, zero, zero, zero, S] [S, one, zero, one, zero, zero, zero, zero, zero, S] (by decide) mstep198).trans
  ((iterFixAux_step 41 multiply_add_one_rule [S, carry 0 1, zero, one, zero, zero, zero, zero, zero, S] [S, one, zero, one, zero, zero, zero, zero, zero, S] [S, one, zero, one, zero, zero, zero, zero, zero, S] (by decide) mstep199).trans
  (iterFixAux_self 39 multiply_add_one_rule [S, one, zero, one, zero, zero, zero, zero, zero, S]))))))))))

theorem multFix55 : iterFix 50 multiply_add_one_rule (multiplyTape 55) = [S, one, zero, one, zero, zero, one, one, zero, S] :=
  ((iterFixAux_step 49 multiply_add_one_rule [] [S, one, one, zero, one, one, carry 1 2, S] [S, one, one, zero, one, carry 1 3, zero, S] (by decide) mstep200).trans
  ((iterFixAux_step 48 multiply_add_one_rule [S, one, one, zero, one, one, carry 1 2, S] [S, one, one, zero, one, carry 1 3, zero, S] [S, one, one, zero, carry 1 3, one, zero, S] (by decide) mstep201).trans
  ((iterFixAux_step 47 multiply_add_one_rule [S, one, one, zero, one, carry 1 3, zero, S] [S, one, one, zero, carry 1 3, one, zero, S] [S, one, one, carry 0 2, one, one, zero, S] (by decide) mstep202).trans
  ((iterFixAux_step 46 multiply_add_one_rule [S, one, one, zero, carry 1 3, one, zero, S] [S, one, one, carry 0 2, one, one, zero, S] [S, one, carry 1 2, zero, one, one, zero, S] (by decide) mstep203).trans
  ((iterFixAux_step 45 multiply_add_one_rule [S, one, one, carry 0 2, one, one, zero, S] [S, one, carry 1 2, zero, one, one, zero, S] [S, carry 1 3, zero, zero, one, one, zero, S] (by decide) mstep204).trans
  ((iterFixAux_step 44 multiply_add_one_rule [S, one, carry 1 2, zero, one, one, zero, S] [S, carry 1 3, zero, zero, one, one, zero, S] [S, carry 0 2, one, zero, zero, one, one, zero, S] (by decide) mstep205).trans
  ((iterFixAux_step 43 multiply_add_one_rule [S, carry 1 3, zero, zero, one, one, zero, S] [S, carry 0 2, one, zero, zero, one, one, zero, S] [S, carry 0 1, zero, one, zero, zero, one, one, zero, S] (by decide) mstep206).trans
  ((iterFixAux_step 42 multiply_add_one_rule [S, carry 0 2, one, zero, zero, one, one, zero, S] [S, carry 0 1, zero, one, zero, zero, one, one, zero, S] [S, one, zero, one, zero, zero, one, one, zero, S] (by decide) mstep207).trans
  ((iterFixAux_step 41 multiply_add_one_rule [S, carry 0 1, zero, one, zero, zero, one, one, zero, S] [S, one, zero, one, zero, zero, one, one, zero, S] [S, one, zero, one, zero, zero, one, one, zero, S] (by decide) mstep208).trans
  (iterFixAux_self 39 multiply_add_one_rule [S, one, zero, one, zero, zero, one, one, zero, S]))))))))))

theorem multFix57 : iterFix 50 multiply_add_one_rule (multiplyTape 57) = [S, one, zero, one, zero, one, one, zero, zero, S] :=
  ((iterFixAux_step 49 multiply_add_one_rule [] [S, one, one, one, zero, zero, carry 1 2, S] [S, one, one, one, zero, carry 0 2, zero, S] (by decide) mstep209).trans
  ((iterFixAux_step 48 multiply_add_one_rule [S, one, one, one, zero, zero, carry 1 2, S] [S, one, one, one, zero, carry 0 2, zero, S] [S, one, one, one, carry 0 1, zero, zero, S] (by decide) mstep210).trans
  ((iterFixAux_step 47 multiply_add_one_rule [S, one, one, one, zero, carry 0 2, zero, S] [S, one, one, one, carry 0 1, zero, zero, S] [S, one, one, carry 1 1, one, zero, zero, S] (by decide) mstep211).trans
  ((iterFixAux_step 46 multiply_add_one_rule [S, one, one, one, carry 0 1, zero, zero, S] [S, one, one, carry 1 1, one, zero, zero, S] [S, one, carry 1 2, one, one, zero, zero, S] (by decide) mstep212).trans
  ((iterFixAux_step 45 multiply_add_one_rule [S, one, one, carry 1 1, one, zero, zero, S] [S, one, carry 1 2, one, one, zero, zero, S] [S, carry 1 3, zero, one, one, zero, zero, S] (by decide) mstep213).trans
  ((iterFixAux_step 44 multiply_add_one_rule [S, one, carry 1 2, one, one, zero, zero, S] [S, carry 1 3, zero, one, one, zero, zero, S] [S, carry 0 2, one, zero, one, one, zero, zero, S] (by decide) mstep214).trans
  ((iterFixAux_step 43 multiply_add_one_rule [S, carry 1 3, zero, one, one, zero, zero, S] [S, carry 0 2, one, zero, one, one, zero, zero, S] [S, carry 0 1, zero, one, zero, one, one, zero, zero, S] (by decide) mstep215).trans
  ((iterFixAux_step 42 multiply_add_one_rule [S, carry 0 2, one, zero, one, one, zero, zero, S] [S, carry 0 1, zero, one, zero, one, one, zero, zero, S] [S, one, zero, one, zero, one, one, zero, zero, S] (by decide) mstep216).trans
  ((iterFixAux_step 41 multiply_add_one_rule [S, carry 0 1, zero, one, zero, one, one, zero, zero, S] [S, one, zero, one, zero, one, one, zero, zero, S] [S, one, zero, one, zero, one, one, zero, zero, S] (by decide) mstep217).trans
  (iterFixAux_self 39 multiply_add_one_rule [S, one, zero, one, zero, one, one, zero, zero, S]))))))))))

theorem multFix59 : iterFix 50 multiply_add_one_rule (multiplyTape 59) = [S, one, zero, one, one, zero, zero, one, zero, S] :=
  ((iterFixAux_step 49 multiply_add_one_rule [] [S, one, one, one, zero, one, carry 1 2, S] [S, one, one, one, zero, carry 1 3, zero, S] (by decide) mstep218).trans
  ((iterFixAux_step 48 multiply_add_one_rule [S, one, one, one, zero, one, carry 1 2, S] [S, one, one, one, zero, carry 1 3, zero, S] [S, one, one, one, carry 0 2, one, zero, S] (by decide) mstep219).trans
  ((iterFixAux_step 47 multiply_add_one_rule [S, one, one, one, zero, carry 1 3, zero, S] [S, one, one, one, carry 0 2, one, zero, S] [S, one, one, carry 1 2, zero, one, zero, S] (by decide) mstep220).trans
  ((iterFixAux_step 46 multiply_add_one_rule [S, one, one, one, carry 0 2, one, zero, S] [S, one, one, carry 1 2, zero, one, zero, S] [S, one, carry 1 3, zero, zero, one, zero, S] (by decide) mstep221).trans
  ((iterFixAux_step 45 multiply_add_one_rule [S, one, one, carry 1 2, zero, one, zero, S] [S, one, carry 1 3, zero, zero, one, zero, S] [S, carry 1 3, one, zero, zero, one, zero, S] (by decide) mstep222).trans
  ((iterFixAux_step 44 multiply_add_one_rule [S, one, carry 1 3, zero, zero, one, zero, S] [S, carry 1 3, one, zero, zero, one, zero, S] [S, carry 0 2, one, one, zero, zero, one, zero, S] (by decide) mstep223).trans
  ((iterFixAux_step 43 multiply_add_one_rule [S, carry 1 3, one, zero, zero, one, zero, S] [S, carry 0 2, one, one, zero, zero, one, zero, S] [S, carry 0 1, zero, one, one, zero, zero, one, zero, S] (by decide) mstep224).trans
  ((iterFixAux_step 42 multiply_add_one_rule [S, carry 0 2, one, one, zero, zero, one, zero, S] [S, carry 0 1, zero, one, one, zero, zero, one, zero, S] [S, one, zero, one, one, zero, zero, one, zero, S] (by decide) mstep225).trans
  ((iterFixAux_step 41 multiply_add_one_rule [S, carry 0 1, zero, one, one, zero, zero, one, zero, S] [S, one, zero, one, one, zero, zero, one, zero, S] [S, one, zero, one, one, zero, zero, one, zero, S] (by decide) mstep226).trans
  (iterFixAux_self 39 multiply_add_one_rule [S, one, zero, one, one, zero, zero, one, zero, S]))))))))))

theorem multFix61 : iterFix 50 multiply_add_one_rule (multiplyTape 61) = [S, one, zero, one, one, one, zero, zero, zero, S] :=
  ((iterFixAux_step 49 multiply_add_one_rule [] [S, one, one, one, one, zero, carry 1 2, S] [S, one, one, one, one, carry 0 2, zero, S] (by decide) mstep227).trans
  ((iterFixAux_step 48 multiply_add_one_rule [S, one, one, one, one, zero, carry 1 2, S] [S, one, one, one, one, carry 0 2, zero, S] [S, one, one, one, carry 1 2, zero, zero, S] (by decide) mstep228).trans
  ((iterFixAux_step 47 multiply_add_one_rule [S, one, one, one, one, carry 0 2, zero, S] [S, one, one, one, carry 1 2, zero, zero, S] [S, one, one, carry 1 3, zero, zero, zero, S] (by decide) mstep229).trans
  ((iterFixAux_step 46 multiply_add_one_rule [S, one, one, one, carry 1 2, zero, zero, S] [S, one, one, carry 1 3, zero, zero, zero, S] [S, one, carry 1 3, one, zero, zero, zero, S] (by decide) mstep230).trans
  ((iterFixAux_step 45 multiply_add_one_rule [S, one, one, carry 1 3, zero, zero, zero, S] [S, one, carry 1 3, one, zero, zero, zero, S] [S, carry 1 3, one, one, zero, zero, zero, S] (by decide) mstep231).trans
  ((iterFixAux_step 44 multiply_add_one_rule [S, one, carry 1 3, one, zero, zero, zero, S] [S, carry 1 3, one, one, zero, zero, zero, S] [S, carry 0 2, one, one, one, zero, zero, zero, S] (by decide) mstep232).trans
  ((iterFixAux_step 43 multiply_add_one_rule [S, carry 1 3, one, one, zero, zero, zero, S] [S, carry 0 2, one, one, one, zero, zero, zero, S] [S, carry 0 1, zero, one, one, one, zero, zero, zero, S] (by decide) mstep233).trans
  ((iterFixAux_step 42 multiply_add_one_rule [S, carry 0 2, one, one, one, zero, zero, zero, S] [S, carry 0 1, zero, one, one, one, zero, zero, zero, S] [S, one, zero, one, one, one, zero, zero, zero, S] (by decide) mstep234).trans
  ((iterFixAux_step 41 multiply_add_one_rule [S, carry 0 1, zero, one, one, one, zero, zero, zero, S] [S, one, zero, one, one, one, zero, zero, zero, S] [S, one, zero, one, one, one, zero, zero, zero, S] (by decide) mstep235).trans
  (iterFixAux_self 39 multiply_add_one_rule [S, one, zero, one, one, one, zero, zero, zero, S]))))))))))

theorem multFix63 : iterFix 50 multiply_add_one_rule (multiplyTape 63) = [S, one, zero, one, one, one, one, one, zero, S] :=
  ((iterFixAux_step 49 multiply_add_one_rule [] [S, one, one, one, one, one, carry 1 2, S] [S, one, one, one, one, carry 1 3, zero, S] (by decide) mstep236).trans
  ((iterFixAux_step 48 multiply_add_one_rule [S, one, one, one, one, one, carry 1 2, S] [S, one, one, one, one, carry 1 3, zero, S] [S, one, one, one, carry 1 3, one, zero, S] (by decide) mstep237).trans
  ((iterFixAux_step 47 multiply_add_one_rule [S, one, one, one, one, carry 1 3, zero, S] [S, one, one, one, carry 1 3, one, zero, S] [S, one, one, carry 1 3, one, one, zero, S] (by decide) mstep238).trans
  ((iterFixAux_step 46 multiply_add_one_rule [S, one, one, one, carry 1 3, one, zero, S] [S, one, one, carry 1 3, one, one, zero, S] [S, one, carry 1 3, one, one, one, zero, S] (by decide) mstep239).trans
  ((iterFixAux_step 45 multiply_add_one_rule [S, one, one, carry 1 3, one, one, zero, S] [S, one, carry 1 3, one, one, one, zero, S] [S, carry 1 3, one, one, one, one, zero, S] (by decide) mstep240).trans
  ((iterFixAux_step 44 multiply_add_one_rule [S, one, carry 1 3, one, one, one, zero, S] [S, carry 1 3, one, one, one, one, zero, S] [S, carry 0 2, one, one, one, one, one, zero, S] (by decide) mstep241).trans
  ((iterFixAux_step 43 multiply_add_one_rule [S, carry 1 3, one, one, one, one, zero, S] [S, carry 0 2, one, one, one, one, one, zero, S] [S, carry 0 1, zero, one, one, one, one, one, zero, S] (by decide) mstep242).trans
  ((iterFixAux_step 42 multiply_add_one_rule [S, carry 0 2, one, one, one, one, one, zero, S] [S, carry 0 1, zero, one, one, one, one, one, zero, S] [S, one, zero, one, one, one, one, one, zero, S] (by decide) mstep243).trans
  ((iterFixAux_step 41 multiply_add_one_rule [S, carry 0 1, zero, one, one, one, one, one, zero, S] [S, one, zero, one, one, one, one, one, zero, S] [S, one, zero, one, one, one, one, one, zero, S] (by decide) mstep244).trans
  (iterFixAux_self 39 multiply_add_one_rule [S, one, zero, one, one, one, one, one, zero, S]))))))))))

theorem multFix65 : iterFix 50 multiply_add_one_rule (multiplyTape 65) = [S, one, one, zero, zero, zero, one, zero, zero, S] :=
  ((iterFixAux_step 49 multiply_add_one_rule [] [S, one, zero, zero, zero, zero, zero, carry 1 2, S] [S, one, zero, zero, zero, zero, carry 0 2, zero, S] (by decide) mstep245).trans
  ((iterFixAux_step 48 multiply_add_one_rule [S, one, zero, zero, zero, zero, zero, carry 1 2, S] [S, one, zero, zero, zero, zero, carry 0 2, zero, S] [S, one, zero, zero, zero, carry 0 1, zero, zero, S] (by decide) mstep246).trans
  ((iterFixAux_step 47 multiply_add_one_rule [S, one, zero, zero, zero, zero, carry 0 2, zero, S] [S, one, zero, zero, zero, carry 0 1, zero, zero, S] [S, one, zero, zero, carry 0 0, one, zero, zero, S] (by decide) mstep247).trans
  ((iterFixAux_step 46 multiply_add_one_rule [S, one, zero, zero, zero, carry 0 1, zero, zero, S] [S, one, zero, zero, carry 0 0, one, zero, zero, S] [S, one, zero, carry 0 0, zero, one, zero, zero, S] (by decide) mstep248).trans
  ((iterFixAux_step 45 multiply_add_one_rule [S, one, zero, zero, carry 0 0, one, zero, zero, S] [S, one, zero, carry 0 0, zero, one, zero, zero, S] [S, one, carry 0 0, zero, zero, one, zero, zero, S] (by decide) mstep249).trans
  ((iterFixAux_step 44 multiply_add_one_rule [S, one, zero, carry 0 0, zero, one, zero, zero, S] [S, one, carry 0 0, zero, zero, one, zero, zero, S] [S, carry 1 1, zero, zero, zero, one, zero, zero, S] (by decide) mstep250).trans
  ((iterFixAux_step 43 multiply_add_one_rule [S, one, carry 0 0, zero, zero, one, zero, zero, S] [S, carry 1 1, zero, zero, zero, one, zero, zero, S] [S, carry 0 1, one, zero, zero, zero, one, zero, zero, S] (by decide) mstep251).trans
  ((iterFixAux_step 42 multiply_add_one_rule [S, carry 1 1, zero, zero, zero, one, zero, zero, S] [S, carry 0 1, one, zero, zero, zero, one, zero, zero, S] [S, one, one, zero, zero, zero, one, zero, zero, S] (by decide) mstep252).trans
  ((iterFixAux_step 41 multiply_add_one_rule [S, carry 0 1, one, zero, zero, zero, one, zero, zero, S] [S, one, one, zero, zero, zero, one, zero, zero, S] [S, one, one, zero, zero, zero, one, zero, zero, S] (by decide) mstep253).trans
  (iterFixAux_self 39 multiply_add_one_rule [S, one, one, zero, zero, zero, one, zero, zero, S]))))))))))

theorem multFix67 : iterFix 50 multiply_add_one_rule (multiplyTape 67) = [S, one, one, zero, zero, one, zero, one, zero, S] :=
  ((iterFixAux_step 49 multiply_add_one_rule [] [S, one, zero, zero, zero, zero, one, carry 1 2, S] [S, one, zero, zero, zero, zero, carry 1 3, zero, S] (by decide) mstep254).trans
  ((iterFixAux_step 48 multiply_add_one_rule [S, one, zero, zero, zero, zero, one, carry 1 2, S] [S, one, zero, zero, zero, zero, carry 1 3, zero, S] [S, one, zero, zero, zero, carry 0 2, one, zero, S] (by decide) mstep255).trans
  ((iterFixAux_step 47 multiply_add_one_rule [S, one, zero, zero, zero, zero, carry 1 3, zero, S] [S, one, zero, zero, zero, carry 0 2, one, zero, S] [S, one, zero, zero, carry 0 1, zero, one, zero, S] (by decide) mstep256).trans
  ((iterFixAux_step 46 multiply_add_one_rule [S, one, zero, zero, zero, carry 0 2, one, zero, S] [S, one, zero, zero, carry 0 1, zero, one, zero, S] [S, one, zero, carry 0 0, one, zero, one, zero, S] (by decide) mstep257).trans
  ((iterFixAux_step 45 multiply_add_one_rule [S, one, zero, zero, carry 0 1, zero, one, zero, S] [S, one, zero, carry 0 0, one, zero, one, zero, S] [S, one, carry 0 0, zero, one, zero, one, zero, S] (by decide) mstep258).trans
  ((iterFixAux_step 44 multiply_add_one_rule [S, one, zero, carry 0 0, one, zero, one, zero, S] [S, one, carry 0 0, zero, one, zero, one, zero, S] [S, carry 1 1, zero, zero, one, zero, one, zero, S] (by decide) mstep259).trans
  ((iterFixAux_step 43 multiply_add_one_rule [S, one, carry 0 0, zero, one, zero, one, zero, S] [S, carry 1 1, zero, zero, one, zero, one, zero, S] [S, carry 0 1, one, zero, zero, one, zero, one, zero, S] (by decide) mstep260).trans
  ((iterFixAux_step 42 multiply_add_one_rule [S, carry 1 1, zero, zero, one, zero, one, zero, S] [S, carry 0 1, one, zero, zero, one, zero, one, zero, S] [S, one, one, zero, zero, one, zero, one, zero, S] (by decide) mstep261).trans
  ((iterFixAux_step 41 multiply_add_one_rule [S, carry 0 1, one, zero, zero, one, zero, one, zero, S] [S, one, one, zero, zero, one, zero, one, zero, S] [S, one, one, zero, zero, one, zero, one, zero, S] (by decide) mstep262).trans
  (iterFixAux_self 39 multiply_add_one_rule [S, one, one, zero, zero, one, zero, one, zero, S]))))))))))

theorem multFix69 : iterFix 50 multiply_add_one_rule (multiplyTape 69) = [S, one, one, zero, one, zero, zero, zero, zero, S] :=
  ((iterFixAux_step 49 multiply_add_one_rule [] [S, one, zero, zero, zero, one, zero, carry 1 2, S] [S, one, zero, zero, zero, one, carry 0 2, zero, S] (by decide) mstep263).trans
  ((iterFixAux_step 48 multiply_add_one_rule [S, one, zero, zero, zero, one, zero, carry 1 2, S] [S, one, zero, zero, zero, one, carry 0 2, zero, S] [S, one, zero, zero, zero, carry 1 2, zero, zero, S] (by decide) mstep264).trans
  ((iterFixAux_step 47 multiply_add_one_rule [S, one, zero, zero, zero, one, carry 0 2, zero, S] [S, one, zero, zero, zero, carry 1 2, zero, zero, S] [S, one, zero, zero, carry 0 2, zero, zero, zero, S] (by decide) mstep265).trans
  ((iterFixAux_step 46 multiply_add_one_rule [S, one, zero, zero, zero, carry 1 2, zero, zero, S] [S, one, zero, zero, carry 0 2, zero, zero, zero, S] [S, one, zero, carry 0 1, zero, zero, zero, zero, S] (by decide) mstep266).trans
  ((iterFixAux_step 45 multiply_add_one_rule [S, one, zero, zero, carry 0 2, zero, zero, zero, S] [S, one, zero, carry 0 1, zero, zero, zero, zero, S] [S, one, carry 0 0, one, zero, zero, zero, zero, S] (by decide) mstep267).trans
  ((iterFixAux_step 44 multiply_add_one_rule [S, one, zero, carry 0 1, zero, zero, zero, zero, S] [S, one, carry 0 0, one, zero, zero, zero, zero, S] [S, carry 1 1, zero, one, zero, zero, zero, zero, S] (by decide) mstep268).trans
  ((iterFixAux_step 43 multiply_add_one_rule [S, one, carry 0 0, one, zero, zero, zero, zero, S] [S, carry 1 1, zero, one, zero, zero, zero, zero, S] [S, carry 0 1, one, zero, one, zero, zero, zero, zero, S] (by decide) mstep269).trans
  ((iterFixAux_step 42 multiply_add_one_rule [S, carry 1 1, zero, one, zero, zero, zero, zero, S] [S, carry 0 1, one, zero, one, zero, zero, zero, zero, S] [S, one, one, zero, one, zero, zero, zero, zero, S] (by decide) mstep270).trans
  ((iterFixAux_step 41 multiply_add_one_rule [S, carry 0 1, one, zero, one, zero, zero, zero, zero, S] [S, one, one, zero, one, zero, zero, zero, zero, S] [S, one, one, zero, one, zero, zero, zero, zero, S] (by decide) mstep271).trans
  (iterFixAux_self 39 multiply_add_one_rule [S, one, one, zero, one, zero, zero, zero, zero, S]))))))))))

theorem multFix71 : iterFix 50 multiply_add_one_rule (multiplyTape 71) = [S, one, one, zero, one, zero, one, one, zero, S] :=
  ((iterFixAux_step 49 multiply_add_one_rule [] [S, one, zero, zero, zero, one, one, carry 1 2, S] [S, one, zero, zero, zero, one, carry 1 3, zero, S] (by decide) mstep272).trans
  ((iterFixAux_step 48 multiply_add_one_rule [S, one, zero, zero, zero, one, one, carry 1 2, S] [S, one, zero, zero, zero, one, carry 1 3, zero, S] [S, one, zero, zero, zero, carry 1 3, one, zero, S] (by decide) mstep273).trans
  ((iterFixAux_step 47 multiply_add_one_rule [S, one, zero, zero, zero, one, carry 1 3, zero, S] [S, one, zero, zero, zero, carry 1 3, one, zero, S] [S, one, zero, zero, carry 0 2, one, one, zero, S] (by decide) mstep274).trans
  ((iterFixAux_step 46 multiply_add_one_rule [S, one, zero, zero, zero, carry 1 3, one, zero, S] [S, one, zero, zero, carry 0 2, one, one, zero, S] [S, one, zero, carry 0 1, zero, one, one, zero, S] (by decide) mstep275).trans
  ((iterFixAux_step 45 multiply_add_one_rule [S, one, zero, zero, carry 0 2, one, one, zero, S] [S, one, zero, carry 0 1, zero, one, one, zero, S] [S, one, carry 0 0, one, zero, one, one, zero, S] (by decide) mstep276).trans
  ((iterFixAux_step 44 multiply_add_one_rule [S, one, zero, carry 0 1, zero, one, one, zero, S] [S, one, carry 0 0, one, zero, one, one, zero, S] [S, carry 1 1, zero, one, zero, one, one, zero, S] (by decide) mstep277).trans
  ((iterFixAux_step 43 multiply_add_one_rule [S, one, carry 0 0, one, zero, one, one, zero, S] [S, carry 1 1, zero, one, zero, one, one, zero, S] [S, carry 0 1, one, zero, one, zero, one, one, zero, S] (by decide) mstep278).trans
  ((iterFixAux_step 42 multiply_add_one_rule [S, carry 1 1, zero, one, zero, one, one, zero, S] [S, carry 0 1, one, zero, one, zero, one, one, zero, S] [S, one, one, zero, one, zero, one, one, zero, S] (by decide) mstep279).trans
  ((iterFixAux_step 41 multiply_add_one_rule [S, carry 0 1, one, zero, one, zero, one, one, zero, S] [S, one, one, zero, one, zero, one, one, zero, S] [S, one, one, zero, one, zero, one, one, zero, S] (by decide) mstep280).trans
  (iterFixAux_self 39 multiply_add_one_rule [S, one, one, zero, one, zero, one, one, zero, S]))))))))))

theorem multFix73 : iterFix 50 multiply_add_one_rule (multiplyTape 73) = [S, one, one, zero, one, one, one, zero, zero, S] :=
  ((iterFixAux_step 49 multiply_add_one_rule [] [S, one, zero, zero, one, zero, zero, carry 1 2, S] [S, one, zero, zero, one, zero, carry 0 2, zero, S] (by decide) mstep281).trans
  ((iterFixAux_step 48 multiply_add_one_rule [S, one, zero, zero, one, zero, zero, carry 1 2, S] [S, one, zero, zero, one, zero, carry 0 2, zero, S] [S, one, zero, zero, one, carry 0 1, zero, zero, S] (by decide) mstep282).trans
  ((iterFixAux_step 47 multiply_add_one_rule [S, one, zero, zero, one, zero, carry 0 2, zero, S] [S, one, zero, zero, one, carry 0 1, zero, zero, S] [S, one, zero, zero, carry 1 1, one, zero, zero, S] (by decide) mstep283).trans
  ((iterFixAux_step 46 multiply_add_one_rule [S, one, zero, zero, one, carry 0 1, zero, zero, S] [S, one, zero, zero, carry 1 1, one, zero, zero, S] [S, one, zero, carry 0 1, one, one, zero, zero, S] (by decide) mstep284).trans
  ((iterFixAux_step 45 multiply_add_one_rule [S, one, zero, zero, carry 1 1, one, zero, zero, S] [S, one, zero, carry 0 1, one, one, zero, zero, S] [S, one, carry 0 0, one, one, one, zero, zero, S] (by decide) mstep285).trans
  ((iterFixAux_step 44 multiply_add_one_rule [S, one, zero, carry 0 1, one, one, zero, zero, S] [S, one, carry 0 0, one, one, one, zero, zero, S] [S, carry 1 1, zero, one, one, one, zero, zero, S] (by decide) mstep286).trans
  ((iterFixAux_step 43 multiply_add_one_rule [S, one, carry 0 0, one, one, one, zero, zero, S] [S, carry 1 1, zero, one, one, one, zero, zero, S] [S, carry 0 1, one, zero, one, one, one, zero, zero, S] (by decide) mstep287).trans
  ((iterFixAux_step 42 multiply_add_one_rule [S, carry 1 1, zero, one, one, one, zero, zero, S] [S, carry 0 1, one, zero, one, one, one, zero, zero, S] [S, one, one, zero, one, one, one, zero, zero, S] (by decide) mstep288).trans
  ((iterFixAux_step 41 multiply_add_one_rule [S, carry 0 1, one, zero, one, one, one, zero, zero, S] [S, one, one, zero, one, one, one, zero, zero, S] [S, one, one, zero, one, one, one, zero, zero, S] (by decide) mstep289).trans
  (iterFixAux_self 39 multiply_add_one_rule [S, one, one, zero, one, one, one, zero, zero, S]))))))))))

theorem multFix75 : iterFix 50 multiply_add_one_rule (multiplyTape 75) = [S, one, one, one, zero, zero, zero, one, zero, S] :=
  ((iterFixAux_step 49 multiply_add_one_rule [] [S, one, zero, zero, one, zero, one, carry 1 2, S] [S, one, zero, zero, one, zero, carry 1 3, zero, S] (by decide) mstep290).trans
  ((iterFixAux_step 48 multiply_add_one_rule [S, one, zero, zero, one, zero, one, carry 1 2, S] [S, one, zero, zero, one, zero, carry 1 3, zero, S] [S, one, zero, zero, one, carry 0 2, one, zero, S] (by decide) mstep291).trans
  ((iterFixAux_step 47 multiply_add_one_rule [S, one, zero, zero, one, zero, carry 1 3, zero, S] [S, one, zero, zero, one, carry 0 2, one, zero, S] [S, one, zero, zero, carry 1 2, zero, one, zero, S] (by decide) mstep292).trans
  ((iterFixAux_step 46 multiply_add_one_rule [S, one, zero, zero, one, carry 0 2, one, zero, S] [S, one, zero, zero, carry 1 2, zero, one, zero, S] [S, one, zero, carry 0 2, zero, zero, one, zero, S] (by decide) mstep293).trans
  ((iterFixAux_step 45 multiply_add_one_rule [S, one, zero, zero, carry 1 2, zero, one, zero, S] [S, one, zero, carry 0 2, zero, zero, one, zero, S] [S, one, carry 0 1, zero, zero, zero, one, zero, S] (by decide) mstep294).trans
  ((iterFixAux_step 44 multiply_add_one_rule [S, one, zero, carry 0 2, zero, zero, one, zero, S] [S, one, carry 0 1, zero, zero, zero, one, zero, S] [S, carry 1 1, one, zero, zero, zero, one, zero, S] (by decide) mstep295).trans
  ((iterFixAux_step 43 multiply_add_one_rule [S, one, carry 0 1, zero, zero, zero, one, zero, S] [S, carry 1 1, one, zero, zero, zero, one, zero, S] [S, carry 0 1, one, one, zero, zero, zero, one, zero, S] (by decide) mstep296).trans
  ((iterFixAux_step 42 multiply_add_one_rule [S, carry 1 1, one, zero, zero, zero, one, zero, S] [S, carry 0 1, one, one, zero, zero, zero, one, zero, S] [S, one, one, one, zero, zero, zero, one, zero, S] (by decide) mstep297).trans
  ((iterFixAux_step 41 multiply_add_one_rule [S, carry 0 1, one, one, zero, zero, zero, one, zero, S] [S, one, one, one, zero, zero, zero, one, zero, S] [S, one, one, one, zero, zero, zero, one, zero, S] (by decide) mstep298).trans
  (iterFixAux_self 39 multiply_add_one_rule [S, one, one, one, zero, zero, zero, one, zero, S]))))))))))

theorem multFix77 : iterFix 50 multiply_add_one_rule (multiplyTape 77) = [S, one, one, one, zero, one, zero, zero, zero, S] :=
  ((iterFixAux_step 49 multiply_add_one_rule [] [S, one, zero, zero, one, one, zero, carry 1 2, S] [S, one, zero, zero, one, one, carry 0 2, zero, S] (by decide) mstep299).trans
  ((iterFixAux_step 48 multiply_add_one_rule [S, one, zero, zero, one, one, zero, carry 1 2, S] [S, one, zero, zero, one, one, carry 0 2, zero, S] [S, one, zero, zero, one, carry 1 2, zero, zero, S] (by decide) mstep300).trans
  ((iterFixAux_step 47 multiply_add_one_rule [S, one, zero, zero, one, one, carry 0 2, zero, S] [S, one, zero, zero, one, carry 1 2, zero, zero, S] [S, one, zero, zero, carry 1 3, zero, zero, zero, S] (by decide) mstep301).trans
  ((iterFixAux_step 46 multiply_add_one_rule [S, one, zero, zero, one, carry 1 2, zero, zero, S] [S, one, zero, zero, carry 1 3, zero, zero, zero, S] [S, one, zero, carry 0 2, one, zero, zero, zero, S] (by decide) mstep302).trans
  ((iterFixAux_step 45 multiply_add_one_rule [S, one, zero, zero, carry 1 3, zero, zero, zero, S] [S, one, zero, carry 0 2, one, zero, zero, zero, S] [S, one, carry 0 1, zero, one, zero, zero, zero, S] (by decide) mstep303).trans
  ((iterFixAux_step 44 multiply_add_one_rule [S, one, zero, carry 0 2, one, zero, zero, zero, S] [S, one, carry 0 1, zero, one, zero, zero, zero, S] [S, carry 1 1, one, zero, one, zero, zero, zero, S] (by decide) mstep304).trans
  ((iterFixAux_step 43 multiply_add_one_rule [S, one, carry 0 1, zero, one, zero, zero, zero, S] [S, carry 1 1, one, zero, one, zero, zero, zero, S] [S, carry 0 1, one, one, zero, one, zero, zero, zero, S] (by decide) mstep305).trans
  ((iterFixAux_step 42 multiply_add_one_rule [S, carry 1 1, one, zero, one, zero, zero, zero, S] [S, carry 0 1, one, one, zero, one, zero, zero, zero, S] [S, one, one, one, zero, one, zero, zero, zero, S] (by decide) mstep306).trans
  ((iterFixAux_step 41 multiply_add_one_rule [S, carry 0 1, one, one, zero, one, zero, zero, zero, S] [S, one, one, one, zero, one, zero, zero, zero, S] [S, one, one, one, zero, one, zero, zero, zero, S] (by decide) mstep307).trans
  (iterFixAux_self 39 multiply_add_one_rule [S, one, one, one, zero, one, zero, zero, zero, S]))))))))))

theorem multFix79 : iterFix 50 multiply_add_one_rule (multiplyTape 79) = [S, one, one, one, zero, one, one, one, zero, S] :=
  ((iterFixAux_step 49 multiply_add_one_rule [] [S, one, zero, zero, one, one, one, carry 1 2, S] [S, one, zero, zero, one, one, carry 1 3, zero, S] (by decide) mstep308).trans
  ((iterFixAux_step 48 multiply_add_one_rule [S, one, zero, zero, one, one, one, carry 1 2, S] [S, one, zero, zero, one, one, carry 1 3, zero, S] [S, one, zero, zero, one, carry 1 3, one, zero, S] (by decide) mstep309).trans
  ((iterFixAux_step 47 multiply_add_one_rule [S, one, zero, zero, one, one, carry 1 3, zero, S] [S, one, zero, zero, one, carry 1 3, one, zero, S] [S, one, zero, zero, carry 1 3, one, one, zero, S] (by decide) mstep310).trans
  ((iterFixAux_step 46 multiply_add_one_rule [S, one, zero, zero, one, carry 1 3, one, zero, S] [S, one, zero, zero, carry 1 3, one, one, zero, S] [S, one, zero, carry 0 2, one, one, one, zero, S] (by decide) mstep311).trans
  ((iterFixAux_step 45 multiply_add_one_rule [S, one, zero, zero, carry 1 3, one, one, zero, S] [S, one, zero, carry 0 2, one, one, one, zero, S] [S, one, carry 0 1, zero, one, one, one, zero, S] (by decide) mstep312).trans
  ((iterFixAux_step 44 multiply_add_one_rule [S, one, zero, carry 0 2, one, one, one, zero, S] [S, one, carry 0 1, zero, one, one, one, zero, S] [S, carry 1 1, one, zero, one, one, one, zero, S] (by decide) mstep313).trans
  ((iterFixAux_step 43 multiply_add_one_rule [S, one, carry 0 1, zero, one, one, one, zero, S] [S, carry 1 1, one, zero, one, one, one, zero, S] [S, carry 0 1, one, one, zero, one, one, one, zero, S] (by decide) mstep314).trans
  ((iterFixAux_step 42 multiply_add_one_rule [S, carry 1 1, one, zero, one, one, one, zero, S] [S, carry 0 1, one, one, zero, one, one, one, zero, S] [S, one, one, one, zero, one, one, one, zero, S] (by decide) mstep315).trans
  ((iterFixAux_step 41 multiply_add_one_rule [S, carry 0 1, one, one, zero, one, one, one, zero, S] [S, one, one, one, zero, one, one, one, zero, S] [S, one, one, one, zero, one, one, one, zero, S] (by decide) mstep316).trans
  (iterFixAux_self 39 multiply_add_one_rule [S, one, one, one, zero, one, one, one, zero, S]))))))))))

theorem multFix81 : iterFix 50 multiply_add_one_rule (multiplyTape 81) = [S, one, one, one, one, zero, one, zero, zero, S] :=
  ((iterFixAux_step 49 multiply_add_one_rule [] [S, one, zero, one, zero, zero, zero, carry 1 2, S] [S, one, zero, one, zero, zero, carry 0 2, zero, S] (by decide) mstep317).trans
  ((iterFixAux_step 48 multiply_add_one_rule [S, one, zero, one, zero, zero, zero, carry 1 2, S] [S, one, zero, one, zero, zero, carry 0 2, zero, S] [S, one, zero, one, zero, carry 0 1, zero, zero, S] (by decide) mstep318).trans
  ((iterFixAux_step 47 multiply_add_one_rule [S, one, zero, one, zero, zero, carry 0 2, zero, S] [S, one, zero, one, zero, carry 0 1, zero, zero, S] [S, one, zero, one, carry 0 0, one, zero, zero, S] (by decide) mstep319).trans
  ((iterFixAux_step 46 multiply_add_one_rule [S, one, zero, one, zero, carry 0 1, zero, zero, S] [S, one, zero, one, carry 0 0, one, zero, zero, S] [S, one, zero, carry 1 1, zero, one, zero, zero, S] (by decide) mstep320).trans
  ((iterFixAux_step 45 multiply_add_one_rule [S, one, zero, one, carry 0 0, one, zero, zero, S] [S, one, zero, carry 1 1, zero, one, zero, zero, S] [S, one, carry 0 1, one, zero, one, zero, zero, S] (by decide) mstep321).trans
  ((iterFixAux_step 44 multiply_add_one_rule [S, one, zero, carry 1 1, zero, one, zero, zero, S] [S, one, carry 0 1, one, zero, one, zero, zero, S] [S, carry 1 1, one, one, zero, one, zero, zero, S] (by decide) mstep322).trans
  ((iterFixAux_step 43 multiply_add_one_rule [S, one, carry 0 1, one, zero, one, zero, zero, S] [S, carry 1 1, one, one, zero, one, zero, zero, S] [S, carry 0 1, one, one, one, zero, one, zero, zero, S] (by decide) mstep323).trans
  ((iterFixAux_step 42 multiply_add_one_rule [S, carry 1 1, one, one, zero, one, zero, zero, S] [S, carry 0 1, one, one, one, zero, one, zero, zero, S] [S, one, one, one, one, zero, one, zero, zero, S] (by decide) mstep324).trans
  ((iterFixAux_step 41 multiply_add_one_rule [S, carry 0 1, one, one, one, zero, one, zero, zero, S] [S, one, one, one, one, zero, one, zero, zero, S] [S, one, one, one, one, zero, one, zero, zero, S] (by decide) mstep325).trans
  (iterFixAux_self 39 multiply_add_one_rule [S, one, one, one, one, zero, one, zero, zero, S]))))))))))

theorem multFix83 : iterFix 50 multiply_add_one_rule (multiplyTape 83) = [S, one, one, one, one, one, zero, one, zero, S] :=
  ((iterFixAux_step 49 multiply_add_one_rule [] [S, one, zero, one, zero, zero, one, carry 1 2, S] [S, one, zero, one, zero, zero, carry 1 3, zero, S] (by decide) mstep326).trans
  ((iterFixAux_step 48 multiply_add_one_rule [S, one, zero, one, zero, zero, one, carry 1 2, S] [S, one, zero, one, zero, zero, carry 1 3, zero, S] [S, one, zero, one, zero, carry 0 2, one, zero, S] (by decide) mstep327).trans
  ((iterFixAux_step 47 multiply_add_one_rule [S, one, zero, one, zero, zero, carry 1 3, zero, S] [S, one, zero, one, zero, carry 0 2, one, zero, S] [S, one, zero, one, carry 0 1, zero, one, zero, S] (by decide) mstep328).trans
  ((iterFixAux_step 46 multiply_add_one_rule [S, one, zero, one, zero, carry 0 2, one, zero, S] [S, one, zero, one, carry 0 1, zero, one, zero, S] [S, one, zero, carry 1 1, one, zero, one, zero, S] (by decide) mstep329).trans
  ((iterFixAux_step 45 multiply_add_one_rule [S, one, zero, one, carry 0 1, zero, one, zero, S] [S, one, zero, carry 1 1, one, zero, one, zero, S] [S, one, carry 0 1, one, one, zero, one, zero, S] (by decide) mstep330).trans
  ((iterFixAux_step 44 multiply_add_one_rule [S, one, zero, carry 1 1, one, zero, one, zero, S] [S, one, carry 0 1, one, one, zero, one, zero, S] [S, carry 1 1, one, one, one, zero, one, zero, S] (by decide) mstep331).trans
  ((iterFixAux_step 43 multiply_add_one_rule [S, one, carry 0 1, one, one, zero, one, zero, S] [S, carry 1 1, one, one, one, zero, one, zero, S] [S, carry 0 1, one, one, one, one, zero, one, zero, S] (by decide) mstep332).trans
  ((iterFixAux_step 42 multiply_add_one_rule [S, carry 1 1, one, one, one, zero, one, zero, S] [S, carry 0 1, one, one, one, one, zero, one, zero, S] [S, one, one, one, one, one, zero, one, zero, S] (by decide) mstep333).trans
  ((iterFixAux_step 41 multiply_add_one_rule [S, carry 0 1, one, one, one, one, zero, one, zero, S] [S, one, one, one, one, one, zero, one, zero, S] [S, one, one, one, one, one, zero, one, zero, S] (by decide) mstep334).trans
  (iterFixAux_self 39 multiply_add_one_rule [S, one, one, one, one, one, zero, one, zero, S]))))))))))

theorem multFix85 : iterFix 50 multiply_add_one_rule (multiplyTape 85) = [S, one, zero, zero, zero, zero, zero, zero, zero, zero, S] :=
  ((iterFixAux_step 49 multiply_add_one_rule [] [S, one, zero, one, zero, one, zero, carry 1 2, S] [S, one, zero, one, zero, one, carry 0 2, zero, S] (by decide) mstep335).trans
  ((iterFixAux_step 48 multiply_add_one_rule [S, one, zero, one, zero, one, zero, carry 1 2, S] [S, one, zero, one, zero, one, carry 0 2, zero, S] [S, one, zero, one, zero, carry 1 2, zero, zero, S] (by decide) mstep336).trans
  ((iterFixAux_step 47 multiply_add_one_rule [S, one, zero, one, zero, one, carry 0 2, zero, S] [S, one, zero, one, zero, carry 1 2, zero, zero, S] [S, one, zero, one, carry 0 2, zero, zero, zero, S] (by decide) mstep337).trans
  ((iterFixAux_step 46 multiply_add_one_rule [S, one, zero, one, zero, carry 1 2, zero, zero, S] [S, one, zero, one, carry 0 2, zero, zero, zero, S] [S, one, zero, carry 1 2, zero, zero, zero, zero, S] (by decide) mstep338).trans
  ((iterFixAux_step 45 multiply_add_one_rule [S, one, zero, one, carry 0 2, zero, zero, zero, S] [S, one, zero, carry 1 2, zero, zero, zero, zero, S] [S, one, carry 0 2, zero, zero, zero, zero, zero, S] (by decide) mstep339).trans
  ((iterFixAux_step 44 multiply_add_one_rule [S, one, zero, carry 1 2, zero, zero, zero, zero, S] [S, one, carry 0 2, zero, zero, zero, zero, zero, S] [S, carry 1 2, zero, zero, zero, zero, zero, zero, S] (by decide) mstep340).trans
  ((iterFixAux_step 43 multiply_add_one_rule [S, one, carry 0 2, zero, zero, zero, zero, zero, S] [S, carry 1 2, zero, zero, zero, zero, zero, zero, S] [S, carry 0 2, zero, zero, zero, zero, zero, zero, zero, S] (by decide) mstep341).trans
  ((iterFixAux_step 42 multiply_add_one_rule [S, carry 1 2, zero, zero, zero, zero, zero, zero, S] [S, carry 0 2, zero, zero, zero, zero, zero, zero, zero, S] [S, carry 0 1, zero, zero, zero, zero, zero, zero, zero, zero, S] (by decide) mstep342).trans
  ((iterFixAux_step 41 multiply_add_one_rule [S, carry 0 2, zero, zero, zero, zero, zero, zero, zero, S] [S, carry 0 1, zero, zero, zero, zero, zero, zero, zero, zero, S] [S, one, zero, zero, zero, zero, zero, zero, zero, zero, S] (by decide) mstep343).trans
  ((iterFixAux_step 40 multiply_add_one_rule [S, carry 0 1, zero, zero, zero, zero, zero, zero, zero, zero, S] [S, one, zero, zero, zero, zero, zero, zero, zero, zero, S] [S, one, zero, zero, zero, zero, zero, zero, zero, zero, S] (by decide) mstep344).trans
  (iterFixAux_self 38 multiply_add_one_rule [S, one, zero, zero, zero, zero, zero, zero, zero, zero, S])))))))))))

theorem multFix87 : iterFix 50 multiply_add_one_rule (multiplyTape 87) = [S, one, zero, zero, zero, zero, zero, one, one, zero, S] :=
  ((iterFixAux_step 49 multiply_add_one_rule [] [S, one, zero, one, zero, one, one, carry 1 2, S] [S, one, zero, one, zero, one, carry 1 3, zero, S] (by decide) mstep345).trans
  ((iterFixAux_step 48 multiply_add_one_rule [S, one, zero, one, zero, one, one, carry 1 2, S] [S, one, zero, one, zero, one, carry 1 3, zero, S] [S, one, zero, one, zero, carry 1 3, one, zero, S] (by decide) mstep346).trans
  ((iterFixAux_step 47 multiply_add_one_rule [S, one, zero, one, zero, one, carry 1 3, zero, S] [S, one, zero, one, zero, carry 1 3, one, zero, S] [S, one, zero, one, carry 0 2, one, one, zero, S] (by decide) mstep347).trans
  ((iterFixAux_step 46 multiply_add_one_rule [S, one, zero, one, zero, carry 1 3, one, zero, S] [S, one, zero, one, carry 0 2, one, one, zero, S] [S, one, zero, carry 1 2, zero, one, one, zero, S] (by decide) mstep348).trans
  ((iterFixAux_step 45 multiply_add_one_rule [S, one, zero, one, carry 0 2, one, one, zero, S] [S, one, zero, carry 1 2, zero, one, one, zero, S] [S, one, carry 0 2, zero, zero, one, one, zero, S] (by decide) mstep349).trans
  ((iterFixAux_step 44 multiply_add_one_rule [S, one, zero, carry 1 2, zero, one, one, zero, S] [S, one, carry 0 2, zero, zero, one, one, zero, S] [S, carry 1 2, zero, zero, zero, one, one, zero, S] (by decide) mstep350).trans
  ((iterFixAux_step 43 multiply_add_one_rule [S, one, carry 0 2, zero, zero, one, one, zero, S] [S, carry 1 2, zero, zero, zero, one, one, zero, S] [S, carry 0 2, zero, zero, zero, zero, one, one, zero, S] (by decide) mstep351).trans
  ((iterFixAux_step 42 multiply_add_one_rule [S, carry 1 2, zero, zero, zero, one, one, zero, S] [S, carry 0 2, zero, zero, zero, zero, one, one, zero, S] [S, carry 0 1, zero, zero, zero, zero, zero, one, one, zero, S] (by decide) mstep352).trans
  ((iterFixAux_step 41 multiply_add_one_rule [S, carry 0 2, zero, zero, zero, zero, one, one, zero, S] [S, carry 0 1, zero, zero, zero, zero, zero, one, one, zero, S] [S, one, zero, zero, zero, zero, zero, one, one, zero, S] (by decide) mstep353).trans
  ((iterFixAux_step 40 multiply_add_one_rule [S, carry 0 1, zero, zero, zero, zero, zero, one, one, zero, S] [S, one, zero, zero, zero, zero, zero, one, one, zero, S] [S, one, zero, zero, zero, zero, zero, one, one, zero, S] (by decide) mstep354).trans
  (iterFixAux_self 38 multiply_add_one_rule [S, one, zero, zero, zero, zero, zero, one, one, zero, S])))))))))))

theorem multFix89 : iterFix 50 multiply_add_one_rule (multiplyTape 89) = [S, one, zero, zero, zero, zero, one, one, zero, zero, S] :=
  ((iterFixAux_step 49 multiply_add_one_rule [] [S, one, zero, one, one, zero, zero, carry 1 2, S] [S, one, zero, one, one, zero, carry 0 2, zero, S] (by decide) mstep355).trans
  ((iterFixAux_step 48 multiply_add_one_rule [S, one, zero, one, one, zero, zero, carry 1 2, S] [S, one, zero, one, one, zero, carry 0 2, zero, S] [S, one, zero, one, one, carry 0 1, zero, zero, S] (by decide) mstep356).trans
  ((iterFixAux_step 47 multiply_add_one_rule [S, one, zero, one, one, zero, carry 0 2, zero, S] [S, one, zero, one, one, carry 0 1, zero, zero, S] [S, one, zero, one, carry 1 1, one, zero, zero, S] (by decide) mstep357).trans
  ((iterFixAux_step 46 multiply_add_one_rule [S, one, zero, one, one, carry 0 1, zero, zero, S] [S, one, zero, one, carry 1 1, one, zero, zero, S] [S, one, zero, carry 1 2, one, one, zero, zero, S] (by decide) mstep358).trans
  ((iterFixAux_step 45 multiply_add_one_rule [S, one, zero, one, carry 1 1, one, zero, zero, S] [S, one, zero, carry 1 2, one, one, zero, zero, S] [S, one, carry 0 2, zero, one, one, zero, zero, S] (by decide) mstep359).trans
  ((iterFixAux_step 44 multiply_add_one_rule [S, one, zero, carry 1 2, one, one, zero, zero, S] [S, one, carry 0 2, zero, one, one, zero, zero, S] [S, carry 1 2, zero, zero, one, one, zero, zero, S] (by decide) mstep360).trans
  ((iterFixAux_step 43 multiply_add_one_rule [S, one, carry 0 2, zero, one, one, zero, zero, S] [S, carry 1 2, zero, zero, one, one, zero, zero, S] [S, carry 0 2, zero, zero, zero, one, one, zero, zero, S] (by decide) mstep361).trans
  ((iterFixAux_step 42 multiply_add_one_rule [S, carry 1 2, zero, zero, one, one, zero, zero, S] [S, carry 0 2, zero, zero, zero, one, one, zero, zero, S] [S, carry 0 1, zero, zero, zero, zero, one, one, zero, zero, S] (by decide) mstep362).trans
  ((iterFixAux_step 41 multiply_add_one_rule [S, carry 0 2, zero, zero, zero, one, one, zero, zero, S] [S, carry 0 1, zero, zero, zero, zero, one, one, zero, zero, S] [S, one, zero, zero, zero, zero, one, one, zero, zero, S] (by decide) mstep363).trans
  ((iterFixAux_step 40 multiply_add_one_rule [S, carry 0 1, zero, zero, zero, zero, one, one, zero, zero, S] [S, one, zero, zero, zero, zero, one, one, zero, zero, S] [S, one, zero, zero, zero, zero, one, one, zero, zero, S] (by decide) mstep364).trans
  (iterFixAux_self 38 multiply_add_one_rule [S, one, zero, zero, zero, zero, one, one, zero, zero, S])))))))))))

theorem multFix91 : iterFix 50 multiply_add_one_rule (multiplyTape 91) = [S, one, zero, zero, zero, one, zero, zero, one, zero, S] :=
  ((iterFixAux_step 49 multiply_add_one_rule [] [S, one, zero, one, one, zero, one, carry 1 2, S] [S, one, zero, one, one, zero, carry 1 3, zero, S] (by decide) mstep365).trans
  ((iterFixAux_step 48 multiply_add_one_rule [S, one, zero, one, one, zero, one, carry 1 2, S] [S, one, zero, one, one, zero, carry 1 3, zero, S] [S, one, zero, one, one, carry 0 2, one, zero, S] (by decide) mstep366).trans
  ((iterFixAux_step 47 multiply_add_one_rule [S, one, zero, one, one, zero, carry 1 3, zero, S] [S, one, zero, one, one, carry 0 2, one, zero, S] [S, one, zero, one, carry 1 2, zero, one, zero, S] (by decide) mstep367).trans
  ((iterFixAux_step 46 multiply_add_one_rule [S, one, zero, one, one, carry 0 2, one, zero, S] [S, one, zero, one, carry 1 2, zero, one, zero, S] [S, one, zero, carry 1 3, zero, zero, one, zero, S] (by decide) mstep368).trans
  ((iterFixAux_step 45 multiply_add_one_rule [S, one, zero, one, carry 1 2, zero, one, zero, S] [S, one, zero, carry 1 3, zero, zero, one, zero, S] [S, one, carry 0 2, one, zero, zero, one, zero, S] (by decide) mstep369).trans
  ((iterFixAux_step 44 multiply_add_one_rule [S, one, zero, carry 1 3, zero, zero, one, zero, S] [S, one, carry 0 2, one, zero, zero, one, zero, S] [S, carry 1 2, zero, one, zero, zero, one, zero, S] (by decide) mstep370).trans
  ((iterFixAux_step 43 multiply_add_one_rule [S, one, carry 0 2, one, zero, zero, one, zero, S] [S, carry 1 2, zero, one, zero, zero, one, zero, S] [S, carry 0 2, zero, zero, one, zero, zero, one, zero, S] (by decide) mstep371).trans
  ((iterFixAux_step 42 multiply_add_one_rule [S, carry 1 2, zero, one, zero, zero, one, zero, S] [S, carry 0 2, zero, zero, one, zero, zero, one, zero, S] [S, carry 0 1, zero, zero, zero, one, zero, zero, one, zero, S] (by decide) mstep372).trans
  ((iterFixAux_step 41 multiply_add_one_rule [S, carry 0 2, zero, zero, one, zero, zero, one, zero, S] [S, carry 0 1, zero, zero, zero, one, zero, zero, one, zero, S] [S, one, zero, zero, zero, one, zero, zero, one, zero, S] (by decide) mstep373).trans
  ((iterFixAux_step 40 multiply_add_one_rule [S, carry 0 1, zero, zero, zero, one, zero, zero, one, zero, S] [S, one, zero, zero, zero, one, zero, zero, one, zero, S] [S, one, zero, zero, zero, one, zero, zero, one, zero, S] (by decide) mstep374).trans
  (iterFixAux_self 38 multiply_add_one_rule [S, one, zero, zero, zero, one, zero, zero, one, zero, S])))))))))))

theorem multFix93 : iterFix 50 multiply_add_one_rule (multiplyTape 93) = [S, one, zero, zero, zero, one, one, zero, zero, zero, S] :=
  ((iterFixAux_step 49 multiply_add_one_rule [] [S, one, zero, one, one, one, zero, carry 1 2, S] [S, one, zero, one, one, one, carry 0 2, zero, S] (by decide) mstep375).trans
  ((iterFixAux_step 48 multiply_add_one_rule [S, one, zero, one, one, one, zero, carry 1 2, S] [S, one, zero, one, one, one, carry 0 2, zero, S] [S, one, zero, one, one, carry 1 2, zero, zero, S] (by decide) mstep376).trans
  ((iterFixAux_step 47 multiply_add_one_rule [S, one, zero, one, one, one, carry 0 2, zero, S] [S, one, zero, one, one, carry 1 2, zero, zero, S] [S, one, zero, one, carry 1 3, zero, zero, zero, S] (by decide) mstep377).trans
  ((iterFixAux_step 46 multiply_add_one_rule [S, one, zero, one, one, carry 1 2, zero, zero, S] [S, one, zero, one, carry 1 3, zero, zero, zero, S] [S, one, zero, carry 1 3, one, zero, zero, zero, S] (by decide) mstep378).trans
  ((iterFixAux_step 45 multiply_add_one_rule [S, one, zero, one, carry 1 3, zero, zero, zero, S] [S, one, zero, carry 1 3, one, zero, zero, zero, S] [S, one, carry 0 2, one, one, zero, zero, zero, S] (by decide) mstep379).trans
  ((iterFixAux_step 44 multiply_add_one_rule [S, one, zero, carry 1 3, one, zero, zero, zero, S] [S, one, carry 0 2, one, one, zero, zero, zero, S] [S, carry 1 2, zero, one, one, zero, zero, zero, S] (by decide) mstep380).trans
  ((iterFixAux_step 43 multiply_add_one_rule [S, one, carry 0 2, one, one, zero, zero, zero, S] [S, carry 1 2, zero, one, one, zero, zero, zero, S] [S, carry 0 2, zero, zero, one, one, zero, zero, zero, S] (by decide) mstep381).trans
  ((iterFixAux_step 42 multiply_add_one_rule [S, carry 1 2, zero, one, one, zero, zero, zero, S] [S, carry 0 2, zero, zero, one, one, zero, zero, zero, S] [S, carry 0 1, zero, zero, zero, one, one, zero, zero, zero, S] (by decide) mstep382).trans
  ((iterFixAux_step 41 multiply_add_one_rule [S, carry 0 2, zero, zero, one, one, zero, zero, zero, S] [S, carry 0 1, zero, zero, zero, one, one, zero, zero, zero, S] [S, one, zero, zero, zero, one, one, zero, zero, zero, S] (by decide) mstep383).trans
  ((iterFixAux_step 40 multiply_add_one_rule [S, carry 0 1, zero, zero, zero, one, one, zero, zero, zero, S] [S, one, zero, zero, zero, one, one, zero, zero, zero, S] [S, one, zero, zero, zero, one, one, zero, zero, zero, S] (by decide) mstep384).trans
  (iterFixAux_self 38 multiply_add_one_rule [S, one, zero, zero, zero, one, one, zero, zero, zero, S])))))))))))

theorem multFix95 : iterFix 50 multiply_add_one_rule (multiplyTape 95) = [S, one, zero, zero, zero, one, one, one, one, zero, S] :=
  ((iterFixAux_step 49 multiply_add_one_rule [] [S, one, zero, one, one, one, one, carry 1 2, S] [S, one, zero, one, one, one, carry 1 3, zero, S] (by decide) mstep385).trans
  ((iterFixAux_step 48 multiply_add_one_rule [S, one, zero, one, one, one, one, carry 1 2, S] [S, one, zero, one, one, one, carry 1 3, zero, S] [S, one, zero, one, one, carry 1 3, one, zero, S] (by decide) mstep386).trans
  ((iterFixAux_step 47 multiply_add_one_rule [S, one, zero, one, one, one, carry 1 3, zero, S] [S, one, zero, one, one, carry 1 3, one, zero, S] [S, one, zero, one, carry 1 3, one, one, zero, S] (by decide) mstep387).trans
  ((iterFixAux_step 46 multiply_add_one_rule [S, one, zero, one, one, carry 1 3, one, zero, S] [S, one, zero, one, carry 1 3, one, one, zero, S] [S, one, zero, carry 1 3, one, one, one, zero, S] (by decide) mstep388).trans
  ((iterFixAux_step 45 multiply_add_one_rule [S, one, zero, one, carry 1 3, one, one, zero, S] [S, one, zero, carry 1 3, one, one, one, zero, S] [S, one, carry 0 2, one, one, one, one, zero, S] (by decide) mstep389).trans
  ((iterFixAux_step 44 multiply_add_one_rule [S, one, zero, carry 1 3, one, one, one, zero, S] [S, one, carry 0 2, one, one, one, one, zero, S] [S, carry 1 2, zero, one, one, one, one, zero, S] (by decide) mstep390).trans
  ((iterFixAux_step 43 multiply_add_one_rule [S, one, carry 0 2, one, one, one, one, zero, S] [S, carry 1 2, zero, one, one, one, one, zero, S] [S, carry 0 2, zero, zero, one, one, one, one, zero, S] (by decide) mstep391).trans
  ((iterFixAux_step 42 multiply_add_one_rule [S, carry 1 2, zero, one, one, one, one, zero, S] [S, carry 0 2, zero, zero, one, one, one, one, zero, S] [S, carry 0 1, zero, zero, zero, one, one, one, one, zero, S] (by decide) mstep392).trans
  ((iterFixAux_step 41 multiply_add_one_rule [S, carry 0 2, zero, zero, one, one, one, one, zero, S] [S, carry 0 1, zero, zero, zero, one, one, one, one, zero, S] [S, one, zero, zero, zero, one, one, one, one, zero, S] (by decide) mstep393).trans
  ((iterFixAux_step 40 multiply_add_one_rule [S, carry 0 1, zero, zero, zero, one, one, one, one, zero, S] [S, one, zero, zero, zero, one, one, one, one, zero, S] [S, one, zero, zero, zero, one, one, one, one, zero, S] (by decide) mstep394).trans
  (iterFixAux_self 38 multiply_add_one_rule [S, one, zero, zero, zero, one, one, one, one, zero, S])))))))))))

theorem multFix97 : iterFix 50 multiply_add_one_rule (multiplyTape 97) = [S, one, zero, zero, one, zero, zero, one, zero, zero, S] :=
  ((iterFixAux_step 49 multiply_add_one_rule [] [S, one, one, zero, zero, zero, zero, carry 1 2, S] [S, one, one, zero, zero, zero, carry 0 2, zero, S] (by decide) mstep395).trans
  ((iterFixAux_step 48 multiply_add_one_rule [S, one, one, zero, zero, zero, zero, carry 1 2, S] [S, one, one, zero, zero, zero, carry 0 2, zero, S] [S, one, one, zero, zero, carry 0 1, zero, zero, S] (by decide) mstep396).trans
  ((iterFixAux_step 47 multiply_add_one_rule [S, one, one, zero, zero, zero, carry 0 2, zero, S] [S, one, one, zero, zero, carry 0 1, zero, zero, S] [S, one, one, zero, carry 0 0, one, zero, zero, S] (by decide) mstep397).trans
  ((iterFixAux_step 46 multiply_add_one_rule [S, one, one, zero, zero, carry 0 1, zero, zero, S] [S, one, one, zero, carry 0 0, one, zero, zero, S] [S, one, one, carry 0 0, zero, one, zero, zero, S] (by decide) mstep398).trans
  ((iterFixAux_step 45 multiply_add_one_rule [S, one, one, zero, carry 0 0, one, zero, zero, S] [S, one, one, carry 0 0, zero, one, zero, zero, S] [S, one, carry 1 1, zero, zero, one, zero, zero, S] (by decide) mstep399).trans
  ((iterFixAux_step 44 multiply_add_one_rule [S, one, one, carry 0 0, zero, one, zero, zero, S] [S, one, carry 1 1, zero, zero, one, zero, zero, S] [S, carry 1 2, one, zero, zero, one, zero, zero, S] (by decide) mstep400).trans
  ((iterFixAux_step 43 multiply_add_one_rule [S, one, carry 1 1, zero, zero, one, zero, zero, S] [S, carry 1 2, one, zero, zero, one, zero, zero, S] [S, carry 0 2, zero, one, zero, zero, one, zero, zero, S] (by decide) mstep401).trans
  ((iterFixAux_step 42 multiply_add_one_rule [S, carry 1 2, one, zero, zero, one, zero, zero, S] [S, carry 0 2, zero, one, zero, zero, one, zero, zero, S] [S, carry 0 1, zero, zero, one, zero, zero, one, zero, zero, S] (by decide) mstep402).trans
  ((iterFixAux_step 41 multiply_add_one_rule [S, carry 0 2, zero, one, zero, zero, one, zero, zero, S] [S, carry 0 1, zero, zero, one, zero, zero, one, zero, zero, S] [S, one, zero, zero, one, zero, zero, one, zero, zero, S] (by decide) mstep403).trans
  ((iterFixAux_step 40 multiply_add_one_rule [S, carry 0 1, zero, zero, one, zero, zero, one, zero, zero, S] [S, one, zero, zero, one, zero, zero, one, zero, zero, S] [S, one, zero, zero, one, zero, zero, one, zero, zero, S] (by decide) mstep404).trans
  (iterFixAux_self 38 multiply_add_one_rule [S, one, zero, zero, one, zero, zero, one, zero, zero, S])))))))))))

theorem multFix99 : iterFix 50 multiply_add_one_rule (multiplyTape 99) = [S, one, zero, zero, one, zero, one, zero, one, zero, S] :=
  ((iterFixAux_step 49 multiply_add_one_rule [] [S, one, one, zero, zero, zero, one, carry 1 2, S] [S, one, one, zero, zero, zero, carry 1 3, zero, S] (by decide) mstep405).trans
  ((iterFixAux_step 48 multiply_add_one_rule [S, one, one, zero, zero, zero, one, carry 1 2, S] [S, one, one, zero, zero, zero, carry 1 3, zero, S] [S, one, one, zero, zero, carry 0 2, one, zero, S] (by decide) mstep406).trans
  ((iterFixAux_step 47 multiply_add_one_rule [S, one, one, zero, zero, zero, carry 1 3, zero, S] [S, one, one, zero, zero, carry 0 2, one, zero, S] [S, one, one, zero, carry 0 1, zero, one, zero, S] (by decide) mstep407).trans
  ((iterFixAux_step 46 multiply_add_one_rule [S, one, one, zero, zero, carry 0 2, one, zero, S] [S, one, one, zero, carry 0 1, zero, one, zero, S] [S, one, one, carry 0 0, one, zero, one, zero, S] (by decide) mstep408).trans
  ((iterFixAux_step 45 multiply_add_one_rule [S, one, one, zero, carry 0 1, zero, one, zero, S] [S, one, one, carry 0 0, one, zero, one, zero, S] [S, one, carry 1 1, zero, one, zero, one, zero, S] (by decide) mstep409).trans
  ((iterFixAux_step 44 multiply_add_one_rule [S, one, one, carry 0 0, one, zero, one, zero, S] [S, one, carry 1 1, zero, one, zero, one, zero, S] [S, carry 1 2, one, zero, one, zero, one, zero, S] (by decide) mstep410).trans
  ((iterFixAux_step 43 multiply_add_one_rule [S, one, carry 1 1, zero, one, zero, one, zero, S] [S, carry 1 2, one, zero, one, zero, one, zero, S] [S, carry 0 2, zero, one, zero, one, zero, one, zero, S] (by decide) mstep411).trans
  ((iterFixAux_step 42 multiply_add_one_rule [S, carry 1 2, one, zero, one, zero, one, zero, S] [S, carry 0 2, zero, one, zero, one, zero, one, zero, S] [S, carry 0 1, zero, zero, one, zero, one, zero, one, zero, S] (by decide) mstep412).trans
  ((iterFixAux_step 41 multiply_add_one_rule [S, carry 0 2, zero, one, zero, one, zero, one, zero, S] [S, carry 0 1, zero, zero, one, zero, one, zero, one, zero, S] [S, one, zero, zero, one, zero, one, zero, one, zero, S] (by decide) mstep413).trans
  ((iterFixAux_step 40 multiply_add_one_rule [S, carry 0 1, zero, zero, one, zero, one, zero, one, zero, S] [S, one, zero, zero, one, zero, one, zero, one, zero, S] [S, one, zero, zero, one, zero, one, zero, one, zero, S] (by decide) mstep414).trans
  (iterFixAux_self 38 multiply_add_one_rule [S, one, zero, zero, one, zero, one, zero, one, zero, S])))))))))))

theorem multOK3 :
    iterate_rule (iterFix 50 multiply_add_one_rule (multiplyTape 3)) multiply_add_one_rule
        = iterFix 50 multiply_add_one_rule (multiplyTape 3)
    ∧ decodeBits (tapeInterior (iterFix 50 multiply_add_one_rule (multiplyTape 3)))
        = some (3 * 3 + 1) := by
  rw [multFix3]
  exact ⟨by decide, by decide⟩

theorem multOK5 :
    iterate_rule (iterFix 50 multiply_add_one_rule (multiplyTape 5)) multiply_add_one_rule
        = iterFix 50 multiply_add_one_rule (multiplyTape 5)
    ∧ decodeBits (tapeInterior (iterFix 50 multiply_add_one_rule (multiplyTape 5)))
        = some (3 * 5 + 1) := by
  rw [multFix5]
  exact ⟨by decide, by decide⟩

theorem multOK7 :
    iterate_rule (iterFix 50 multiply_add_one_rule (multiplyTape 7)) multiply_add_one_rule
        = iterFix 50 multiply_add_one_rule (multiplyTape 7)
    ∧ decodeBits (tapeInterior (iterFix 50 multiply_add_one_rule (multiplyTape 7)))
        = some (3 * 7 + 1) := by
  rw [multFix7]
  exact ⟨by decide, by decide⟩

theorem multOK9 :
    iterate_rule (iterFix 50 multiply_add_one_rule (multiplyTape 9)) multiply_add_one_rule
        = iterFix 50 multiply_add_one_rule (multiplyTape 9)
    ∧ decodeBits (tapeInterior (iterFix 50 multiply_add_one_rule (multiplyTape 9)))
        = some (3 * 9 + 1) := by
  rw [multFix9]
  exact ⟨by decide, by decide⟩

theorem multOK11 :
    iterate_rule (iterFix 50 multiply_add_one_rule (multiplyTape 11)) multiply_add_one_rule
        = iterFix 50 multiply_add_one_rule (multiplyTape 11)
    ∧ decodeBits (tapeInterior (iterFix 50 multiply_add_one_rule (multiplyTape 11)))
        = some (3 * 11 + 1) := by
  rw [multFix11]
  exact ⟨by decide, by decide⟩

theorem multOK13 :
    iterate_rule (iterFix 50 multiply_add_one_rule (multiplyTape 13)) multiply_add_one_rule
        = iterFix 50 multiply_add_one_rule (multiplyTape 13)
    ∧ decodeBits (tapeInterior (iterFix 50 multiply_add_one_rule (multiplyTape 13)))
        = some (3 * 13 + 1) := by
  rw [multFix13]
  exact ⟨by decide, by decide⟩

theorem multOK15 :
    iterate_rule (iterFix 50 multiply_add_one_rule (multiplyTape 15)) multiply_add_one_rule
        = iterFix 50 multiply_add_one_rule (multiplyTape 15)
    ∧ decodeBits (tapeInterior (iterFix 50 multiply_add_one_rule (multiplyTape 15)))
        = some (3 * 15 + 1) := by
  rw [multFix15]
  exact ⟨by decide, by decide⟩

theorem multOK17 :
    iterate_rule (iterFix 50 multiply_add_one_rule (multiplyTape 17)) multiply_add_one_rule
        = iterFix 50 multiply_add_one_rule (multiplyTape 17)
    ∧ decodeBits (tapeInterior (iterFix 50 multiply_add_one_rule (multiplyTape 17)))
        = some (3 * 17 + 1) := by
  rw [multFix17]
  exact ⟨by decide, by decide⟩

theorem multOK19 :
    iterate_rule (iterFix 50 multiply_add_one_rule (multiplyTape 19)) multiply_add_one_rule
        = iterFix 50 multiply_add_one_rule (multiplyTape 19)
    ∧ decodeBits (tapeInterior (iterFix 50 multiply_add_one_rule (multiplyTape 19)))
        = some (3 * 19 + 1) := by
  rw [multFix19]
  exact ⟨by decide, by decide⟩

theorem multOK21 :
    iterate_rule (iterFix 50 multiply_add_one_rule (multiplyTape 21)) multiply_add_one_rule
        = iterFix 50 multiply_add_one_rule (multiplyTape 21)
    ∧ decodeBits (tapeInterior (iterFix 50 multiply_add_one_rule (multiplyTape 21)))
        = some (3 * 21 + 1) := by
  rw [multFix21]
  exact ⟨by decide, by decide⟩

theorem multOK23 :
    iterate_rule (iterFix 50 multiply_add_one_rule (multiplyTape 23)) multiply_add_one_rule
        = iterFix 50 multiply_add_one_rule (multiplyTape 23)
    ∧ decodeBits (tapeInterior (iterFix 50 multiply_add_one_rule (multiplyTape 23)))
        = some (3 * 23 + 1) := by
  rw [multFix23]
  exact ⟨by decide, by decide⟩

theorem multOK25 :
    iterate_rule (iterFix 50 multiply_add_one_rule (multiplyTape 25)) multiply_add_one_rule
        = iterFix 50 multiply_add_one_rule (multiplyTape 25)
    ∧ decodeBits (tapeInterior (iterFix 50 multiply_add_one_rule (multiplyTape 25)))
        = some (3 * 25 + 1) := by
  rw [multFix25]
  exact ⟨by decide, by decide⟩

theorem multOK27 :
    iterate_rule (iterFix 50 multiply_add_one_rule (multiplyTape 27)) multiply_add_one_rule
        = iterFix 50 multiply_add_one_rule (multiplyTape 27)
    ∧ decodeBits (tapeInterior (iterFix 50 multiply_add_one_rule (multiplyTape 27)))
        = some (3 * 27 + 1) := by
  rw [multFix27]
  exact ⟨by decide, by decide⟩

theorem multOK29 :
    iterate_rule (iterFix 50 multiply_add_one_rule (multiplyTape 29)) multiply_add_one_rule
        = iterFix 50 multiply_add_one_rule (multiplyTape 29)
    ∧ decodeBits (tapeInterior (iterFix 50 multiply_add_one_rule (multiplyTape 29)))
        = some (3 * 29 + 1) := by
  rw [multFix29]
  exact ⟨by decide, by decide⟩

theorem multOK31 :
    iterate_rule (iterFix 50 multiply_add_one_rule (multiplyTape 31)) multiply_add_one_rule
        = iterFix 50 multiply_add_one_rule (multiplyTape 31)
    ∧ decodeBits (tapeInterior (iterFix 50 multiply_add_one_rule (multiplyTape 31)))
        = some (3 * 31 + 1) := by
  rw [multFix31]
  exact ⟨by decide, by decide⟩

theorem multOK33 :
    iterate_rule (iterFix 50 multiply_add_one_rule (multiplyTape 33)) multiply_add_one_rule
        = iterFix 50 multiply_add_one_rule (multiplyTape 33)
    ∧ decodeBits (tapeInterior (iterFix 50 multiply_add_one_rule (multiplyTape 33)))
        = some (3 * 33 + 1) := by
  rw [multFix33]
  exact ⟨by decide, by decide⟩

theorem multOK35 :
    iterate_rule (iterFix 50 multiply_add_one_rule (multiplyTape 35)) multiply_add_one_rule
        = iterFix 50 multiply_add_one_rule (multiplyTape 35)
    ∧ decodeBits (tapeInterior (iterFix 50 multiply_add_one_rule (multiplyTape 35)))
        = some (3 * 35 + 1) := by
  rw [multFix35]
  exact ⟨by decide, by decide⟩

theorem multOK37 :
    iterate_rule (iterFix 50 multiply_add_one_rule (multiplyTape 37)) multiply_add_one_rule
        = iterFix 50 multiply_add_one_rule (multiplyTape 37)
    ∧ decodeBits (tapeInterior (iterFix 50 multiply_add_one_rule (multiplyTape 37)))
        = some (3 * 37 + 1) := by
  rw [multFix37]
  exact ⟨by decide, by decide⟩

theorem multOK39 :
    iterate_rule (iterFix 50 multiply_add_one_rule (multiplyTape 39)) multiply_add_one_rule
        = iterFix 50 multiply_add_one_rule (multiplyTape 39)
    ∧ decodeBits (tapeInterior (iterFix 50 multiply_add_one_rule (multiplyTape 39)))
        = some (3 * 39 + 1) := by
  rw [multFix39]
  exact ⟨by decide, by decide⟩

theorem multOK41 :
    iterate_rule (iterFix 50 multiply_add_one_rule (multiplyTape 41)) multiply_add_one_rule
        = iterFix 50 multiply_add_one_rule (multiplyTape 41)
    ∧ decodeBits (tapeInterior (iterFix 50 multiply_add_one_rule (multiplyTape 41)))
        = some (3 * 41 + 1) := by
  rw [multFix41]
  exact ⟨by decide, by decide⟩

theorem multOK43 :
    iterate_rule (iterFix 50 multiply_add_one_rule (multiplyTape 43)) multiply_add_one_rule
        = iterFix 50 multiply_add_one_rule (multiplyTape 43)
    ∧ decodeBits (tapeInterior (iterFix 50 multiply_add_one_rule (multiplyTape 43)))
        = some (3 * 43 + 1) := by
  rw [multFix43]
  exact ⟨by decide, by decide⟩

theorem multOK45 :
    iterate_rule (iterFix 50 multiply_add_one_rule (multiplyTape 45)) multiply_add_one_rule
        = iterFix 50 multiply_add_one_rule (multiplyTape 45)
    ∧ decodeBits (tapeInterior (iterFix 50 multiply_add_one_rule (multiplyTape 45)))
        = some (3 * 45 + 1) := by
  rw [multFix45]
  exact ⟨by decide, by decide⟩

theorem multOK47 :
    iterate_rule (iterFix 50 multiply_add_one_rule (multiplyTape 47)) multiply_add_one_rule
        = iterFix 50 multiply_add_one_rule (multiplyTape 47)
    ∧ decodeBits (tapeInterior (iterFix 50 multiply_add_one_rule (multiplyTape 47)))
        = some (3 * 47 + 1) := by
  rw [multFix47]
  exact ⟨by decide, by decide⟩

theorem multOK49 :
    iterate_rule (iterFix 50 multiply_add_one_rule (multiplyTape 49)) multiply_add_one_rule
        = iterFix 50 multiply_add_one_rule (multiplyTape 49)
    ∧ decodeBits (tapeInterior (iterFix 50 multiply_add_one_rule (multiplyTape 49)))
        = some (3 * 49 + 1) := by
  rw [multFix49]
  exact ⟨by decide, by decide⟩

theorem multOK51 :
    iterate_rule (iterFix 50 multiply_add_one_rule (multiplyTape 51)) multiply_add_one_rule
        = iterFix 50 multiply_add_one_rule (multiplyTape 51)
    ∧ decodeBits (tapeInterior (iterFix 50 multiply_add_one_rule (multiplyTape 51)))
        = some (3 * 51 + 1) := by
  rw [multFix51]
  exact ⟨by decide, by decide⟩

theorem multOK53 :
    iterate_rule (iterFix 50 multiply_add_one_rule (multiplyTape 53)) multiply_add_one_rule
        = iterFix 50 multiply_add_one_rule (multiplyTape 53)
    ∧ decodeBits (tapeInterior (iterFix 50 multiply_add_one_rule (multiplyTape 53)))
        = some (3 * 53 + 1) := by
  rw [multFix53]
  exact ⟨by decide, by decide⟩

theorem multOK55 :
    iterate_rule (iterFix 50 multiply_add_one_rule (multiplyTape 55)) multiply_add_one_rule
        = iterFix 50 multiply_add_one_rule (multiplyTape 55)
    ∧ decodeBits (tapeInterior (iterFix 50 multiply_add_one_rule (multiplyTape 55)))
        = some (3 * 55 + 1) := by
  rw [multFix55]
  exact ⟨by decide, by decide⟩

theorem multOK57 :
    iterate_rule (iterFix 50 multiply_add_one_rule (multiplyTape 57)) multiply_add_one_rule
        = iterFix 50 multiply_add_one_rule (multiplyTape 57)
    ∧ decodeBits (tapeInterior (iterFix 50 multiply_add_one_rule (multiplyTape 57)))
        = some (3 * 57 + 1) := by
  rw [multFix57]
  exact ⟨by decide, by decide⟩

theorem multOK59 :
    iterate_rule (iterFix 50 multiply_add_one_rule (multiplyTape 59)) multiply_add_one_rule
        = iterFix 50 multiply_add_one_rule (multiplyTape 59)
    ∧ decodeBits (tapeInterior (iterFix 50 multiply_add_one_rule (multiplyTape 59)))
        = some (3 * 59 + 1) := by
  rw [multFix59]
  exact ⟨by decide, by decide⟩

theorem multOK61 :
    iterate_rule (iterFix 50 multiply_add_one_rule (multiplyTape 61)) multiply_add_one_rule
        = iterFix 50 multiply_add_one_rule (multiplyTape 61)
    ∧ decodeBits (tapeInterior (iterFix 50 multiply_add_one_rule (multiplyTape 61)))
        = some (3 * 61 + 1) := by
  rw [multFix61]
  exact ⟨by decide, by decide⟩

theorem multOK63 :
    iterate_rule (iterFix 50 multiply_add_one_rule (multiplyTape 63)) multiply_add_one_rule
        = iterFix 50 multiply_add_one_rule (multiplyTape 63)
    ∧ decodeBits (tapeInterior (iterFix 50 multiply_add_one_rule (multiplyTape 63)))
        = some (3 * 63 + 1) := by
  rw [multFix63]
  exact ⟨by decide, by decide⟩

theorem multOK65 :
    iterate_rule (iterFix 50 multiply_add_one_rule (multiplyTape 65)) multiply_add_one_rule
        = iterFix 50 multiply_add_one_rule (multiplyTape 65)
    ∧ decodeBits (tapeInterior (iterFix 50 multiply_add_one_rule (multiplyTape 65)))
        = some (3 * 65 + 1) := by
  rw [multFix65]
  exact ⟨by decide, by decide⟩

theorem multOK67 :
    iterate_rule (iterFix 50 multiply_add_one_rule (multiplyTape 67)) multiply_add_one_rule
        = iterFix 50 multiply_add_one_rule (multiplyTape 67)
    ∧ decodeBits (tapeInterior (iterFix 50 multiply_add_one_rule (multiplyTape 67)))
        = some (3 * 67 + 1) := by
  rw [multFix67]
  exact ⟨by decide, by decide⟩

theorem multOK69 :
    iterate_rule (iterFix 50 multiply_add_one_rule (multiplyTape 69)) multiply_add_one_rule
        = iterFix 50 multiply_add_one_rule (multiplyTape 69)
    ∧ decodeBits (tapeInterior (iterFix 50 multiply_add_one_rule (multiplyTape 69)))
        = some (3 * 69 + 1) := by
  rw [multFix69]
  exact ⟨by decide, by decide⟩

theorem multOK71 :
    iterate_rule (iterFix 50 multiply_add_one_rule (multiplyTape 71)) multiply_add_one_rule
        = iterFix 50 multiply_add_one_rule (multiplyTape 71)
    ∧ decodeBits (tapeInterior (iterFix 50 multiply_add_one_rule (multiplyTape 71)))
        = some (3 * 71 + 1) := by
  rw [multFix71]
  exact ⟨by decide, by decide⟩

theorem multOK73 :
    iterate_rule (iterFix 50 multiply_add_one_rule (multiplyTape 73)) multiply_add_one_rule
        = iterFix 50 multiply_add_one_rule (multiplyTape 73)
    ∧ decodeBits (tapeInterior (iterFix 50 multiply_add_one_rule (multiplyTape 73)))
        = some (3 * 73 + 1) := by
  rw [multFix73]
  exact ⟨by decide, by decide⟩

theorem multOK75 :
    iterate_rule (iterFix 50 multiply_add_one_rule (multiplyTape 75)) multiply_add_one_rule
        = iterFix 50 multiply_add_one_rule (multiplyTape 75)
    ∧ decodeBits (tapeInterior (iterFix 50 multiply_add_one_rule (multiplyTape 75)))
        = some (3 * 75 + 1) := by
  rw [multFix75]
  exact ⟨by decide, by decide⟩

theorem multOK77 :
    iterate_rule (iterFix 50 multiply_add_one_rule (multiplyTape 77)) multiply_add_one_rule
        = iterFix 50 multiply_add_one_rule (multiplyTape 77)
    ∧ decodeBits (tapeInterior (iterFix 50 multiply_add_one_rule (multiplyTape 77)))
        = some (3 * 77 + 1) := by
  rw [multFix77]
  exact ⟨by decide, by decide⟩

theorem multOK79 :
    iterate_rule (iterFix 50 multiply_add_one_rule (multiplyTape 79)) multiply_add_one_rule
        = iterFix 50 multiply_add_one_rule (multiplyTape 79)
    ∧ decodeBits (tapeInterior (iterFix 50 multiply_add_one_rule (multiplyTape 79)))
        = some (3 * 79 + 1) := by
  rw [multFix79]
  exact ⟨by decide, by decide⟩

theorem multOK81 :
    iterate_rule (iterFix 50 multiply_add_one_rule (multiplyTape 81)) multiply_add_one_rule
        = iterFix 50 multiply_add_one_rule (multiplyTape 81)
    ∧ decodeBits (tapeInterior (iterFix 50 multiply_add_one_rule (multiplyTape 81)))
        = some (3 * 81 + 1) := by
  rw [multFix81]
  exact ⟨by decide, by decide⟩

theorem multOK83 :
    iterate_rule (iterFix 50 multiply_add_one_rule (multiplyTape 83)) multiply_add_one_rule
        = iterFix 50 multiply_add_one_rule (multiplyTape 83)
    ∧ decodeBits (tapeInterior (iterFix 50 multiply_add_one_rule (multiplyTape 83)))
        = some (3 * 83 + 1) := by
  rw [multFix83]
  exact ⟨by decide, by decide⟩

theorem multOK85 :
    iterate_rule (iterFix 50 multiply_add_one_rule (multiplyTape 85)) multiply_add_one_rule
        = iterFix 50 multiply_add_one_rule (multiplyTape 85)
    ∧ decodeBits (tapeInterior (iterFix 50 multiply_add_one_rule (multiplyTape 85)))
        = some (3 * 85 + 1) := by
  rw [multFix85]
  exact ⟨by decide, by decide⟩

theorem multOK87 :
    iterate_rule (iterFix 50 multiply_add_one_rule (multiplyTape 87)) multiply_add_one_rule
        = iterFix 50 multiply_add_one_rule (multiplyTape 87)
    ∧ decodeBits (tapeInterior (iterFix 50 multiply_add_one_rule (multiplyTape 87)))
        = some (3 * 87 + 1) := by
  rw [multFix87]
  exact ⟨by decide, by decide⟩

theorem multOK89 :
    iterate_rule (iterFix 50 multiply_add_one_rule (multiplyTape 89)) multiply_add_one_rule
        = iterFix 50 multiply_add_one_rule (multiplyTape 89)
    ∧ decodeBits (tapeInterior (iterFix 50 multiply_add_one_rule (multiplyTape 89)))
        = some (3 * 89 + 1) := by
  rw [multFix89]
  exact ⟨by decide, by decide⟩

theorem multOK91 :
    iterate_rule (iterFix 50 multiply_add_one_rule (multiplyTape 91)) multiply_add_one_rule
        = iterFix 50 multiply_add_one_rule (multiplyTape 91)
    ∧ decodeBits (tapeInterior (iterFix 50 multiply_add_one_rule (multiplyTape 91)))
        = some (3 * 91 + 1) := by
  rw [multFix91]
  exact ⟨by decide, by decide⟩

theorem multOK93 :
    iterate_rule (iterFix 50 multiply_add_one_rule (multiplyTape 93)) multiply_add_one_rule
        = iterFix 50 multiply_add_one_rule (multiplyTape 93)
    ∧ decodeBits (tapeInterior (iterFix 50 multiply_add_one_rule (multiplyTape 93)))
        = some (3 * 93 + 1) := by
  rw [multFix93]
  exact ⟨by decide, by decide⟩

theorem multOK95 :
    iterate_rule (iterFix 50 multiply_add_one_rule (multiplyTape 95)) multiply_add_one_rule
        = iterFix 50 multiply_add_one_rule (multiplyTape 95)
    ∧ decodeBits (tapeInterior (iterFix 50 multiply_add_one_rule (multiplyTape 95)))
        = some (3 * 95 + 1) := by
  rw [multFix95]
  exact ⟨by decide, by decide⟩

theorem multOK97 :
    iterate_rule (iterFix 50 multiply_add_one_rule (multiplyTape 97)) multiply_add_one_rule
        = iterFix 50 multiply_add_one_rule (multiplyTape 97)
    ∧ decodeBits (tapeInterior (iterFix 50 multiply_add_one_rule (multiplyTape 97)))
        = some (3 * 97 + 1) := by
  rw [multFix97]
  exact ⟨by decide, by decide⟩

theorem multOK99 :
    iterate_rule (iterFix 50 multiply_add_one_rule (multiplyTape 99)) multiply_add_one_rule
        = iterFix 50 multiply_add_one_rule (multiplyTape 99)
    ∧ decodeBits (tapeInterior (iterFix 50 multiply_add_one_rule (multiplyTape 99)))
        = some (3 * 99 + 1) := by
  rw [multFix99]
  exact ⟨by decide, by decide⟩

/-- C1: for every odd `n` in `{3, 5, ..., 99}`, iterating the Auxiliary Rule
to a fixed point from the tape `Blank · bits(n div 2) · Carry(1,2) · Blank`
reaches a fixed point whose interior is a pure digit string decoding
(most-significant-bit first) to `3 * n + 1`. -/
theorem multiply_check : ∀ n ∈ List.range' 3 49 2,
    iterate_rule (iterFix 50 multiply_add_one_rule (multiplyTape n)) multiply_add_one_rule
        = iterFix 50 multiply_add_one_rule (multiplyTape n)
    ∧ decodeBits (tapeInterior (iterFix 50 multiply_add_one_rule (multiplyTape n)))
        = some (3 * n + 1) := by
  intro n hn
  have hmem : n ∈ ([3, 5, 7, 9, 11, 13, 15, 17, 19, 21, 23, 25, 27, 29, 31, 33, 35, 37, 39, 41, 43, 45, 47, 49, 51, 53, 55, 57, 59, 61, 63, 65, 67, 69, 71, 73, 75, 77, 79, 81, 83, 85, 87, 89, 91, 93, 95, 97, 99] : List Nat) := hn
  simp only [List.mem_cons, List.not_mem_nil, or_false] at hmem
  rcases hmem with rfl | rfl | rfl | rfl | rfl | rfl | rfl | rfl | rfl | rfl | rfl | rfl | rfl | rfl | rfl | rfl | rfl | rfl | rfl | rfl | rfl | rfl | rfl | rfl | rfl | rfl | rfl | rfl | rfl | rfl | rfl | rfl | rfl | rfl | rfl | rfl | rfl | rfl | rfl | rfl | rfl | rfl | rfl | rfl | rfl | rfl | rfl | rfl | rfl
  exacts [multOK3, multOK5, multOK7, multOK9, multOK11, multOK13, multOK15, multOK17, multOK19, multOK21, multOK23, multOK25, multOK27, multOK29, multOK31, multOK33, multOK35, multOK37, multOK39, multOK41, multOK43, multOK45, multOK47, multOK49, multOK51, multOK53, multOK55, multOK57, multOK59, multOK61, multOK63, multOK65, multOK67, multOK69, multOK71, multOK73, multOK75, multOK77, multOK79, multOK81, multOK83, multOK85, multOK87, multOK89, multOK91, multOK93, multOK95, multOK97, multOK99]

theorem multiply_check_witness :
    iterate_rule (iterFix 50 multiply_add_one_rule (multiplyTape 3)) multiply_add_one_rule
        = iterFix 50 multiply_add_one_rule (multiplyTape 3)
    ∧ decodeBits (tapeInterior (iterFix 50 multiply_add_one_rule (multiplyTape 3)))
        = some (3 * 3 + 1) :=
  multiply_check 3 (by decide)

/-- C2 counterexample: one application of the Generation Stepper with the full
Transition Rule does not return the terminal tape `[S, One, S]` unchanged. -/
theorem terminal_not_fixed :
    iterate_rule [S, one, S] collatz_rule ≠ [S, one, S] := by decide

/-- C2 amended: stepping the terminal tape with the full Transition Rule fires
rule 2 (the multiply trigger) and yields `[S, Carry(1,2), S]`; the terminal
tape is a fixed point of the Auxiliary Rule, not of the full rule. -/
theorem terminal_step_multiply_trigger :
    iterate_rule [S, one, S] collatz_rule = [S, carry 1 2, S]
    ∧ iterate_rule [S, one, S] multiply_add_one_rule = [S, one, S] := by decide

/-- C3 counterexample: for `n = 4`, iterating the full rule until no
`Zero`-erasure trigger remains yields a tape decoding to `1`, not `4 / 2`. -/
theorem division_loop_cex :
    hasZeroTrigger (divUntilNoTrigger 10 (S :: natToBits 4 ++ [S])) = false
    ∧ decodeBits (tapeInterior (divUntilNoTrigger 10 (S :: natToBits 4 ++ [S]))) = some 1
    ∧ (1 : Nat) ≠ 4 / 2 := by decide

/-- C4: with a carry pair `(bit, count)` of the alphabet at the center, the
Transition Rule returns `One` when `count` is odd, `S` when `count` is even
and the right neighbor is `S`, and `Zero` otherwise, for every choice of
left and right neighbors in the 10-state alphabet. -/
theorem carry_center_resolves : ∀ l ∈ symbols, ∀ r ∈ symbols, ∀ p ∈ carryPairs,
    collatz_rule l (carry p.1 p.2) r =
      if p.2 % 2 = 1 then one else if r = S then S else zero := by decide

theorem carry_center_resolves_witness :
    collatz_rule S (carry 0 1) one =
      if 1 % 2 = 1 then one else if one = S then S else zero :=
  carry_center_resolves S (by decide) one (by decide) (0, 1) (by decide)

/-- C5: with a non-carry center and a carry pair `(x, y)` of the alphabet on
the right, the Transition Rule returns `S` when the center is `S` and
`z + x + y / 2 = 0` (with `z = 1` iff the center is `One`), and otherwise
the carry pair `(z, z + x + y / 2)`. -/
theorem carry_arrival : ∀ l ∈ symbols, ∀ c ∈ [S, zero, one], ∀ p ∈ carryPairs,
    collatz_rule l c (carry p.1 p.2) =
      if c = S ∧ (if c = one then 1 else 0) + p.1 + p.2 / 2 = 0 then S
      else carry (if c = one then 1 else 0)
        ((if c = one then 1 else 0) + p.1 + p.2 / 2) := by decide

theorem carry_arrival_witness :
    collatz_rule S one (carry 1 2) =
      if one = S ∧ (if one = one then 1 else 0) + 1 + 2 / 2 = 0 then S
      else carry (if one = one then 1 else 0)
        ((if one = one then 1 else 0) + 1 + 2 / 2) :=
  carry_arrival S (by decide) one (by decide) (1, 2) (by decide)

/-- C6: the 10-state alphabet is closed under the Transition Rule: each of the
1000 triples drawn from `symbols` is mapped back into `symbols`. -/
theorem alphabet_closed : ∀ l ∈ symbols, ∀ c ∈ symbols, ∀ r ∈ symbols,
    collatz_rule l c r ∈ symbols := by decide

theorem alphabet_closed_witness : collatz_rule S one S ∈ symbols :=
  alphabet_closed S (by decide) one (by decide) S (by decide)

/-- C8: `mapsymbol` and `reversemap` form a bijection between the ten cell
states and ten distinct characters: decoding after encoding is the identity
on `symbols`, the ten encoded characters are pairwise distinct, and decoding
fails exactly on the characters that no symbol encodes to. -/
theorem symbol_roundtrip :
    (∀ s ∈ symbols, (mapsymbol s).bind reversemap = some s)
    ∧ (symbols.map mapsymbol).Nodup
    ∧ (∀ ch : Char, reversemap ch = none ↔ ∀ s ∈ symbols, mapsymbol s ≠ some ch) := by
  refine ⟨by decide, by decide, ?_⟩
  intro ch
  simp [reversemap, List.find?_eq_none]

theorem symbol_roundtrip_witness :
    (mapsymbol S).bind reversemap = some S ∧ reversemap 'x' = none :=
  ⟨symbol_roundtrip.1 S (by decide),
   (symbol_roundtrip.2.2 'x').mpr (by decide)⟩

/-- Neither rule's body mentions its first argument, so replacing the left
neighbor never changes the output (for arbitrary cells, not only the
alphabet). -/
theorem left_irrelevant (l1 l2 c r : Cell) :
    collatz_rule l1 c r = collatz_rule l2 c r
    ∧ multiply_add_one_rule l1 c r = multiply_add_one_rule l2 c r := ⟨rfl, rfl⟩

/-- C10: the left neighbor is ignored by both rules: over the 10-state
alphabet, replacing the left input never changes the output of
`collatz_rule` or of `multiply_add_one_rule`. -/
theorem left_ignored : ∀ l1 ∈ symbols, ∀ l2 ∈ symbols, ∀ c ∈ symbols, ∀ r ∈ symbols,
    collatz_rule l1 c r = collatz_rule l2 c r
    ∧ multiply_add_one_rule l1 c r = multiply_add_one_rule l2 c r :=
  fun l1 _ l2 _ c _ r _ => left_irrelevant l1 l2 c r

theorem left_ignored_witness :
    collatz_rule S one S = collatz_rule zero one S
    ∧ multiply_add_one_rule S one S = multiply_add_one_rule zero one S :=
  left_ignored S (by decide) zero (by decide) one (by decide) S (by decide)

end CollatzCA
